import Mathlib

/-!
# HDMI audio DMA driver (`sound/soc/hisilicon/asp_hdmi_dma.c`)

A shallow embedding of the register-level operations of the driver and the
properties of its natural-language specification.

* `unsigned int` values are natural numbers, wrapped with `u32` wherever the C
  code can leave the 32-bit range.
* The header `asp_hdmi_dma.h` (register offsets, masks, bit positions and the
  enumerations that index the lookup tables) is not among the sources, so all
  of its constants are the fields of a `Header` value that every operation
  takes as a parameter.
* The driver state is the singleton pointer `asp_hdmi_dma_priv`, the contents
  of the memory-mapped window, and the sequence of lock and bus events
  performed so far.
* An operation is a function from a state to an `Outcome`: it returns a value
  and a state, or the fatal `BUG_ON(NULL == priv)` fires.
* Kernel logging (`dev_err`, `dev_info`, `pr_info`) has no effect on the
  modelled state and is left out; a register read made to compute what is
  logged is kept.
-/

namespace AspHdmiDma

/-- Wrap a natural number to the range of a C `unsigned int`. -/
def u32 (x : Nat) : Nat := x % 2 ^ 32

/-- The C expression `~x` on an `unsigned int`. -/
def not32 (x : Nat) : Nat := 2 ^ 32 - 1 - u32 x

/-- Linux `EINVAL`. -/
def EINVAL : Int := 22

/-- Linux `ENOMEM`. -/
def ENOMEM : Int := 12

/-- Linux `ENOENT`. -/
def ENOENT : Int := 2

/-- The constants that `asp_hdmi_dma.c` takes from `asp_hdmi_dma.h`:
enumerators, register offsets, masks and bit positions. -/
structure Header where
  CHANNEL_NUM_1 : Nat
  CHANNEL_NUM_2 : Nat
  CHANNEL_NUM_4 : Nat
  CHANNEL_NUM_6 : Nat
  CHANNEL_NUM_8 : Nat
  CHANNEL_NUM_MAX : Nat
  BIT_WIDTH_16 : Nat
  BIT_WIDTH_17 : Nat
  BIT_WIDTH_18 : Nat
  BIT_WIDTH_19 : Nat
  BIT_WIDTH_20 : Nat
  BIT_WIDTH_21 : Nat
  BIT_WIDTH_22 : Nat
  BIT_WIDTH_23 : Nat
  BIT_WIDTH_24 : Nat
  BIT_WIDTH_MAX : Nat
  ALIGN_16 : Nat
  ALIGN_32 : Nat
  ALIGN_MAX : Nat
  SAMPLE_RATE_44 : Nat
  SAMPLE_RATE_48 : Nat
  SAMPLE_RATE_32 : Nat
  SAMPLE_RATE_96 : Nat
  SAMPLE_RATE_NO_SUPPORT : Nat
  SAMPLE_RATE_MAX : Nat
  ASP_HDMI_TX3 : Nat
  ASP_HDMI_DMA_EN : Nat
  ASP_HDMI_INT_EN : Nat
  ASP_HDMI_INT_STATE : Nat
  ASP_HDMI_INT_MSK_STATE : Nat
  ASP_HDMI_INT_CLR : Nat
  ASP_HDMI_A_ADDR : Nat
  ASP_HDMI_A_LEN : Nat
  ASP_HDMI_B_ADDR : Nat
  ASP_HDMI_B_LEN : Nat
  ASP_HDMI_I2S_CLR : Nat
  ASP_HDMI_I2S_SET : Nat
  ASP_HDMI_SPDIF_SEL : Nat
  ASP_HDMI_SIO_CH0_STATUS1_L : Nat
  ASP_HDMI_SIO_CH0_STATUS1_R : Nat
  ASP_HDMI_SIO_CH0_STATUS2_L : Nat
  ASP_HDMI_SIO_CH0_STATUS2_R : Nat
  HDMI_PCM_SWITCH_ORDE_MAST : Nat
  HDMI_PCM_SWITCH_ORDE_BIT : Nat
  HDMI_TX3_EN_MASK : Nat
  HDMI_TX3_EN_BIT : Nat
  HDMI_DMA_EN_MASK : Nat
  HDMI_DMA_DISABLE_MASK : Nat
  HDMI_INT_MASK : Nat
  HDMI_I2S_CLR_MASK : Nat
  HDMI_I2S_SET_MASK : Nat
  HDMI_DMA_ADD_VALID_MASK : Nat
  HDMI_DMA_ADDLEN_VALID_MASK : Nat
  HDMI_SIO_CHANNEL_TYPE_BIT : Nat
  HDMI_SIO_SAMPLE_RATE_BIT : Nat
  HDMI_SIO_HDCP_BIT : Nat
  HDMI_SIO_BITWIDTH_MASK : Nat

/-- A two-column table written with C designated initialisers
`[index] = {first, second}`: rows that no initialiser names are zero, and when
an index is named more than once the last initialiser is the one that counts. -/
def designated (inits : List (Nat × (Nat × Nat))) (i : Nat) : Nat × Nat :=
  match inits.reverse.find? (fun e => e.1 == i) with
  | some e => e.2
  | none => (0, 0)

/-- channel info: channel_num, reg_value -/
def asp_hdmi_channel_num (h : Header) : Nat → Nat × Nat :=
  designated
    [ (h.CHANNEL_NUM_1, (1, 0x0)),
      (h.CHANNEL_NUM_2, (2, 0x1)),
      (h.CHANNEL_NUM_4, (4, 0x3)),
      (h.CHANNEL_NUM_6, (6, 0x5)),
      (h.CHANNEL_NUM_8, (8, 0x7)) ]

/-- bit_width info: bit_width, reg_value -/
def asp_hdmi_bit_width (h : Header) : Nat → Nat × Nat :=
  designated
    [ (h.BIT_WIDTH_16, (16, 0x0)),
      (h.BIT_WIDTH_17, (17, 0x1)),
      (h.BIT_WIDTH_18, (18, 0x2)),
      (h.BIT_WIDTH_19, (19, 0x3)),
      (h.BIT_WIDTH_20, (20, 0x4)),
      (h.BIT_WIDTH_21, (21, 0x5)),
      (h.BIT_WIDTH_22, (22, 0x6)),
      (h.BIT_WIDTH_23, (23, 0x7)),
      (h.BIT_WIDTH_24, (24, 0x8)) ]

/-- align type: align type, reg_value -/
def asp_hdmi_align_type (h : Header) : Nat → Nat × Nat :=
  designated
    [ (h.ALIGN_16, (16, 0x1)),
      (h.ALIGN_32, (32, 0x0)) ]

/-- sample rate info: sample rate, reg_value. The C array has
`SAMPLE_RATE_MAX` rows; an index at or above that lies outside the array, and
reads as a zero row here. -/
def asp_hdmi_sio_sample_rate (h : Header) : Nat → Nat × Nat :=
  designated
    [ (h.SAMPLE_RATE_44, (44, 0x00)),
      (h.SAMPLE_RATE_48, (48, 0x02)),
      (h.SAMPLE_RATE_32, (32, 0x03)),
      (h.SAMPLE_RATE_96, (96, 0x0A)) ]

/-- The fields of `struct asp_hdmi_dma_priv` that the register operations and
the attach path use: the owning device, the memory resource (start, size) and
the mapped base address of the register window. -/
structure asp_hdmi_dma_priv where
  dev : Nat
  res : Nat × Nat
  asp_dma_reg_base_addr : Nat
deriving DecidableEq, Repr

/-- `struct tx3_config_parameters`. -/
structure tx3_config_parameters where
  channel_num : Nat
  bit_width : Nat
  align_type : Nat
deriving DecidableEq, Repr

/-- `struct sio_config_parameters`; `tx3_conf` is the structure the C field
points to. -/
structure sio_config_parameters where
  tx3_conf : tx3_config_parameters
  sample_rate : Nat
  is_hdcp : Bool
deriving DecidableEq, Repr

/-- A `struct platform_device` as the attach path sees it. -/
structure platform_device where
  /-- the embedded `struct device` -/
  dev : Nat
  /-- what `platform_get_resource(pdev, IORESOURCE_MEM, 0)` finds: the start and
  the size of the window, `none` when there is no such resource -/
  resource : Option (Nat × Nat)
  /-- the driver data pointer, `none` for `NULL` -/
  drvdata : Option asp_hdmi_dma_priv
deriving DecidableEq, Repr

/-- What the kernel services called by the attach path answer. -/
structure Kernel where
  /-- whether `devm_kzalloc` returns memory -/
  devm_kzalloc : Bool
  /-- the address `devm_ioremap` returns for a start and a size, 0 for `NULL` -/
  devm_ioremap : Nat → Nat → Nat

/-- What the driver does to the lock and to the bus. -/
inductive Event where
  | spin_lock_irqsave
  | spin_unlock_irqrestore
  | readl (addr : Nat)
  | writel (value addr : Nat)
deriving DecidableEq, Repr

/-- The state the driver acts on. -/
structure State where
  /-- the file-scope singleton `asp_hdmi_dma_priv` (`none` is `NULL`) -/
  asp_hdmi_dma_priv : Option asp_hdmi_dma_priv
  /-- contents of the memory-mapped window, by address -/
  mem : Nat → Nat
  /-- lock and bus events so far, oldest first -/
  trace : List Event

/-- How a call of a driver operation ends: it returns a value and leaves a
state, or `BUG()` fires, in the state reached by then, and nothing after it
runs. -/
inductive Outcome (α : Type) where
  | ret (r : α × State)
  | bug (s : State)

/-- Sequencing: what follows a call runs only when the call returned. -/
def Outcome.bind {α β : Type} (x : Outcome α) (f : α × State → Outcome β) : Outcome β :=
  match x with
  | Outcome.ret r => f r
  | Outcome.bug s => Outcome.bug s

/-- The value a call returned, when it returned. -/
def Outcome.returned {α : Type} (x : Outcome α) : Option α :=
  match x with
  | Outcome.ret r => some r.1
  | Outcome.bug _ => none

/-- A driver operation. -/
abbrev Op (α : Type) := State → Outcome α

/-- The register writes among a list of events, as (value, address), in order. -/
def writes : List Event → List (Nat × Nat)
  | [] => []
  | Event.writel v a :: es => (v, a) :: writes es
  | _ :: es => writes es

/-- The register reads among a list of events, by address, in order. -/
def reads : List Event → List Nat
  | [] => []
  | Event.readl a :: es => a :: reads es
  | _ :: es => reads es

def spin_lock_irqsave (s : State) : State :=
  { s with trace := s.trace ++ [Event.spin_lock_irqsave] }

def spin_unlock_irqrestore (s : State) : State :=
  { s with trace := s.trace ++ [Event.spin_unlock_irqrestore] }

/-- A 32-bit read of the window at `addr`. -/
def readl (addr : Nat) (s : State) : Nat × State :=
  (u32 (s.mem addr), { s with trace := s.trace ++ [Event.readl addr] })

/-- A 32-bit write of `value` to the window at `addr`. -/
def writel (value addr : Nat) (s : State) : State :=
  { s with mem := Function.update s.mem addr (u32 value),
           trace := s.trace ++ [Event.writel (u32 value) addr] }

def asp_hdmi_dmac_reg_read (reg : Nat) : Op Nat := fun s =>
  match s.asp_hdmi_dma_priv with
  | none => Outcome.bug s
  | some priv =>
    let s := spin_lock_irqsave s
    let (ret, s) := readl (priv.asp_dma_reg_base_addr + reg) s
    let s := spin_unlock_irqrestore s
    Outcome.ret (ret, s)

def asp_hdmi_dmac_reg_write (reg value : Nat) : Op Unit := fun s =>
  match s.asp_hdmi_dma_priv with
  | none => Outcome.bug s
  | some priv =>
    let s := spin_lock_irqsave s
    let s := writel value (priv.asp_dma_reg_base_addr + reg) s
    let s := spin_unlock_irqrestore s
    Outcome.ret ((), s)

/-- The constant `1 << offset` is taken as a 32-bit value: a shift count of 32
or more, undefined in C, shifts the bit out. -/
def asp_hdmi_dmac_reg_set_bit (reg offset : Nat) : Op Unit := fun s =>
  match s.asp_hdmi_dma_priv with
  | none => Outcome.bug s
  | some priv =>
    let s := spin_lock_irqsave s
    let (value, s) := readl (priv.asp_dma_reg_base_addr + reg) s
    let value := value ||| u32 (1 <<< offset)
    let s := writel value (priv.asp_dma_reg_base_addr + reg) s
    let s := spin_unlock_irqrestore s
    Outcome.ret ((), s)

/-- The mask `~(1 << offset)` is taken as a 32-bit value, as in
`asp_hdmi_dmac_reg_set_bit`. -/
def asp_hdmi_dmac_reg_clr_bit (reg offset : Nat) : Op Unit := fun s =>
  match s.asp_hdmi_dma_priv with
  | none => Outcome.bug s
  | some priv =>
    let s := spin_lock_irqsave s
    let (value, s) := readl (priv.asp_dma_reg_base_addr + reg) s
    let value := value &&& not32 (1 <<< offset)
    let s := writel value (priv.asp_dma_reg_base_addr + reg) s
    let s := spin_unlock_irqrestore s
    Outcome.ret ((), s)

/-- The result is the returned status and the content of `*reg_value` after
the call; `reg_value` is its content before the call. `BIT_WIDTH_MAX` and
`CHANNEL_NUM_MAX` are the row counts of tables that have rows, so they are
positive and `MAX - 1` is the same in C and on the natural numbers. -/
def asp_hdmi_transform_to_tx3_reg_value (h : Header) (parameters : tx3_config_parameters)
    (reg_value : Nat) : Op (Int × Nat) := fun s =>
  match s.asp_hdmi_dma_priv with
  | none => Outcome.bug s
  | some _ =>
    if h.BIT_WIDTH_MAX - 1 < parameters.bit_width then
      Outcome.ret ((-1, reg_value), s)
    else if h.CHANNEL_NUM_MAX - 1 < parameters.channel_num
        ∨ (h.CHANNEL_NUM_1 = parameters.channel_num ∧ h.BIT_WIDTH_16 ≠ parameters.bit_width) then
      Outcome.ret ((-1, reg_value), s)
    else if h.ALIGN_16 ≠ parameters.align_type ∧ h.ALIGN_32 ≠ parameters.align_type then
      Outcome.ret ((-1, reg_value), s)
    else
      let value := u32 (((asp_hdmi_bit_width h parameters.bit_width).2 <<< 3)
          ||| (h.HDMI_PCM_SWITCH_ORDE_MAST <<< h.HDMI_PCM_SWITCH_ORDE_BIT)
          ||| ((asp_hdmi_channel_num h parameters.channel_num).2 <<< 8)
          ||| ((asp_hdmi_align_type h parameters.align_type).2 <<< 7)
          ||| h.HDMI_TX3_EN_MASK)
      Outcome.ret ((0, value), s)

def asp_hdmi_tx3_config (h : Header) (parameters : tx3_config_parameters) : Op Int := fun s =>
  match s.asp_hdmi_dma_priv with
  | none => Outcome.bug s
  | some _ =>
    (asp_hdmi_transform_to_tx3_reg_value h parameters 0x0 s).bind fun ((ret, reg_value), s) =>
      if 0 ≠ ret then
        Outcome.ret (-1, s)
      else
        (asp_hdmi_dmac_reg_write h.ASP_HDMI_TX3 reg_value s).bind fun (_, s) =>
        Outcome.ret (0, s)

def asp_hdmi_tx3_disable (h : Header) : Op Unit := fun s =>
  (asp_hdmi_dmac_reg_read h.ASP_HDMI_TX3 s).bind fun (v, s) =>
    if 1 = (v &&& 0x1) then
      asp_hdmi_dmac_reg_clr_bit h.ASP_HDMI_TX3 h.HDMI_TX3_EN_BIT s
    else
      Outcome.ret ((), s)

def asp_hdmi_dma_is_stop (h : Header) : Op Bool := fun s =>
  (asp_hdmi_dmac_reg_read h.ASP_HDMI_DMA_EN s).bind fun (dma_en, s) =>
  (asp_hdmi_dmac_reg_read h.ASP_HDMI_INT_MSK_STATE s).bind fun (int_mask_flag, s) =>
    if ((dma_en ||| int_mask_flag) &&& h.HDMI_DMA_EN_MASK) ≠ 0 then
      Outcome.ret (false, s)
    else
      Outcome.ret (true, s)

def asp_hdmi_dma_config (h : Header) (addr size : Nat) : Op Int := fun s =>
  match s.asp_hdmi_dma_priv with
  | none => Outcome.bug s
  | some _ =>
    if 0 ≠ (addr &&& h.HDMI_DMA_ADD_VALID_MASK) ∨ 0 ≠ (size &&& h.HDMI_DMA_ADDLEN_VALID_MASK) then
      Outcome.ret (-EINVAL, s)
    else
      (asp_hdmi_dmac_reg_write h.ASP_HDMI_I2S_CLR h.HDMI_I2S_CLR_MASK s).bind fun (_, s) =>
      (asp_hdmi_dmac_reg_clr_bit h.ASP_HDMI_SPDIF_SEL 0 s).bind fun (_, s) =>
      (asp_hdmi_dmac_reg_write h.ASP_HDMI_A_ADDR addr s).bind fun (_, s) =>
      (asp_hdmi_dmac_reg_write h.ASP_HDMI_A_LEN size s).bind fun (_, s) =>
      (asp_hdmi_dmac_reg_write h.ASP_HDMI_B_ADDR (addr + size) s).bind fun (_, s) =>
      (asp_hdmi_dmac_reg_write h.ASP_HDMI_B_LEN size s).bind fun (_, s) =>
      (asp_hdmi_dmac_reg_write h.ASP_HDMI_INT_CLR h.HDMI_INT_MASK s).bind fun (_, s) =>
      Outcome.ret (0, s)

def asp_hdmi_dma_enable (h : Header) : Op Unit := fun s =>
  asp_hdmi_dmac_reg_write h.ASP_HDMI_DMA_EN h.HDMI_DMA_EN_MASK s

def asp_hdmi_reg_read_irsr (h : Header) : Op Nat := fun s =>
  asp_hdmi_dmac_reg_read h.ASP_HDMI_INT_STATE s

def asp_hdmi_tx3_enable (h : Header) : Op Unit := fun s =>
  asp_hdmi_dmac_reg_set_bit h.ASP_HDMI_TX3 h.HDMI_TX3_EN_BIT s

/-- The four `dev_info` calls that close the C function each read one register
for the value they print; those reads are the last four steps here. -/
def asp_hdmi_SIO_config (h : Header) (parameters : sio_config_parameters) : Op Unit := fun s =>
  match s.asp_hdmi_dma_priv with
  | none => Outcome.bug s
  | some _ =>
    -- set channel type
    (asp_hdmi_dmac_reg_set_bit h.ASP_HDMI_SIO_CH0_STATUS1_L h.HDMI_SIO_CHANNEL_TYPE_BIT s).bind
      fun (_, s) =>
    (asp_hdmi_dmac_reg_set_bit h.ASP_HDMI_SIO_CH0_STATUS1_R h.HDMI_SIO_CHANNEL_TYPE_BIT s).bind
      fun (_, s) =>
    -- set sample rate
    (if parameters.sample_rate < h.SAMPLE_RATE_NO_SUPPORT then
      (asp_hdmi_dmac_reg_read h.ASP_HDMI_SIO_CH0_STATUS1_L s).bind fun (reg_value, s) =>
      let reg_value := reg_value
        ||| u32 ((asp_hdmi_sio_sample_rate h parameters.sample_rate).2
              <<< h.HDMI_SIO_SAMPLE_RATE_BIT)
      (asp_hdmi_dmac_reg_write h.ASP_HDMI_SIO_CH0_STATUS1_L reg_value s).bind fun (_, s) =>
      asp_hdmi_dmac_reg_write h.ASP_HDMI_SIO_CH0_STATUS1_R reg_value s
    else
      Outcome.ret ((), s)).bind fun (_, s) =>
    -- set copy right
    (if parameters.is_hdcp = true then
      (asp_hdmi_dmac_reg_set_bit h.ASP_HDMI_SIO_CH0_STATUS1_L h.HDMI_SIO_HDCP_BIT s).bind
        fun (_, s) =>
      asp_hdmi_dmac_reg_set_bit h.ASP_HDMI_SIO_CH0_STATUS1_R h.HDMI_SIO_HDCP_BIT s
    else
      Outcome.ret ((), s)).bind fun (_, s) =>
    -- set bitwidth
    (if parameters.tx3_conf.bit_width < h.BIT_WIDTH_MAX then
      (asp_hdmi_dmac_reg_read h.ASP_HDMI_SIO_CH0_STATUS2_L s).bind fun (reg_value, s) =>
      let reg_value := reg_value ||| u32 h.HDMI_SIO_BITWIDTH_MASK
      (asp_hdmi_dmac_reg_write h.ASP_HDMI_SIO_CH0_STATUS2_L reg_value s).bind fun (_, s) =>
      asp_hdmi_dmac_reg_write h.ASP_HDMI_SIO_CH0_STATUS2_R reg_value s
    else
      Outcome.ret ((), s)).bind fun (_, s) =>
    (asp_hdmi_dmac_reg_read h.ASP_HDMI_SIO_CH0_STATUS1_L s).bind fun (_, s) =>
    (asp_hdmi_dmac_reg_read h.ASP_HDMI_SIO_CH0_STATUS2_L s).bind fun (_, s) =>
    (asp_hdmi_dmac_reg_read h.ASP_HDMI_SIO_CH0_STATUS1_R s).bind fun (_, s) =>
    (asp_hdmi_dmac_reg_read h.ASP_HDMI_SIO_CH0_STATUS2_R s).bind fun (_, s) =>
    Outcome.ret ((), s)

def asp_hdmi_dma_clear_interrupt (h : Header) (value : Nat) : Op Unit := fun s =>
  match s.asp_hdmi_dma_priv with
  | none => Outcome.bug s
  | some _ =>
    asp_hdmi_dmac_reg_write h.ASP_HDMI_INT_CLR value s

def asp_hdmi_dma_start (h : Header) : Op Int := fun s =>
  match s.asp_hdmi_dma_priv with
  | none => Outcome.bug s
  | some _ =>
    -- dma enable
    (asp_hdmi_dmac_reg_write h.ASP_HDMI_DMA_EN h.HDMI_DMA_EN_MASK s).bind fun (_, s) =>
    -- dma interrupt enable
    (asp_hdmi_dmac_reg_write h.ASP_HDMI_INT_EN h.HDMI_INT_MASK s).bind fun (_, s) =>
    -- set i2s
    (asp_hdmi_dmac_reg_write h.ASP_HDMI_I2S_SET h.HDMI_I2S_SET_MASK s).bind fun (_, s) =>
    Outcome.ret (0, s)

def asp_hdmi_dma_stop (h : Header) : Op Unit := fun s =>
  match s.asp_hdmi_dma_priv with
  | none => Outcome.bug s
  | some _ =>
    -- dma interrupt disable
    (asp_hdmi_dmac_reg_clr_bit h.ASP_HDMI_INT_EN 0 s).bind fun (_, s) =>
    (asp_hdmi_dmac_reg_clr_bit h.ASP_HDMI_INT_EN 1 s).bind fun (_, s) =>
    (asp_hdmi_dmac_reg_clr_bit h.ASP_HDMI_INT_EN 2 s).bind fun (_, s) =>
    -- dma disable
    asp_hdmi_dmac_reg_write h.ASP_HDMI_DMA_EN h.HDMI_DMA_DISABLE_MASK s

/-- The result is the returned status, the platform device after the call and
the driver state after the call. Initialising the wake lock and the spin lock
has no effect on the modelled state. -/
def asp_hdmi_dma_probe (k : Kernel) (pdev : Option platform_device) (s : State) :
    Int × Option platform_device × State :=
  match pdev with
  | none => (-EINVAL, none, s)
  | some pd =>
    if k.devm_kzalloc = false then
      (-ENOMEM, some pd, s)
    else
      match pd.resource with
      | none => (-ENOENT, some pd, s)
      | some res =>
        let asp_dma_reg_base_addr := k.devm_ioremap res.1 res.2
        if asp_dma_reg_base_addr = 0 then
          (-ENOMEM, some pd, s)
        else
          let priv : asp_hdmi_dma_priv :=
            { dev := pd.dev, res := res, asp_dma_reg_base_addr := asp_dma_reg_base_addr }
          (0, some { pd with drvdata := some priv }, { s with asp_hdmi_dma_priv := some priv })

/-- The result is the returned status and the driver state after the call;
`pdev.drvdata` is what `platform_get_drvdata(pdev)` returns. The driver data of
the platform device is not changed, and destroying the wake lock has no effect
on the modelled state. -/
def asp_hdmi_dma_remove (pdev : platform_device) (s : State) : Int × State :=
  match pdev.drvdata with
  | none => (0, s)
  | some _ => (0, { s with asp_hdmi_dma_priv := none })

/-- The conditions under which the TX3 transform is specified to succeed: both
indices inside their enumeration, a supported alignment, and not mono with a
bit width other than 16. -/
def supported (h : Header) (p : tx3_config_parameters) : Prop :=
  p.bit_width ≤ h.BIT_WIDTH_MAX - 1
    ∧ p.channel_num ≤ h.CHANNEL_NUM_MAX - 1
    ∧ (p.align_type = h.ALIGN_16 ∨ p.align_type = h.ALIGN_32)
    ∧ ¬ (p.channel_num = h.CHANNEL_NUM_1 ∧ p.bit_width ≠ h.BIT_WIDTH_16)

instance (h : Header) (p : tx3_config_parameters) : Decidable (supported h p) := by
  unfold supported; infer_instance

/-- Every field of the triple is one of the enumerators that name a table row. -/
def enumerated (h : Header) (p : tx3_config_parameters) : Prop :=
  p.bit_width ∈ [h.BIT_WIDTH_16, h.BIT_WIDTH_17, h.BIT_WIDTH_18, h.BIT_WIDTH_19,
      h.BIT_WIDTH_20, h.BIT_WIDTH_21, h.BIT_WIDTH_22, h.BIT_WIDTH_23, h.BIT_WIDTH_24]
    ∧ p.channel_num ∈ [h.CHANNEL_NUM_1, h.CHANNEL_NUM_2, h.CHANNEL_NUM_4, h.CHANNEL_NUM_6,
      h.CHANNEL_NUM_8]
    ∧ p.align_type ∈ [h.ALIGN_16, h.ALIGN_32]

instance (h : Header) (p : tx3_config_parameters) : Decidable (enumerated h p) := by
  unfold enumerated; infer_instance

/-- The value the TX3 transform composes from the three table codes. -/
def tx3_value (h : Header) (p : tx3_config_parameters) : Nat :=
  u32 (((asp_hdmi_bit_width h p.bit_width).2 <<< 3)
    ||| (h.HDMI_PCM_SWITCH_ORDE_MAST <<< h.HDMI_PCM_SWITCH_ORDE_BIT)
    ||| ((asp_hdmi_channel_num h p.channel_num).2 <<< 8)
    ||| ((asp_hdmi_align_type h p.align_type).2 <<< 7)
    ||| h.HDMI_TX3_EN_MASK)

/-- What C requires of the four table definitions for the file to compile:
every designated index is below the row count of its table. -/
def Header.initialisers_fit (h : Header) : Prop :=
  (∀ i ∈ [h.CHANNEL_NUM_1, h.CHANNEL_NUM_2, h.CHANNEL_NUM_4, h.CHANNEL_NUM_6,
      h.CHANNEL_NUM_8], i < h.CHANNEL_NUM_MAX)
    ∧ (∀ i ∈ [h.BIT_WIDTH_16, h.BIT_WIDTH_17, h.BIT_WIDTH_18, h.BIT_WIDTH_19,
      h.BIT_WIDTH_20, h.BIT_WIDTH_21, h.BIT_WIDTH_22, h.BIT_WIDTH_23, h.BIT_WIDTH_24],
      i < h.BIT_WIDTH_MAX)
    ∧ (∀ i ∈ [h.ALIGN_16, h.ALIGN_32], i < h.ALIGN_MAX)
    ∧ (∀ i ∈ [h.SAMPLE_RATE_44, h.SAMPLE_RATE_48, h.SAMPLE_RATE_32, h.SAMPLE_RATE_96],
      i < h.SAMPLE_RATE_MAX)

instance (h : Header) : Decidable h.initialisers_fit := by
  unfold Header.initialisers_fit; infer_instance

/-- Modelled from the spec: the place of `SAMPLE_RATE_NO_SUPPORT` in the
sample-rate enumeration of `asp_hdmi_dma.h`, which is not among the sources.
The specification reads the guard `sample_rate < SAMPLE_RATE_NO_SUPPORT` as
"sample_rate is within the supported enumeration" and has the lookup tables
map exactly the enumeration ("table index must be within the defined
enumeration range, else the parameter is unsupported"): an index below
`SAMPLE_RATE_NO_SUPPORT` is one of the four enumerators that the sample-rate
table has a row for. -/
def Header.supported_rates_enumerated (h : Header) : Prop :=
  ∀ r, r < h.SAMPLE_RATE_NO_SUPPORT →
    r ∈ [h.SAMPLE_RATE_44, h.SAMPLE_RATE_48, h.SAMPLE_RATE_32, h.SAMPLE_RATE_96]

instance (h : Header) : Decidable h.supported_rates_enumerated := by
  unfold Header.supported_rates_enumerated; infer_instance

/-- A header value used to evaluate the operations on concrete inputs: the
enumerators count from 0 in the order of the table rows, every register has
its own offset. -/
def sampleHeader : Header where
  CHANNEL_NUM_1 := 0
  CHANNEL_NUM_2 := 1
  CHANNEL_NUM_4 := 2
  CHANNEL_NUM_6 := 3
  CHANNEL_NUM_8 := 4
  CHANNEL_NUM_MAX := 5
  BIT_WIDTH_16 := 0
  BIT_WIDTH_17 := 1
  BIT_WIDTH_18 := 2
  BIT_WIDTH_19 := 3
  BIT_WIDTH_20 := 4
  BIT_WIDTH_21 := 5
  BIT_WIDTH_22 := 6
  BIT_WIDTH_23 := 7
  BIT_WIDTH_24 := 8
  BIT_WIDTH_MAX := 9
  ALIGN_16 := 0
  ALIGN_32 := 1
  ALIGN_MAX := 2
  SAMPLE_RATE_44 := 0
  SAMPLE_RATE_48 := 1
  SAMPLE_RATE_32 := 2
  SAMPLE_RATE_96 := 3
  SAMPLE_RATE_NO_SUPPORT := 4
  SAMPLE_RATE_MAX := 5
  ASP_HDMI_TX3 := 0x00
  ASP_HDMI_DMA_EN := 0x04
  ASP_HDMI_INT_EN := 0x08
  ASP_HDMI_INT_STATE := 0x0C
  ASP_HDMI_INT_MSK_STATE := 0x10
  ASP_HDMI_INT_CLR := 0x14
  ASP_HDMI_A_ADDR := 0x18
  ASP_HDMI_A_LEN := 0x1C
  ASP_HDMI_B_ADDR := 0x20
  ASP_HDMI_B_LEN := 0x24
  ASP_HDMI_I2S_CLR := 0x28
  ASP_HDMI_I2S_SET := 0x2C
  ASP_HDMI_SPDIF_SEL := 0x30
  ASP_HDMI_SIO_CH0_STATUS1_L := 0x34
  ASP_HDMI_SIO_CH0_STATUS1_R := 0x38
  ASP_HDMI_SIO_CH0_STATUS2_L := 0x3C
  ASP_HDMI_SIO_CH0_STATUS2_R := 0x40
  HDMI_PCM_SWITCH_ORDE_MAST := 0x1
  HDMI_PCM_SWITCH_ORDE_BIT := 17
  HDMI_TX3_EN_MASK := 0x1
  HDMI_TX3_EN_BIT := 0
  HDMI_DMA_EN_MASK := 0x3
  HDMI_DMA_DISABLE_MASK := 0x30000
  HDMI_INT_MASK := 0x7
  HDMI_I2S_CLR_MASK := 0x7FF0000
  HDMI_I2S_SET_MASK := 0x7FF
  HDMI_DMA_ADD_VALID_MASK := 0x1F
  HDMI_DMA_ADDLEN_VALID_MASK := 0x1F
  HDMI_SIO_CHANNEL_TYPE_BIT := 1
  HDMI_SIO_SAMPLE_RATE_BIT := 24
  HDMI_SIO_HDCP_BIT := 2
  HDMI_SIO_BITWIDTH_MASK := 0x2

/-- An attached device context for concrete evaluations. -/
def samplePriv : asp_hdmi_dma_priv :=
  { dev := 1, res := (0xE804E000, 0x400), asp_dma_reg_base_addr := 0x10000 }

/-- An attached state whose window reads `v` at every address. -/
def sampleState (v : Nat) : State :=
  { asp_hdmi_dma_priv := some samplePriv, mem := fun _ => v, trace := [] }

/-! ### The ISP stream-router register header

`soc_isp_stream_router_interface.h` declares, for each register, a union
`SOC_ISP_STREAM_ROUTER_<REG>_UNION` of an `unsigned int value` with a struct
`reg` of bit-fields, and for each bit-field `f` that is not a `reserved` one
the two constants `SOC_ISP_STREAM_ROUTER_<REG>_<f>_START` and
`SOC_ISP_STREAM_ROUTER_<REG>_<f>_END`. -/

/-- One bit-field of a `reg` struct, with its declared width; a named field
carries the values of its `_START` and `_END` constants. -/
inductive BitField where
  | named (name : String) (width start_value end_value : Nat)
  | reserved (name : String) (width : Nat)
deriving DecidableEq, Repr

def BitField.width : BitField → Nat
  | BitField.named _ w _ _ => w
  | BitField.reserved _ w => w

/-- The `_START` and `_END` constants of a named field. -/
def BitField.bounds : BitField → Option (Nat × Nat)
  | BitField.named _ _ s e => some (s, e)
  | BitField.reserved _ _ => none

/-- A register overlay: the union's name and the bit-fields of its `reg`
struct in declaration order. -/
structure RegUnion where
  name : String
  fields : List BitField
deriving DecidableEq, Repr

/-- The bit at which field number `i` begins when the fields are laid out in
declaration order from bit 0: the sum of the widths declared before it. -/
def field_offset (fields : List BitField) (i : Nat) : Nat :=
  ((fields.take i).map BitField.width).sum

/-- The 38 register overlays of `soc_isp_stream_router_interface.h`, in the
order of the file. -/
def SOC_ISP_STREAM_ROUTER_UNIONS : List RegUnion :=
  [
    RegUnion.mk "SOC_ISP_STREAM_ROUTER_CSIFILTER_A_UNION"
      [ BitField.named "csia_data_type_0" 6 0 5,
        BitField.named "csia_virtual_ch_0" 2 6 7,
        BitField.named "csia_data_type_1" 6 8 13,
        BitField.named "csia_virtual_ch_1" 2 14 15,
        BitField.named "csia_data_type_2" 6 16 21,
        BitField.named "csia_virtual_ch_2" 2 22 23,
        BitField.named "csia_data_type_3" 6 24 29,
        BitField.named "csia_virtual_ch_3" 2 30 31 ],
    RegUnion.mk "SOC_ISP_STREAM_ROUTER_CSIFILTER_B_UNION"
      [ BitField.named "csib_data_type_0" 6 0 5,
        BitField.named "csib_virtual_ch_0" 2 6 7,
        BitField.named "csib_data_type_1" 6 8 13,
        BitField.named "csib_virtual_ch_1" 2 14 15,
        BitField.named "csib_data_type_2" 6 16 21,
        BitField.named "csib_virtual_ch_2" 2 22 23,
        BitField.named "csib_data_type_3" 6 24 29,
        BitField.named "csib_virtual_ch_3" 2 30 31 ],
    RegUnion.mk "SOC_ISP_STREAM_ROUTER_CSIFILTER_C_UNION"
      [ BitField.named "csic_data_type_0" 6 0 5,
        BitField.named "csic_virtual_ch_0" 2 6 7,
        BitField.named "csic_data_type_1" 6 8 13,
        BitField.named "csic_virtual_ch_1" 2 14 15,
        BitField.named "csic_data_type_2" 6 16 21,
        BitField.named "csic_virtual_ch_2" 2 22 23,
        BitField.named "csic_data_type_3" 6 24 29,
        BitField.named "csic_virtual_ch_3" 2 30 31 ],
    RegUnion.mk "SOC_ISP_STREAM_ROUTER_CSIFILTER_GO_UNION"
      [ BitField.named "filter_go" 12 0 11,
        BitField.reserved "reserved" 20 ],
    RegUnion.mk "SOC_ISP_STREAM_ROUTER_PRESSURE_START_UNION"
      [ BitField.named "pressure_threshold_start_a" 8 0 7,
        BitField.named "pressure_threshold_start_b" 8 8 15,
        BitField.named "pressure_threshold_start_c" 8 16 23,
        BitField.reserved "reserved" 7,
        BitField.named "pressure_enable" 1 31 31 ],
    RegUnion.mk "SOC_ISP_STREAM_ROUTER_PRESSURE_STOP_UNION"
      [ BitField.named "pressure_threshold_stop_a" 8 0 7,
        BitField.named "pressure_threshold_stop_b" 8 8 15,
        BitField.named "pressure_threshold_stop_c" 8 16 23,
        BitField.reserved "reserved" 8 ],
    RegUnion.mk "SOC_ISP_STREAM_ROUTER_ID_ROUTER_0_UNION"
      [ BitField.named "idr_input_stream_0" 4 0 3,
        BitField.named "idr_enable_0" 1 4 4,
        BitField.reserved "reserved_0" 3,
        BitField.named "idr_input_stream_1" 4 8 11,
        BitField.named "idr_enable_1" 1 12 12,
        BitField.reserved "reserved_1" 3,
        BitField.named "idr_input_stream_2" 4 16 19,
        BitField.named "idr_enable_2" 1 20 20,
        BitField.reserved "reserved_2" 3,
        BitField.named "idr_input_stream_3" 4 24 27,
        BitField.named "idr_enable_3" 1 28 28,
        BitField.reserved "reserved_3" 3 ],
    RegUnion.mk "SOC_ISP_STREAM_ROUTER_ID_ROUTER_1_UNION"
      [ BitField.named "idr_input_stream_4" 4 0 3,
        BitField.named "idr_enable_4" 1 4 4,
        BitField.reserved "reserved_0" 3,
        BitField.named "idr_input_stream_5" 4 8 11,
        BitField.named "idr_enable_5" 1 12 12,
        BitField.reserved "reserved_1" 3,
        BitField.named "idr_input_stream_6" 4 16 19,
        BitField.named "idr_enable_6" 1 20 20,
        BitField.reserved "reserved_2" 3,
        BitField.named "idr_input_stream_7" 4 24 27,
        BitField.named "idr_enable_7" 1 28 28,
        BitField.reserved "reserved_3" 3 ],
    RegUnion.mk "SOC_ISP_STREAM_ROUTER_REFORMAT_UNION"
      [ BitField.named "reformat_num_lines" 13 0 12,
        BitField.named "reformat_pixel_reorder" 3 13 15,
        BitField.named "reformat_num_pixels" 13 16 28,
        BitField.reserved "reserved" 2,
        BitField.named "reformat_enable" 1 31 31 ],
    RegUnion.mk "SOC_ISP_STREAM_ROUTER_REFORMAT_MINSPACE_UNION"
      [ BitField.named "reformat_min_vertical_space" 6 0 5,
        BitField.reserved "reserved" 26 ],
    RegUnion.mk "SOC_ISP_STREAM_ROUTER_EOL_CNT_UNION"
      [ BitField.named "eol_num_lines_0" 13 0 12,
        BitField.reserved "reserved_0" 3,
        BitField.named "eol_num_lines_1" 13 16 28,
        BitField.reserved "reserved_1" 3 ],
    RegUnion.mk "SOC_ISP_STREAM_ROUTER_DPCM_UNION"
      [ BitField.named "dpcm_enable" 1 0 0,
        BitField.named "dpcm_format" 1 1 1,
        BitField.reserved "reserved" 30 ],
    RegUnion.mk "SOC_ISP_STREAM_ROUTER_VP_ROUTER_0_UNION"
      [ BitField.named "vpr_input_vp_0" 4 0 3,
        BitField.named "vpr_enable_0" 1 4 4,
        BitField.reserved "reserved_0" 3,
        BitField.named "vpr_input_vp_1" 4 8 11,
        BitField.named "vpr_enable_1" 1 12 12,
        BitField.reserved "reserved_1" 3,
        BitField.named "vpr_input_vp_2" 4 16 19,
        BitField.named "vpr_enable_2" 1 20 20,
        BitField.reserved "reserved_2" 3,
        BitField.named "vpr_input_vp_3" 4 24 27,
        BitField.named "vpr_enable_3" 1 28 28,
        BitField.reserved "reserved_3" 3 ],
    RegUnion.mk "SOC_ISP_STREAM_ROUTER_VP_ROUTER_1_UNION"
      [ BitField.named "vpr_input_vp_4" 4 0 3,
        BitField.named "vpr_enable_4" 1 4 4,
        BitField.reserved "reserved_0" 3,
        BitField.reserved "reserved_1" 8,
        BitField.named "vpr_input_vp_6" 4 16 19,
        BitField.named "vpr_enable_6" 1 20 20,
        BitField.reserved "reserved_2" 3,
        BitField.named "vpr_input_vp_7" 4 24 27,
        BitField.named "vpr_enable_7" 1 28 28,
        BitField.reserved "reserved_3" 3 ],
    RegUnion.mk "SOC_ISP_STREAM_ROUTER_VP_ROUTER_2_UNION"
      [ BitField.named "vpr_input_vp_8" 4 0 3,
        BitField.named "vpr_enable_8" 1 4 4,
        BitField.reserved "reserved_0" 3,
        BitField.named "vpr_input_vp_9" 4 8 11,
        BitField.named "vpr_enable_9" 1 12 12,
        BitField.reserved "reserved_1" 19 ],
    RegUnion.mk "SOC_ISP_STREAM_ROUTER_VP_ROUTER_3_UNION"
      [ BitField.reserved "reserved_0" 16,
        BitField.named "vpr_input_vp_14" 4 16 19,
        BitField.named "vpr_enable_14" 1 20 20,
        BitField.reserved "reserved_1" 3,
        BitField.named "vpr_input_vp_15" 4 24 27,
        BitField.named "vpr_enable_15" 1 28 28,
        BitField.reserved "reserved_2" 3 ],
    RegUnion.mk "SOC_ISP_STREAM_ROUTER_PIXFRAG_CONVERT_UNION"
      [ BitField.named "dma5_out" 1 0 0,
        BitField.named "dma4_out" 1 1 1,
        BitField.named "dma3_out" 1 2 2,
        BitField.named "dma2_out" 1 3 3,
        BitField.named "dma1_out" 1 4 4,
        BitField.named "fe2_out" 1 5 5,
        BitField.named "fe1_out" 1 6 6,
        BitField.reserved "reserved" 25 ],
    RegUnion.mk "SOC_ISP_STREAM_ROUTER_PEAK_CTRL_UNION"
      [ BitField.named "peak_fifo_id" 3 0 2,
        BitField.reserved "reserved_0" 5,
        BitField.named "peak_enable" 1 8 8,
        BitField.reserved "reserved_1" 23 ],
    RegUnion.mk "SOC_ISP_STREAM_ROUTER_PEAK_STATUS_UNION"
      [ BitField.named "peak_fifo_status" 12 0 11,
        BitField.reserved "reserved" 17,
        BitField.named "csi_afifo_status" 3 29 31 ],
    RegUnion.mk "SOC_ISP_STREAM_ROUTER_BP_SOURCE_UNION"
      [ BitField.named "bp_source_a" 2 0 1,
        BitField.named "bp_source_b" 2 2 3,
        BitField.named "bp_source_c" 2 4 5,
        BitField.reserved "reserved" 26 ],
    RegUnion.mk "SOC_ISP_STREAM_ROUTER_BP_FIFO_CFG_UNION"
      [ BitField.reserved "reserved" 30,
        BitField.named "bp_fifo_mode" 2 30 31 ],
    RegUnion.mk "SOC_ISP_STREAM_ROUTER_DFS_TRIG_0_UNION"
      [ BitField.named "dfs_trig_threshold_bpa" 10 0 9,
        BitField.named "dfs_trig_threshold_bpb" 10 10 19,
        BitField.named "dfs_trig_threshold_bpc" 10 20 29,
        BitField.named "dfs_trig_vsync_source" 2 30 31 ],
    RegUnion.mk "SOC_ISP_STREAM_ROUTER_DFS_TRIG_1_UNION"
      [ BitField.named "dfs_window_wait_after" 16 0 15,
        BitField.named "dfs_trig_vsync_enable" 16 16 31 ],
    RegUnion.mk "SOC_ISP_STREAM_ROUTER_DFS_WINDOW_UNION"
      [ BitField.named "pressure_threshold_start_dfs_bpa" 10 0 9,
        BitField.named "pressure_threshold_start_dfs_bpb" 10 10 19,
        BitField.reserved "reserved" 11,
        BitField.named "dfs_window_mode" 1 31 31 ],
    RegUnion.mk "SOC_ISP_STREAM_ROUTER_CROPV_UNION"
      [ BitField.named "cropv_start_0" 13 0 12,
        BitField.reserved "reserved_0" 3,
        BitField.named "cropv_end_0" 13 16 28,
        BitField.reserved "reserved_1" 2,
        BitField.reserved "reserved_2" 1 ],
    RegUnion.mk "SOC_ISP_STREAM_ROUTER_CROPH_UNION"
      [ BitField.named "croph_start_0" 12 0 11,
        BitField.reserved "reserved_0" 4,
        BitField.named "croph_end_0" 12 16 27,
        BitField.reserved "reserved_1" 4 ],
    RegUnion.mk "SOC_ISP_STREAM_ROUTER_FORCE_CLK_ON_CFG_UNION"
      [ BitField.named "force_clk_on" 1 0 0,
        BitField.reserved "reserved" 31 ],
    RegUnion.mk "SOC_ISP_STREAM_ROUTER_PRESSURE_BIT_CTRL_UNION"
      [ BitField.named "cvdr_rt_wr_busy_dus_threshold" 8 0 7,
        BitField.reserved "reserved" 24 ],
    RegUnion.mk "SOC_ISP_STREAM_ROUTER_SENSORGEN_CFG_UNION"
      [ BitField.named "sensorgen_dt" 6 0 5,
        BitField.named "sensorgen_vc" 2 6 7,
        BitField.reserved "reserved" 21,
        BitField.named "sensorgen_single_shot" 1 29 29,
        BitField.named "sensorgen_mode" 1 30 30,
        BitField.named "sensorgen_start" 1 31 31 ],
    RegUnion.mk "SOC_ISP_STREAM_ROUTER_SENSORGEN_CTRL_1_UNION"
      [ BitField.named "sensorgen_dataen_pattern" 16 0 15,
        BitField.named "sensorgen_vblanking" 8 16 23,
        BitField.named "sensorgen_hblanking" 8 24 31 ],
    RegUnion.mk "SOC_ISP_STREAM_ROUTER_SENSORGEN_CTRL_2_UNION"
      [ BitField.named "sensorgen_hsize" 12 0 11,
        BitField.reserved "reserved_0" 4,
        BitField.named "sensorgen_vsize" 13 16 28,
        BitField.reserved "reserved_1" 3 ],
    RegUnion.mk "SOC_ISP_STREAM_ROUTER_SENSORGEN_DATA_UNION"
      [ BitField.named "sensorgen_data" 32 0 31 ],
    RegUnion.mk "SOC_ISP_STREAM_ROUTER_SENSORGEN_STATUS_UNION"
      [ BitField.named "sensorgen_running" 1 0 0,
        BitField.reserved "reserved" 31 ],
    RegUnion.mk "SOC_ISP_STREAM_ROUTER_PIXFRAG_EXTRACT0_CFG_UNION"
      [ BitField.named "extract0_vsize" 8 0 7,
        BitField.named "extract0_hsize" 6 8 13,
        BitField.reserved "reserved" 17,
        BitField.named "extract0_mode" 1 31 31 ],
    RegUnion.mk "SOC_ISP_STREAM_ROUTER_PIXFRAG_EXTRACT0_POS_UNION"
      [ BitField.named "extract0_vpos" 8 0 7,
        BitField.named "extract0_hpos" 6 8 13,
        BitField.reserved "reserved" 17,
        BitField.named "extract0_pos_enable" 1 31 31 ],
    RegUnion.mk "SOC_ISP_STREAM_ROUTER_PIXFRAG_EXTRACT1_CFG_UNION"
      [ BitField.named "extract1_vsize" 8 0 7,
        BitField.named "extract1_hsize" 6 8 13,
        BitField.reserved "reserved" 17,
        BitField.named "extract1_mode" 1 31 31 ],
    RegUnion.mk "SOC_ISP_STREAM_ROUTER_PIXFRAG_EXTRACT1_POS_UNION"
      [ BitField.named "extract1_vpos" 8 0 7,
        BitField.named "extract1_hpos" 6 8 13,
        BitField.reserved "reserved" 17,
        BitField.named "extract1_pos_enable" 1 31 31 ],
    RegUnion.mk "SOC_ISP_STREAM_ROUTER_REFORMAT_DEBUG_UNION"
      [ BitField.named "reformat_debug" 32 0 31 ] ]

/-- Decision procedure for a layout: walking the fields in declaration order
from bit `off`, every width is positive, every named field has `_START` equal
to the running offset and `_END` equal to `_START + width - 1`, and the walk
ends at bit 32. -/
def fields_consistent (off : Nat) : List BitField → Bool
  | [] => off == 32
  | BitField.named _ w st en :: rest =>
    decide (0 < w) && st == off && en + 1 == off + w && fields_consistent (off + w) rest
  | BitField.reserved _ w :: rest =>
    decide (0 < w) && fields_consistent (off + w) rest

/-! ## Lookup tables -/

/-- A designated-initialiser table either has a zero row at `i`, no initialiser
naming `i`, or its row at `i` comes from an initialiser for `i`. -/
theorem designated_cases (inits : List (Nat × (Nat × Nat))) (i : Nat) :
    (designated inits i = (0, 0) ∧ ∀ e ∈ inits, e.1 ≠ i)
      ∨ ∃ e ∈ inits, e.1 = i ∧ designated inits i = e.2 := by
  unfold designated
  cases hf : inits.reverse.find? (fun e => e.1 == i) with
  | none =>
    left
    refine ⟨rfl, fun e he => ?_⟩
    have := List.find?_eq_none.mp hf e (List.mem_reverse.mpr he)
    simpa using this
  | some e =>
    right
    refine ⟨e, List.mem_reverse.mp (List.mem_of_find?_eq_some hf), ?_, rfl⟩
    simpa using List.find?_some hf

theorem designated_named (inits : List (Nat × (Nat × Nat))) (i : Nat)
    (hi : ∃ e ∈ inits, e.1 = i) : ∃ e ∈ inits, e.1 = i ∧ designated inits i = e.2 := by
  rcases designated_cases inits i with ⟨_, hn⟩ | hex
  · obtain ⟨e, he, rfl⟩ := hi
    exact absurd rfl (hn e he)
  · exact hex

theorem asp_hdmi_bit_width_rows (h : Header) (i : Nat) :
    asp_hdmi_bit_width h i ∈ [(16, 0x0), (17, 0x1), (18, 0x2), (19, 0x3), (20, 0x4),
      (21, 0x5), (22, 0x6), (23, 0x7), (24, 0x8), (0, 0)] := by
  unfold asp_hdmi_bit_width
  rcases designated_cases _ i with ⟨h0, _⟩ | ⟨e, he, _, hr⟩
  · rw [h0]; simp
  · rw [hr]
    simp only [List.mem_cons, List.mem_singleton, List.not_mem_nil, or_false] at he
    rcases he with rfl | rfl | rfl | rfl | rfl | rfl | rfl | rfl | rfl <;> simp

theorem asp_hdmi_channel_num_rows (h : Header) (i : Nat) :
    asp_hdmi_channel_num h i ∈ [(1, 0x0), (2, 0x1), (4, 0x3), (6, 0x5), (8, 0x7), (0, 0)] := by
  unfold asp_hdmi_channel_num
  rcases designated_cases _ i with ⟨h0, _⟩ | ⟨e, he, _, hr⟩
  · rw [h0]; simp
  · rw [hr]
    simp only [List.mem_cons, List.mem_singleton, List.not_mem_nil, or_false] at he
    rcases he with rfl | rfl | rfl | rfl | rfl <;> simp

theorem asp_hdmi_align_type_rows (h : Header) (i : Nat) :
    asp_hdmi_align_type h i ∈ [(16, 0x1), (32, 0x0), (0, 0)] := by
  unfold asp_hdmi_align_type
  rcases designated_cases _ i with ⟨h0, _⟩ | ⟨e, he, _, hr⟩
  · rw [h0]; simp
  · rw [hr]
    simp only [List.mem_cons, List.mem_singleton, List.not_mem_nil, or_false] at he
    rcases he with rfl | rfl <;> simp

theorem asp_hdmi_bit_width_injective (h : Header) (i j : Nat)
    (hi : i ∈ [h.BIT_WIDTH_16, h.BIT_WIDTH_17, h.BIT_WIDTH_18, h.BIT_WIDTH_19, h.BIT_WIDTH_20,
      h.BIT_WIDTH_21, h.BIT_WIDTH_22, h.BIT_WIDTH_23, h.BIT_WIDTH_24])
    (hj : j ∈ [h.BIT_WIDTH_16, h.BIT_WIDTH_17, h.BIT_WIDTH_18, h.BIT_WIDTH_19, h.BIT_WIDTH_20,
      h.BIT_WIDTH_21, h.BIT_WIDTH_22, h.BIT_WIDTH_23, h.BIT_WIDTH_24])
    (hc : (asp_hdmi_bit_width h i).2 = (asp_hdmi_bit_width h j).2) : i = j := by
  unfold asp_hdmi_bit_width at hc
  obtain ⟨e, he, rfl, hr⟩ := designated_named
    [(h.BIT_WIDTH_16, (16, 0x0)), (h.BIT_WIDTH_17, (17, 0x1)), (h.BIT_WIDTH_18, (18, 0x2)),
      (h.BIT_WIDTH_19, (19, 0x3)), (h.BIT_WIDTH_20, (20, 0x4)), (h.BIT_WIDTH_21, (21, 0x5)),
      (h.BIT_WIDTH_22, (22, 0x6)), (h.BIT_WIDTH_23, (23, 0x7)), (h.BIT_WIDTH_24, (24, 0x8))] i
    (List.mem_map.mp (by simpa using hi))
  obtain ⟨f, hf, rfl, hs⟩ := designated_named
    [(h.BIT_WIDTH_16, (16, 0x0)), (h.BIT_WIDTH_17, (17, 0x1)), (h.BIT_WIDTH_18, (18, 0x2)),
      (h.BIT_WIDTH_19, (19, 0x3)), (h.BIT_WIDTH_20, (20, 0x4)), (h.BIT_WIDTH_21, (21, 0x5)),
      (h.BIT_WIDTH_22, (22, 0x6)), (h.BIT_WIDTH_23, (23, 0x7)), (h.BIT_WIDTH_24, (24, 0x8))] j
    (List.mem_map.mp (by simpa using hj))
  rw [hr, hs] at hc
  simp only [List.mem_cons, List.mem_singleton, List.not_mem_nil, or_false] at he hf
  rcases he with rfl | rfl | rfl | rfl | rfl | rfl | rfl | rfl | rfl <;>
    rcases hf with rfl | rfl | rfl | rfl | rfl | rfl | rfl | rfl | rfl <;>
    first | rfl | (exact absurd hc (by simp))

theorem asp_hdmi_channel_num_injective (h : Header) (i j : Nat)
    (hi : i ∈ [h.CHANNEL_NUM_1, h.CHANNEL_NUM_2, h.CHANNEL_NUM_4, h.CHANNEL_NUM_6,
      h.CHANNEL_NUM_8])
    (hj : j ∈ [h.CHANNEL_NUM_1, h.CHANNEL_NUM_2, h.CHANNEL_NUM_4, h.CHANNEL_NUM_6,
      h.CHANNEL_NUM_8])
    (hc : (asp_hdmi_channel_num h i).2 = (asp_hdmi_channel_num h j).2) : i = j := by
  unfold asp_hdmi_channel_num at hc
  obtain ⟨e, he, rfl, hr⟩ := designated_named
    [(h.CHANNEL_NUM_1, (1, 0x0)), (h.CHANNEL_NUM_2, (2, 0x1)), (h.CHANNEL_NUM_4, (4, 0x3)),
      (h.CHANNEL_NUM_6, (6, 0x5)), (h.CHANNEL_NUM_8, (8, 0x7))] i
    (List.mem_map.mp (by simpa using hi))
  obtain ⟨f, hf, rfl, hs⟩ := designated_named
    [(h.CHANNEL_NUM_1, (1, 0x0)), (h.CHANNEL_NUM_2, (2, 0x1)), (h.CHANNEL_NUM_4, (4, 0x3)),
      (h.CHANNEL_NUM_6, (6, 0x5)), (h.CHANNEL_NUM_8, (8, 0x7))] j
    (List.mem_map.mp (by simpa using hj))
  rw [hr, hs] at hc
  simp only [List.mem_cons, List.mem_singleton, List.not_mem_nil, or_false] at he hf
  rcases he with rfl | rfl | rfl | rfl | rfl <;>
    rcases hf with rfl | rfl | rfl | rfl | rfl <;>
    first | rfl | (exact absurd hc (by simp))

theorem asp_hdmi_align_type_injective (h : Header) (i j : Nat)
    (hi : i ∈ [h.ALIGN_16, h.ALIGN_32]) (hj : j ∈ [h.ALIGN_16, h.ALIGN_32])
    (hc : (asp_hdmi_align_type h i).2 = (asp_hdmi_align_type h j).2) : i = j := by
  unfold asp_hdmi_align_type at hc
  obtain ⟨e, he, rfl, hr⟩ := designated_named
    [(h.ALIGN_16, (16, 0x1)), (h.ALIGN_32, (32, 0x0))] i
    (List.mem_map.mp (by simpa using hi))
  obtain ⟨f, hf, rfl, hs⟩ := designated_named
    [(h.ALIGN_16, (16, 0x1)), (h.ALIGN_32, (32, 0x0))] j
    (List.mem_map.mp (by simpa using hj))
  rw [hr, hs] at hc
  simp only [List.mem_cons, List.mem_singleton, List.not_mem_nil, or_false] at he hf
  rcases he with rfl | rfl <;> rcases hf with rfl | rfl <;>
    first | rfl | (exact absurd hc (by simp))

theorem asp_hdmi_bit_width_code_lt (h : Header) (i : Nat) : (asp_hdmi_bit_width h i).2 < 16 := by
  have := asp_hdmi_bit_width_rows h i
  simp only [List.mem_cons, List.mem_singleton, List.not_mem_nil, or_false] at this
  rcases this with e | e | e | e | e | e | e | e | e | e <;> rw [e] <;> decide

theorem asp_hdmi_channel_num_code_lt (h : Header) (i : Nat) :
    (asp_hdmi_channel_num h i).2 < 8 := by
  have := asp_hdmi_channel_num_rows h i
  simp only [List.mem_cons, List.mem_singleton, List.not_mem_nil, or_false] at this
  rcases this with e | e | e | e | e | e <;> rw [e] <;> decide

theorem asp_hdmi_align_type_code_lt (h : Header) (i : Nat) : (asp_hdmi_align_type h i).2 < 2 := by
  have := asp_hdmi_align_type_rows h i
  simp only [List.mem_cons, List.mem_singleton, List.not_mem_nil, or_false] at this
  rcases this with e | e | e <;> rw [e] <;> decide

/-! ## Bit fields -/

theorem testBit_false_of_and_eq_zero {G M : Nat} (h : G &&& M = 0) (j : Nat)
    (hj : M.testBit j = true) : G.testBit j = false := by
  have := congrArg (fun x => x.testBit j) h
  simpa [Nat.testBit_and, hj] using this

theorem testBit_0x7F8 (j : Nat) (h1 : 3 ≤ j) (h2 : j ≤ 10) :
    (0x7F8 : Nat).testBit j = true := by
  interval_cases j <;> decide

/-- A field of width `w` at bit `k` is read back by shift and mask. -/
theorem extract_field (x k w f : Nat) (hf : f < 2 ^ w)
    (hx : ∀ i, i < w → x.testBit (k + i) = f.testBit i) : (x >>> k) &&& (2 ^ w - 1) = f := by
  apply Nat.eq_of_testBit_eq
  intro i
  rw [Nat.testBit_and, Nat.testBit_shiftRight, Nat.testBit_two_pow_sub_one]
  by_cases hi : i < w
  · simp [hi, hx i hi]
  · have : f.testBit i = false :=
      Nat.testBit_lt_two_pow (lt_of_lt_of_le hf (Nat.pow_le_pow_right (by decide) (by omega)))
    simp [hi, this]

theorem shiftLeft_testBit_above (f k w j : Nat) (hf : f < 2 ^ w) (hj : k + w ≤ j) :
    (f <<< k).testBit j = false := by
  rw [Nat.testBit_shiftLeft]
  have : f.testBit (j - k) = false :=
    Nat.testBit_lt_two_pow (lt_of_lt_of_le hf (Nat.pow_le_pow_right (by decide) (by omega)))
  simp [this]

theorem shiftLeft_testBit_below (f k j : Nat) (hj : j < k) : (f <<< k).testBit j = false := by
  rw [Nat.testBit_shiftLeft]
  simp only [ge_iff_le, Bool.and_eq_false_imp, decide_eq_true_eq]
  intro; omega

theorem shiftLeft_testBit_at (f k i : Nat) : (f <<< k).testBit (k + i) = f.testBit i := by
  rw [Nat.testBit_shiftLeft]
  simp

/-- A 4-bit field at bit 3, a 1-bit field at bit 7 and a 3-bit field at bit 8
are read back from their OR with two constants that stay clear of bits 3..10. -/
theorem field_extract (b c a O E : Nat) (hb : b < 16) (hc : c < 8) (ha : a < 2)
    (hO : O &&& 0x7F8 = 0) (hE : E &&& 0x7F8 = 0) :
    (u32 ((b <<< 3) ||| O ||| (c <<< 8) ||| (a <<< 7) ||| E) >>> 3) &&& 0xF = b
    ∧ (u32 ((b <<< 3) ||| O ||| (c <<< 8) ||| (a <<< 7) ||| E) >>> 7) &&& 0x1 = a
    ∧ (u32 ((b <<< 3) ||| O ||| (c <<< 8) ||| (a <<< 7) ||| E) >>> 8) &&& 0x7 = c := by
  have hOb := fun j h1 h2 => testBit_false_of_and_eq_zero hO j (testBit_0x7F8 j h1 h2)
  have hEb := fun j h1 h2 => testBit_false_of_and_eq_zero hE j (testBit_0x7F8 j h1 h2)
  have hb4 : b < 2 ^ 4 := hb
  have ha1 : a < 2 ^ 1 := ha
  refine ⟨extract_field _ 3 4 b hb ?_, extract_field _ 7 1 a ha ?_, extract_field _ 8 3 c hc ?_⟩
  · intro i hi
    have h32 : 3 + i < 32 := by omega
    simp only [u32, Nat.testBit_mod_two_pow, Nat.testBit_or, h32, decide_True, Bool.true_and,
      hOb (3 + i) (by omega) (by omega), hEb (3 + i) (by omega) (by omega),
      shiftLeft_testBit_at, shiftLeft_testBit_below c 8 (3 + i) (by omega),
      shiftLeft_testBit_below a 7 (3 + i) (by omega), Bool.or_false]
  · intro i hi
    have h32 : 7 + i < 32 := by omega
    simp only [u32, Nat.testBit_mod_two_pow, Nat.testBit_or, h32, decide_True, Bool.true_and,
      hOb (7 + i) (by omega) (by omega), hEb (7 + i) (by omega) (by omega),
      shiftLeft_testBit_at, shiftLeft_testBit_below c 8 (7 + i) (by omega),
      shiftLeft_testBit_above b 3 4 (7 + i) hb4 (by omega), Bool.or_false, Bool.false_or]
  · intro i hi
    have h32 : 8 + i < 32 := by omega
    simp only [u32, Nat.testBit_mod_two_pow, Nat.testBit_or, h32, decide_True, Bool.true_and,
      hOb (8 + i) (by omega) (by omega), hEb (8 + i) (by omega) (by omega),
      shiftLeft_testBit_at, shiftLeft_testBit_above a 7 1 (8 + i) ha1 (by omega),
      shiftLeft_testBit_above b 3 4 (8 + i) hb4 (by omega), Bool.or_false, Bool.false_or]

/-! ## The TX3 transform -/

/-- The transform on an attached context: status 0 and the composed value for a
supported triple, status -1 and `*reg_value` untouched otherwise; the state is
never changed. -/
theorem transform_eq (h : Header) (priv : asp_hdmi_dma_priv) (mem : Nat → Nat)
    (trace : List Event) (p : tx3_config_parameters) (rv : Nat) :
    asp_hdmi_transform_to_tx3_reg_value h p rv (State.mk (some priv) mem trace)
      = Outcome.ret (if supported h p then (0, tx3_value h p) else (-1, rv),
          State.mk (some priv) mem trace) := by
  unfold asp_hdmi_transform_to_tx3_reg_value
  dsimp only
  by_cases h1 : h.BIT_WIDTH_MAX - 1 < p.bit_width
  · have hs : ¬ supported h p := fun hs => absurd hs.1 (by omega)
    rw [if_pos h1, if_neg hs]
  · rw [if_neg h1]
    by_cases h2 : h.CHANNEL_NUM_MAX - 1 < p.channel_num
        ∨ (h.CHANNEL_NUM_1 = p.channel_num ∧ h.BIT_WIDTH_16 ≠ p.bit_width)
    · have hs : ¬ supported h p := by
        rintro ⟨_, hc, _, hm⟩
        rcases h2 with h2 | ⟨h2, h3⟩
        · omega
        · exact hm ⟨h2.symm, fun e => h3 e.symm⟩
      rw [if_pos h2, if_neg hs]
    · rw [if_neg h2]
      by_cases h3 : h.ALIGN_16 ≠ p.align_type ∧ h.ALIGN_32 ≠ p.align_type
      · have hs : ¬ supported h p := by
          rintro ⟨_, _, ha, _⟩
          rcases ha with e | e
          · exact h3.1 e.symm
          · exact h3.2 e.symm
        rw [if_pos h3, if_neg hs]
      · have hs : supported h p := by
          refine ⟨by omega, ?_, ?_, ?_⟩
          · have : ¬ h.CHANNEL_NUM_MAX - 1 < p.channel_num := fun e => h2 (Or.inl e)
            omega
          · by_cases e : h.ALIGN_16 = p.align_type
            · exact Or.inl e.symm
            · by_cases e' : h.ALIGN_32 = p.align_type
              · exact Or.inr e'.symm
              · exact absurd ⟨e, e'⟩ h3
          · exact fun e => h2 (Or.inr ⟨e.1.symm, fun e' => e.2 e'.symm⟩)
        rw [if_neg h3, if_pos hs]
        rfl

/-- C1: on an attached context, for every triple with `bit_width` and
`channel_num` inside their enumerations, `align_type` one of `ALIGN_16` and
`ALIGN_32`, and not (mono with a bit width other than 16), the transform
returns 0, leaves the state alone and stores the OR of the bit-width code
shifted by 3, the ordering-mode constant, the channel code shifted by 8, the
alignment code shifted by 7 and the enable mask; the codes are the second
column of the table rows, each row being one of the listed pairs (or a row no
initialiser names, which is zero). -/
theorem tx3_transform_supported (h : Header) (priv : asp_hdmi_dma_priv) (mem : Nat → Nat)
    (trace : List Event) (p : tx3_config_parameters) (rv : Nat)
    (hbw : p.bit_width ≤ h.BIT_WIDTH_MAX - 1)
    (hch : p.channel_num ≤ h.CHANNEL_NUM_MAX - 1)
    (hal : p.align_type = h.ALIGN_16 ∨ p.align_type = h.ALIGN_32)
    (hmono : ¬ (p.channel_num = h.CHANNEL_NUM_1 ∧ p.bit_width ≠ h.BIT_WIDTH_16)) :
    asp_hdmi_transform_to_tx3_reg_value h p rv (State.mk (some priv) mem trace)
        = Outcome.ret (((0 : Int), u32 (((asp_hdmi_bit_width h p.bit_width).2 <<< 3)
              ||| (h.HDMI_PCM_SWITCH_ORDE_MAST <<< h.HDMI_PCM_SWITCH_ORDE_BIT)
              ||| ((asp_hdmi_channel_num h p.channel_num).2 <<< 8)
              ||| ((asp_hdmi_align_type h p.align_type).2 <<< 7)
              ||| h.HDMI_TX3_EN_MASK)),
            State.mk (some priv) mem trace)
      ∧ asp_hdmi_bit_width h p.bit_width ∈ [(16, 0x0), (17, 0x1), (18, 0x2), (19, 0x3),
          (20, 0x4), (21, 0x5), (22, 0x6), (23, 0x7), (24, 0x8), (0, 0)]
      ∧ asp_hdmi_channel_num h p.channel_num ∈ [(1, 0x0), (2, 0x1), (4, 0x3), (6, 0x5),
          (8, 0x7), (0, 0)]
      ∧ asp_hdmi_align_type h p.align_type ∈ [(16, 0x1), (32, 0x0)] := by
  refine ⟨?_, asp_hdmi_bit_width_rows h _, asp_hdmi_channel_num_rows h _, ?_⟩
  · rw [transform_eq, if_pos ⟨hbw, hch, hal, hmono⟩]
    rfl
  · unfold asp_hdmi_align_type
    obtain ⟨e, he, _, hr⟩ := designated_named
      [(h.ALIGN_16, (16, 0x1)), (h.ALIGN_32, (32, 0x0))] p.align_type
      (List.mem_map.mp (by rcases hal with e | e <;> simp [e]))
    rw [hr]
    simp only [List.mem_cons, List.mem_singleton, List.not_mem_nil, or_false] at he
    rcases he with rfl | rfl <;> simp

/-- C1 at 24-bit stereo with 16-bit alignment on the sample header: the stored
value is 0x201C1. -/
theorem tx3_transform_supported_witness :
    ((8 : Nat) ≤ sampleHeader.BIT_WIDTH_MAX - 1 ∧ (1 : Nat) ≤ sampleHeader.CHANNEL_NUM_MAX - 1
      ∧ ((0 : Nat) = sampleHeader.ALIGN_16 ∨ (0 : Nat) = sampleHeader.ALIGN_32)
      ∧ ¬ ((1 : Nat) = sampleHeader.CHANNEL_NUM_1 ∧ (8 : Nat) ≠ sampleHeader.BIT_WIDTH_16))
    ∧ asp_hdmi_transform_to_tx3_reg_value sampleHeader ⟨1, 8, 0⟩ 0 (sampleState 0)
        = Outcome.ret (((0 : Int), 0x201C1), sampleState 0) :=
  ⟨by decide,
   (tx3_transform_supported sampleHeader samplePriv (fun _ => 0) [] ⟨1, 8, 0⟩ 0
      (by decide) (by decide) (by decide) (by decide)).1⟩

/-- The three table codes can be read back from the composed TX3 value when the
two constants stay clear of bits 3..10. -/
theorem tx3_value_fields (h : Header) (p : tx3_config_parameters)
    (hO : (h.HDMI_PCM_SWITCH_ORDE_MAST <<< h.HDMI_PCM_SWITCH_ORDE_BIT) &&& 0x7F8 = 0)
    (hE : h.HDMI_TX3_EN_MASK &&& 0x7F8 = 0) :
    (tx3_value h p >>> 3) &&& 0xF = (asp_hdmi_bit_width h p.bit_width).2
      ∧ (tx3_value h p >>> 7) &&& 0x1 = (asp_hdmi_align_type h p.align_type).2
      ∧ (tx3_value h p >>> 8) &&& 0x7 = (asp_hdmi_channel_num h p.channel_num).2 :=
  field_extract _ _ _ _ _ (asp_hdmi_bit_width_code_lt h _) (asp_hdmi_channel_num_code_lt h _)
    (asp_hdmi_align_type_code_lt h _) hO hE

/-- C2: when neither the ordering-mode constant nor the enable mask has a bit in
positions 3..10, the value `v` the transform produces for a supported triple
gives back the bit-width code as `(v >> 3) & 0xF`, the alignment code as
`(v >> 7) & 0x1` and the channel code as `(v >> 8) & 0x7`; and two different
supported triples whose fields are enumerators never produce the same value. -/
theorem tx3_fields_decompose (h : Header) (priv : asp_hdmi_dma_priv) (mem : Nat → Nat)
    (trace : List Event) (p q : tx3_config_parameters) (rv rw : Nat)
    (hp : supported h p) (hq : supported h q)
    (hO : (h.HDMI_PCM_SWITCH_ORDE_MAST <<< h.HDMI_PCM_SWITCH_ORDE_BIT) &&& 0x7F8 = 0)
    (hE : h.HDMI_TX3_EN_MASK &&& 0x7F8 = 0) :
    ∃ v w : Nat,
      asp_hdmi_transform_to_tx3_reg_value h p rv (State.mk (some priv) mem trace)
          = Outcome.ret (((0 : Int), v), State.mk (some priv) mem trace)
        ∧ asp_hdmi_transform_to_tx3_reg_value h q rw (State.mk (some priv) mem trace)
          = Outcome.ret (((0 : Int), w), State.mk (some priv) mem trace)
        ∧ (v >>> 3) &&& 0xF = (asp_hdmi_bit_width h p.bit_width).2
        ∧ (v >>> 7) &&& 0x1 = (asp_hdmi_align_type h p.align_type).2
        ∧ (v >>> 8) &&& 0x7 = (asp_hdmi_channel_num h p.channel_num).2
        ∧ (enumerated h p → enumerated h q → p ≠ q → v ≠ w) := by
  obtain ⟨fb, fa, fc⟩ := tx3_value_fields h p hO hE
  obtain ⟨gb, ga, gc⟩ := tx3_value_fields h q hO hE
  refine ⟨tx3_value h p, tx3_value h q, ?_, ?_, fb, fa, fc, ?_⟩
  · rw [transform_eq, if_pos hp]
  · rw [transform_eq, if_pos hq]
  · intro ep eq hne hvw
    apply hne
    rw [hvw] at fb fa fc
    have e1 := asp_hdmi_bit_width_injective h _ _ ep.1 eq.1 (fb.symm.trans gb)
    have e2 := asp_hdmi_channel_num_injective h _ _ ep.2.1 eq.2.1 (fc.symm.trans gc)
    have e3 := asp_hdmi_align_type_injective h _ _ ep.2.2 eq.2.2 (fa.symm.trans ga)
    cases p
    cases q
    simp only at e1 e2 e3
    rw [e1, e2, e3]

/-- C2 on the sample header: 24-bit stereo with 16-bit alignment gives 0x201C1,
16-bit mono with 32-bit alignment gives 0x20001, and the fields of the former
read back as 8, 1 and 1. -/
theorem tx3_fields_decompose_witness :
    (supported sampleHeader ⟨1, 8, 0⟩ ∧ supported sampleHeader ⟨0, 0, 1⟩
      ∧ (sampleHeader.HDMI_PCM_SWITCH_ORDE_MAST <<< sampleHeader.HDMI_PCM_SWITCH_ORDE_BIT)
          &&& 0x7F8 = 0
      ∧ sampleHeader.HDMI_TX3_EN_MASK &&& 0x7F8 = 0)
    ∧ ∃ v w : Nat,
      asp_hdmi_transform_to_tx3_reg_value sampleHeader ⟨1, 8, 0⟩ 0 (sampleState 0)
          = Outcome.ret (((0 : Int), v), sampleState 0)
        ∧ asp_hdmi_transform_to_tx3_reg_value sampleHeader ⟨0, 0, 1⟩ 0 (sampleState 0)
          = Outcome.ret (((0 : Int), w), sampleState 0)
        ∧ (v >>> 3) &&& 0xF = 8 ∧ (v >>> 7) &&& 0x1 = 1 ∧ (v >>> 8) &&& 0x7 = 1
        ∧ (enumerated sampleHeader ⟨1, 8, 0⟩ → enumerated sampleHeader ⟨0, 0, 1⟩
            → (⟨1, 8, 0⟩ : tx3_config_parameters) ≠ ⟨0, 0, 1⟩ → v ≠ w) :=
  ⟨by decide,
   tx3_fields_decompose sampleHeader samplePriv (fun _ => 0) [] ⟨1, 8, 0⟩ ⟨0, 0, 1⟩ 0 0
     (by decide) (by decide) (by decide) (by decide)⟩

/-- C3: on an attached context, for mono and every bit width other than 16 the
transform returns -1 whatever `align_type` is, and `*reg_value` and the state
are as before the call. -/
theorem tx3_transform_mono_rejected (h : Header) (priv : asp_hdmi_dma_priv) (mem : Nat → Nat)
    (trace : List Event) (p : tx3_config_parameters) (rv : Nat)
    (hch : p.channel_num = h.CHANNEL_NUM_1) (hbw : p.bit_width ≠ h.BIT_WIDTH_16) :
    asp_hdmi_transform_to_tx3_reg_value h p rv (State.mk (some priv) mem trace)
      = Outcome.ret (((-1 : Int), rv), State.mk (some priv) mem trace) := by
  rw [transform_eq, if_neg (fun hs => hs.2.2.2 ⟨hch, hbw⟩)]

/-- C3 on the sample header: 24-bit mono is rejected with a supported alignment
and with an unsupported one. -/
theorem tx3_transform_mono_rejected_witness :
    ((0 : Nat) = sampleHeader.CHANNEL_NUM_1 ∧ (8 : Nat) ≠ sampleHeader.BIT_WIDTH_16)
    ∧ asp_hdmi_transform_to_tx3_reg_value sampleHeader ⟨0, 8, 0⟩ 0x55 (sampleState 0)
        = Outcome.ret (((-1 : Int), 0x55), sampleState 0)
    ∧ asp_hdmi_transform_to_tx3_reg_value sampleHeader ⟨0, 8, 7⟩ 0x55 (sampleState 0)
        = Outcome.ret (((-1 : Int), 0x55), sampleState 0) :=
  ⟨by decide,
   tx3_transform_mono_rejected sampleHeader samplePriv (fun _ => 0) [] ⟨0, 8, 0⟩ 0x55
     (by decide) (by decide),
   tx3_transform_mono_rejected sampleHeader samplePriv (fun _ => 0) [] ⟨0, 8, 7⟩ 0x55
     (by decide) (by decide)⟩

/-- C4: on an attached context, the transform returns -1 and leaves
`*reg_value` and the state as they were whenever `bit_width` is above
`BIT_WIDTH_MAX - 1`, or `channel_num` is above `CHANNEL_NUM_MAX - 1`, or
`align_type` is neither `ALIGN_16` nor `ALIGN_32`, whatever the other fields. -/
theorem tx3_transform_out_of_range (h : Header) (priv : asp_hdmi_dma_priv) (mem : Nat → Nat)
    (trace : List Event) (p : tx3_config_parameters) (rv : Nat)
    (hbad : h.BIT_WIDTH_MAX - 1 < p.bit_width ∨ h.CHANNEL_NUM_MAX - 1 < p.channel_num
      ∨ (p.align_type ≠ h.ALIGN_16 ∧ p.align_type ≠ h.ALIGN_32)) :
    asp_hdmi_transform_to_tx3_reg_value h p rv (State.mk (some priv) mem trace)
      = Outcome.ret (((-1 : Int), rv), State.mk (some priv) mem trace) := by
  have hs : ¬ supported h p := by
    rintro ⟨h1, h2, h3, _⟩
    rcases hbad with e | e | ⟨e, e'⟩
    · omega
    · omega
    · rcases h3 with h3 | h3
      · exact e h3
      · exact e' h3
  rw [transform_eq, if_neg hs]

/-- C4 on the sample header: an alignment value of 2 is rejected although the
other two fields are supported. -/
theorem tx3_transform_out_of_range_witness :
    (sampleHeader.BIT_WIDTH_MAX - 1 < 8 ∨ sampleHeader.CHANNEL_NUM_MAX - 1 < 1
      ∨ ((2 : Nat) ≠ sampleHeader.ALIGN_16 ∧ (2 : Nat) ≠ sampleHeader.ALIGN_32))
    ∧ asp_hdmi_transform_to_tx3_reg_value sampleHeader ⟨1, 8, 2⟩ 0x55 (sampleState 0)
        = Outcome.ret (((-1 : Int), 0x55), sampleState 0) :=
  ⟨by decide,
   tx3_transform_out_of_range sampleHeader samplePriv (fun _ => 0) [] ⟨1, 8, 2⟩ 0x55
     (by decide)⟩

/-! ## Register access on an attached context -/

theorem reg_read_eq (reg : Nat) (priv : asp_hdmi_dma_priv) (mem : Nat → Nat)
    (trace : List Event) :
    asp_hdmi_dmac_reg_read reg (State.mk (some priv) mem trace)
      = Outcome.ret (u32 (mem (priv.asp_dma_reg_base_addr + reg)),
          State.mk (some priv) mem
            (trace ++ [Event.spin_lock_irqsave, Event.readl (priv.asp_dma_reg_base_addr + reg),
              Event.spin_unlock_irqrestore])) := by
  simp [asp_hdmi_dmac_reg_read, spin_lock_irqsave, readl, spin_unlock_irqrestore]

theorem reg_write_eq (reg value : Nat) (priv : asp_hdmi_dma_priv) (mem : Nat → Nat)
    (trace : List Event) :
    asp_hdmi_dmac_reg_write reg value (State.mk (some priv) mem trace)
      = Outcome.ret ((),
          State.mk (some priv)
            (Function.update mem (priv.asp_dma_reg_base_addr + reg) (u32 value))
            (trace ++ [Event.spin_lock_irqsave,
              Event.writel (u32 value) (priv.asp_dma_reg_base_addr + reg),
              Event.spin_unlock_irqrestore])) := by
  simp [asp_hdmi_dmac_reg_write, spin_lock_irqsave, writel, spin_unlock_irqrestore]

theorem reg_clr_bit_eq (reg offset : Nat) (priv : asp_hdmi_dma_priv) (mem : Nat → Nat)
    (trace : List Event) :
    asp_hdmi_dmac_reg_clr_bit reg offset (State.mk (some priv) mem trace)
      = Outcome.ret ((),
          State.mk (some priv)
            (Function.update mem (priv.asp_dma_reg_base_addr + reg)
              (u32 (u32 (mem (priv.asp_dma_reg_base_addr + reg)) &&& not32 (1 <<< offset))))
            (trace ++ [Event.spin_lock_irqsave, Event.readl (priv.asp_dma_reg_base_addr + reg),
              Event.writel
                (u32 (u32 (mem (priv.asp_dma_reg_base_addr + reg)) &&& not32 (1 <<< offset)))
                (priv.asp_dma_reg_base_addr + reg),
              Event.spin_unlock_irqrestore])) := by
  simp [asp_hdmi_dmac_reg_clr_bit, spin_lock_irqsave, readl, writel, spin_unlock_irqrestore]

theorem u32_u32 (x : Nat) : u32 (u32 x) = u32 x := by
  unfold u32
  exact Nat.mod_mod _ _

theorem u32_lt (x : Nat) : u32 x < 2 ^ 32 := Nat.mod_lt _ (by decide)

theorem u32_of_lt {x : Nat} (hx : x < 2 ^ 32) : u32 x = x := Nat.mod_eq_of_lt hx

theorem u32_or_and (X E : Nat) : u32 (X ||| E) &&& u32 E = u32 E := by
  apply Nat.eq_of_testBit_eq
  intro i
  simp only [u32, Nat.testBit_and, Nat.testBit_mod_two_pow, Nat.testBit_or]
  cases decide (i < 32) <;> cases X.testBit i <;> cases E.testBit i <;> rfl

/-! ## TX3 configuration -/

/-- C5: on an attached context, for every register state and every triple for
which the transform returns -1, the configuration call returns -1 and the
state afterwards is the state before: no register is read or written, the
window (TX3 included) is as it was. -/
theorem tx3_config_rejected (h : Header) (priv : asp_hdmi_dma_priv) (mem : Nat → Nat)
    (trace : List Event) (p : tx3_config_parameters) (rv : Nat)
    (hrej : (asp_hdmi_transform_to_tx3_reg_value h p rv
      (State.mk (some priv) mem trace)).returned.map (fun r => r.1) = some (-1)) :
    asp_hdmi_tx3_config h p (State.mk (some priv) mem trace)
      = Outcome.ret (-1, State.mk (some priv) mem trace) := by
  have hs : ¬ supported h p := by
    intro hs
    rw [transform_eq, if_pos hs] at hrej
    simp [Outcome.returned] at hrej
  unfold asp_hdmi_tx3_config
  dsimp only
  rw [transform_eq, if_neg hs]
  rfl

/-- C5 on the sample header: 24-bit mono is rejected and the state is left
alone. -/
theorem tx3_config_rejected_witness :
    (asp_hdmi_transform_to_tx3_reg_value sampleHeader ⟨0, 8, 0⟩ 0
        (sampleState 0x1234)).returned.map (fun r => r.1) = some (-1)
    ∧ asp_hdmi_tx3_config sampleHeader ⟨0, 8, 0⟩ (sampleState 0x1234)
        = Outcome.ret (-1, sampleState 0x1234) :=
  ⟨by decide,
   tx3_config_rejected sampleHeader samplePriv (fun _ => 0x1234) [] ⟨0, 8, 0⟩ 0 (by decide)⟩

/-- C6: on an attached context, for every register state and every triple the
transform accepts with value `v`, the configuration call returns 0 and the
state afterwards is the prior state with the TX3 register replaced by `v`
(whatever it held) through one locked write, every other address unchanged;
and `v` has every bit of the 32-bit enable mask set. -/
theorem tx3_config_accepted (h : Header) (priv : asp_hdmi_dma_priv) (mem : Nat → Nat)
    (trace : List Event) (p : tx3_config_parameters) (rv v : Nat)
    (hacc : asp_hdmi_transform_to_tx3_reg_value h p rv (State.mk (some priv) mem trace)
      = Outcome.ret (((0 : Int), v), State.mk (some priv) mem trace)) :
    asp_hdmi_tx3_config h p (State.mk (some priv) mem trace)
        = Outcome.ret (0, State.mk (some priv)
            (Function.update mem (priv.asp_dma_reg_base_addr + h.ASP_HDMI_TX3) v)
            (trace ++ [Event.spin_lock_irqsave,
              Event.writel v (priv.asp_dma_reg_base_addr + h.ASP_HDMI_TX3),
              Event.spin_unlock_irqrestore]))
      ∧ Function.update mem (priv.asp_dma_reg_base_addr + h.ASP_HDMI_TX3) v
          (priv.asp_dma_reg_base_addr + h.ASP_HDMI_TX3) = v
      ∧ (∀ a, a ≠ priv.asp_dma_reg_base_addr + h.ASP_HDMI_TX3 →
          Function.update mem (priv.asp_dma_reg_base_addr + h.ASP_HDMI_TX3) v a = mem a)
      ∧ v &&& u32 h.HDMI_TX3_EN_MASK = u32 h.HDMI_TX3_EN_MASK := by
  have hs : supported h p := by
    by_contra hs
    rw [transform_eq, if_neg hs] at hacc
    simp at hacc
  rw [transform_eq, if_pos hs] at hacc
  have hv : tx3_value h p = v := by
    simpa using hacc
  have hu : u32 v = v := by
    rw [← hv]
    exact u32_u32 _
  refine ⟨?_, Function.update_same _ _ _, fun a ha => Function.update_noteq ha _ _, ?_⟩
  · unfold asp_hdmi_tx3_config
    dsimp only
    rw [transform_eq, if_pos hs]
    simp only [Outcome.bind]
    rw [if_neg (by decide), reg_write_eq, hv, hu]
  · rw [← hv]
    exact u32_or_and _ _

/-- C6 on the sample header: 24-bit stereo with 16-bit alignment replaces a
TX3 content of 0xFFFFFFFF by 0x201C1, whose bit 0 (the enable mask) is set. -/
theorem tx3_config_accepted_witness :
    asp_hdmi_transform_to_tx3_reg_value sampleHeader ⟨1, 8, 0⟩ 0 (sampleState 0xFFFFFFFF)
        = Outcome.ret (((0 : Int), 0x201C1), sampleState 0xFFFFFFFF)
    ∧ asp_hdmi_tx3_config sampleHeader ⟨1, 8, 0⟩ (sampleState 0xFFFFFFFF)
        = Outcome.ret (0, State.mk (some samplePriv)
            (Function.update (fun _ => 0xFFFFFFFF) 0x10000 0x201C1)
            [Event.spin_lock_irqsave, Event.writel 0x201C1 0x10000,
              Event.spin_unlock_irqrestore])
    ∧ 0x201C1 &&& u32 sampleHeader.HDMI_TX3_EN_MASK = u32 sampleHeader.HDMI_TX3_EN_MASK :=
  have hw := tx3_config_accepted sampleHeader samplePriv (fun _ => 0xFFFFFFFF) []
    ⟨1, 8, 0⟩ 0 0x201C1 rfl
  ⟨rfl, hw.1, hw.2.2.2⟩

/-! ## DMA buffer programming -/

theorem testBit_not32 (y i : Nat) :
    (not32 y).testBit i = (decide (i < 32) && !(u32 y).testBit i) := by
  have h : not32 y = 2 ^ 32 - (u32 y + 1) := by
    unfold not32
    omega
  rw [h]
  exact Nat.testBit_two_pow_sub_succ (u32_lt y) i

/-- Bit `i` of the value the clear-bit primitive writes back. -/
theorem testBit_clr (x k i : Nat) :
    (u32 (u32 x &&& not32 (1 <<< k))).testBit i = ((u32 x).testBit i && !decide (k = i)) := by
  rw [show u32 (u32 x &&& not32 (1 <<< k)) = (u32 x &&& not32 (1 <<< k)) % 2 ^ 32 from rfl,
    Nat.testBit_mod_two_pow, Nat.testBit_and, testBit_not32, Nat.one_shiftLeft]
  simp only [u32, Nat.testBit_mod_two_pow, Nat.testBit_two_pow]
  cases decide (i < 32) <;> cases x.testBit i <;> cases decide (k = i) <;> rfl

theorem or_and_eq_zero_iff (x y m : Nat) :
    (x ||| y) &&& m = 0 ↔ x &&& m = 0 ∧ y &&& m = 0 := by
  constructor
  · intro hz
    have hb : ∀ i, ((x.testBit i || y.testBit i) && m.testBit i) = false := fun i => by
      have := congrArg (fun n => n.testBit i) hz
      simpa using this
    constructor <;> apply Nat.eq_of_testBit_eq <;> intro i <;> have := hb i <;>
      simp only [Nat.testBit_and, Nat.zero_testBit] <;>
      revert this <;> cases x.testBit i <;> cases y.testBit i <;> cases m.testBit i <;> decide
  · rintro ⟨hx, hy⟩
    apply Nat.eq_of_testBit_eq
    intro i
    have h1 := congrArg (fun n => n.testBit i) hx
    have h2 := congrArg (fun n => n.testBit i) hy
    simp only [Nat.testBit_and, Nat.zero_testBit] at h1 h2
    simp only [Nat.testBit_and, Nat.testBit_or, Nat.zero_testBit]
    revert h1 h2
    cases x.testBit i <;> cases y.testBit i <;> cases m.testBit i <;> decide

/-- C7: on an attached context, for every register state and every
(addr, size) that violates the address mask or the length mask, the DMA
configuration returns -EINVAL and the state afterwards is the state before:
nothing is read or written, so buffer A, buffer B, interrupt-clear, I2S-clear
and SPDIF-select hold their pre-call values. -/
theorem dma_config_misaligned (h : Header) (priv : asp_hdmi_dma_priv) (mem : Nat → Nat)
    (trace : List Event) (addr size : Nat)
    (hbad : addr &&& h.HDMI_DMA_ADD_VALID_MASK ≠ 0 ∨ size &&& h.HDMI_DMA_ADDLEN_VALID_MASK ≠ 0) :
    asp_hdmi_dma_config h addr size (State.mk (some priv) mem trace)
      = Outcome.ret (-EINVAL, State.mk (some priv) mem trace) := by
  unfold asp_hdmi_dma_config
  dsimp only
  rw [if_pos]
  rcases hbad with e | e
  · exact Or.inl (fun e' => e e'.symm)
  · exact Or.inr (fun e' => e e'.symm)

/-- C7 on the sample header: an address of 0x1001 is refused with -22. -/
theorem dma_config_misaligned_witness :
    (0x1001 &&& sampleHeader.HDMI_DMA_ADD_VALID_MASK ≠ 0
      ∨ 0x800 &&& sampleHeader.HDMI_DMA_ADDLEN_VALID_MASK ≠ 0)
    ∧ asp_hdmi_dma_config sampleHeader 0x1001 0x800 (sampleState 0x1234)
        = Outcome.ret (-22, sampleState 0x1234) :=
  ⟨by decide,
   dma_config_misaligned sampleHeader samplePriv (fun _ => 0x1234) [] 0x1001 0x800
     (by decide)⟩

/-- The state an accepted DMA configuration leaves behind. -/
theorem dma_config_eq (h : Header) (priv : asp_hdmi_dma_priv) (mem : Nat → Nat)
    (trace : List Event) (addr size : Nat)
    (ha : addr &&& h.HDMI_DMA_ADD_VALID_MASK = 0)
    (hs : size &&& h.HDMI_DMA_ADDLEN_VALID_MASK = 0) :
    ∃ s : State,
      asp_hdmi_dma_config h addr size (State.mk (some priv) mem trace) = Outcome.ret (0, s)
      ∧ s.asp_hdmi_dma_priv = some priv
      ∧ s.mem =
        Function.update (Function.update (Function.update (Function.update (Function.update
          (Function.update (Function.update mem
            (priv.asp_dma_reg_base_addr + h.ASP_HDMI_I2S_CLR) (u32 h.HDMI_I2S_CLR_MASK))
            (priv.asp_dma_reg_base_addr + h.ASP_HDMI_SPDIF_SEL)
              (u32 (u32 (Function.update mem
                  (priv.asp_dma_reg_base_addr + h.ASP_HDMI_I2S_CLR) (u32 h.HDMI_I2S_CLR_MASK)
                  (priv.asp_dma_reg_base_addr + h.ASP_HDMI_SPDIF_SEL)) &&& not32 (1 <<< 0))))
            (priv.asp_dma_reg_base_addr + h.ASP_HDMI_A_ADDR) (u32 addr))
            (priv.asp_dma_reg_base_addr + h.ASP_HDMI_A_LEN) (u32 size))
            (priv.asp_dma_reg_base_addr + h.ASP_HDMI_B_ADDR) (u32 (addr + size)))
            (priv.asp_dma_reg_base_addr + h.ASP_HDMI_B_LEN) (u32 size))
            (priv.asp_dma_reg_base_addr + h.ASP_HDMI_INT_CLR) (u32 h.HDMI_INT_MASK) := by
  unfold asp_hdmi_dma_config
  dsimp only
  rw [if_neg (by rw [ha, hs]; simp)]
  simp only [reg_write_eq, reg_clr_bit_eq, Outcome.bind]
  exact ⟨_, rfl, rfl, rfl⟩

/-- C8: on an attached context whose seven DMA-configuration registers have
pairwise different offsets, for every register state and every 32-bit
(addr, size) that satisfies both masks, the DMA configuration returns 0 and
afterwards A_ADDR = addr, A_LEN = size, B_ADDR = addr + size in 32-bit
arithmetic (exactly addr + size when that is below 2^32), B_LEN = size,
I2S_CLR holds the I2S-clear mask, bit 0 of SPDIF_SEL is 0 and its other bits
are those it had, and INT_CLR holds the interrupt mask. -/
theorem dma_config_aligned (h : Header) (priv : asp_hdmi_dma_priv) (mem : Nat → Nat)
    (trace : List Event) (addr size : Nat)
    (haddr : addr < 2 ^ 32) (hsize : size < 2 ^ 32)
    (ha : addr &&& h.HDMI_DMA_ADD_VALID_MASK = 0)
    (hs : size &&& h.HDMI_DMA_ADDLEN_VALID_MASK = 0)
    (hreg : [h.ASP_HDMI_I2S_CLR, h.ASP_HDMI_SPDIF_SEL, h.ASP_HDMI_A_ADDR, h.ASP_HDMI_A_LEN,
      h.ASP_HDMI_B_ADDR, h.ASP_HDMI_B_LEN, h.ASP_HDMI_INT_CLR].Nodup) :
    ∃ s : State,
      asp_hdmi_dma_config h addr size (State.mk (some priv) mem trace) = Outcome.ret (0, s)
      ∧ s.mem (priv.asp_dma_reg_base_addr + h.ASP_HDMI_A_ADDR) = addr
      ∧ s.mem (priv.asp_dma_reg_base_addr + h.ASP_HDMI_A_LEN) = size
      ∧ s.mem (priv.asp_dma_reg_base_addr + h.ASP_HDMI_B_ADDR) = (addr + size) % 2 ^ 32
      ∧ (addr + size < 2 ^ 32 →
          s.mem (priv.asp_dma_reg_base_addr + h.ASP_HDMI_B_ADDR) = addr + size)
      ∧ s.mem (priv.asp_dma_reg_base_addr + h.ASP_HDMI_B_LEN) = size
      ∧ s.mem (priv.asp_dma_reg_base_addr + h.ASP_HDMI_I2S_CLR) = u32 h.HDMI_I2S_CLR_MASK
      ∧ (s.mem (priv.asp_dma_reg_base_addr + h.ASP_HDMI_SPDIF_SEL)).testBit 0 = false
      ∧ (∀ i, i ≠ 0 →
          (s.mem (priv.asp_dma_reg_base_addr + h.ASP_HDMI_SPDIF_SEL)).testBit i
            = (u32 (mem (priv.asp_dma_reg_base_addr + h.ASP_HDMI_SPDIF_SEL))).testBit i)
      ∧ s.mem (priv.asp_dma_reg_base_addr + h.ASP_HDMI_INT_CLR) = u32 h.HDMI_INT_MASK := by
  obtain ⟨s, hrun, -, hmem⟩ := dma_config_eq h priv mem trace addr size ha hs
  simp only [List.nodup_cons, List.mem_cons, List.mem_singleton, List.not_mem_nil,
    not_or, not_false_eq_true, List.nodup_nil, and_true] at hreg
  obtain ⟨⟨h12, h13, h14, h15, h16, h17⟩, ⟨h23, h24, h25, h26, h27⟩, ⟨h34, h35, h36, h37⟩,
    ⟨h45, h46, h47⟩, ⟨h56, h57⟩, h67⟩ := hreg
  have hB : s.mem (priv.asp_dma_reg_base_addr + h.ASP_HDMI_B_ADDR) = (addr + size) % 2 ^ 32 := by
    rw [hmem]
    simp [Function.update_apply, u32, h56, h57, Ne.symm h56, Ne.symm h57]
  refine ⟨s, hrun, ?_, ?_, hB, ?_, ?_, ?_, ?_, ?_, ?_⟩
  · rw [hmem]
    simp [Function.update_apply, u32_of_lt haddr, h34, h35, h36, h37]
  · rw [hmem]
    simp [Function.update_apply, u32_of_lt hsize, h45, h46, h47]
  · intro hlt
    rw [hB, Nat.mod_eq_of_lt hlt]
  · rw [hmem]
    simp [Function.update_apply, u32_of_lt hsize, h67]
  · rw [hmem]
    simp [Function.update_apply, h12, h13, h14, h15, h16, h17]
  · rw [hmem]
    simp only [Function.update_apply, add_right_inj, h23, h24, h25, h26, h27, Ne.symm h12,
      if_false, if_true]
    rw [testBit_clr]
    simp
  · intro i hi
    rw [hmem]
    simp only [Function.update_apply, add_right_inj, h23, h24, h25, h26, h27, Ne.symm h12,
      if_false, if_true]
    rw [testBit_clr]
    simp [Ne.symm hi]
  · rw [hmem]
    simp [Function.update_apply]

/-- C8 at the specification's example on the sample header:
`dma_config(0x1000, 0x800)` puts buffer A at 0x1000 with length 0x800 and
buffer B at 0x1800 with length 0x800. -/
theorem dma_config_aligned_witness :
    ((0x1000 : Nat) < 2 ^ 32 ∧ (0x800 : Nat) < 2 ^ 32
      ∧ 0x1000 &&& sampleHeader.HDMI_DMA_ADD_VALID_MASK = 0
      ∧ 0x800 &&& sampleHeader.HDMI_DMA_ADDLEN_VALID_MASK = 0)
    ∧ ∃ s : State,
      asp_hdmi_dma_config sampleHeader 0x1000 0x800 (sampleState 0xFFFFFFFF) = Outcome.ret (0, s)
      ∧ s.mem (0x10000 + sampleHeader.ASP_HDMI_A_ADDR) = 0x1000
      ∧ s.mem (0x10000 + sampleHeader.ASP_HDMI_A_LEN) = 0x800
      ∧ s.mem (0x10000 + sampleHeader.ASP_HDMI_B_ADDR) = 0x1800
      ∧ s.mem (0x10000 + sampleHeader.ASP_HDMI_B_LEN) = 0x800 := by
  refine ⟨by decide, ?_⟩
  obtain ⟨s, hrun, hA, hAl, hB, -, hBl, -⟩ :=
    dma_config_aligned sampleHeader samplePriv (fun _ => 0xFFFFFFFF) [] 0x1000 0x800
      (by decide) (by decide) (by decide) (by decide) (by decide)
  exact ⟨s, hrun, hA, hAl, hB, hBl⟩

/-! ## DMA stop query -/

/-- C9: on an attached context, for every register state the stop query
returns true exactly when `(DMA_EN | INT_MSK_STATE) & HDMI_DMA_EN_MASK` is 0,
which is the case exactly when neither register has a bit of the mask set; it
performs two locked reads and no write, and the window is unchanged. -/
theorem dma_is_stop_iff (h : Header) (priv : asp_hdmi_dma_priv) (mem : Nat → Nat)
    (trace : List Event) :
    asp_hdmi_dma_is_stop h (State.mk (some priv) mem trace)
        = Outcome.ret (decide (((u32 (mem (priv.asp_dma_reg_base_addr + h.ASP_HDMI_DMA_EN))
                ||| u32 (mem (priv.asp_dma_reg_base_addr + h.ASP_HDMI_INT_MSK_STATE)))
              &&& h.HDMI_DMA_EN_MASK) = 0),
            State.mk (some priv) mem
              (trace ++ [Event.spin_lock_irqsave,
                Event.readl (priv.asp_dma_reg_base_addr + h.ASP_HDMI_DMA_EN),
                Event.spin_unlock_irqrestore,
                Event.spin_lock_irqsave,
                Event.readl (priv.asp_dma_reg_base_addr + h.ASP_HDMI_INT_MSK_STATE),
                Event.spin_unlock_irqrestore]))
      ∧ ((((u32 (mem (priv.asp_dma_reg_base_addr + h.ASP_HDMI_DMA_EN))
                ||| u32 (mem (priv.asp_dma_reg_base_addr + h.ASP_HDMI_INT_MSK_STATE)))
              &&& h.HDMI_DMA_EN_MASK) = 0)
          ↔ (u32 (mem (priv.asp_dma_reg_base_addr + h.ASP_HDMI_DMA_EN))
                &&& h.HDMI_DMA_EN_MASK = 0
              ∧ u32 (mem (priv.asp_dma_reg_base_addr + h.ASP_HDMI_INT_MSK_STATE))
                &&& h.HDMI_DMA_EN_MASK = 0)) := by
  refine ⟨?_, or_and_eq_zero_iff _ _ _⟩
  unfold asp_hdmi_dma_is_stop
  simp only [reg_read_eq, Outcome.bind, List.append_assoc, List.cons_append, List.nil_append]
  by_cases hz : ((u32 (mem (priv.asp_dma_reg_base_addr + h.ASP_HDMI_DMA_EN))
      ||| u32 (mem (priv.asp_dma_reg_base_addr + h.ASP_HDMI_INT_MSK_STATE)))
      &&& h.HDMI_DMA_EN_MASK) = 0
  · rw [if_neg (not_not.mpr hz)]
    simp [hz]
  · rw [if_pos hz]
    simp [hz]

/-! ## TX3 disable -/

theorem writes_append (xs ys : List Event) : writes (xs ++ ys) = writes xs ++ writes ys := by
  induction xs with
  | nil => rfl
  | cons e es ih => cases e <;> simp [writes, ih]

theorem one_eq_and_one_iff (x : Nat) : 1 = (x &&& 0x1) ↔ x.testBit 0 = true := by
  rw [Nat.and_one_is_mod, Nat.testBit_zero, decide_eq_true_eq]
  exact eq_comm

/-- The disable call on an attached context: a locked read of TX3, followed by
a locked read-modify-write that clears `HDMI_TX3_EN_BIT` when bit 0 was set. -/
theorem tx3_disable_eq (h : Header) (priv : asp_hdmi_dma_priv) (mem : Nat → Nat)
    (trace : List Event) :
    asp_hdmi_tx3_disable h (State.mk (some priv) mem trace)
      = Outcome.ret ((),
          if (u32 (mem (priv.asp_dma_reg_base_addr + h.ASP_HDMI_TX3))).testBit 0 = true then
            State.mk (some priv)
              (Function.update mem (priv.asp_dma_reg_base_addr + h.ASP_HDMI_TX3)
                (u32 (u32 (mem (priv.asp_dma_reg_base_addr + h.ASP_HDMI_TX3))
                  &&& not32 (1 <<< h.HDMI_TX3_EN_BIT))))
              (trace ++ [Event.spin_lock_irqsave,
                Event.readl (priv.asp_dma_reg_base_addr + h.ASP_HDMI_TX3),
                Event.spin_unlock_irqrestore,
                Event.spin_lock_irqsave,
                Event.readl (priv.asp_dma_reg_base_addr + h.ASP_HDMI_TX3),
                Event.writel
                  (u32 (u32 (mem (priv.asp_dma_reg_base_addr + h.ASP_HDMI_TX3))
                    &&& not32 (1 <<< h.HDMI_TX3_EN_BIT)))
                  (priv.asp_dma_reg_base_addr + h.ASP_HDMI_TX3),
                Event.spin_unlock_irqrestore])
          else
            State.mk (some priv) mem
              (trace ++ [Event.spin_lock_irqsave,
                Event.readl (priv.asp_dma_reg_base_addr + h.ASP_HDMI_TX3),
                Event.spin_unlock_irqrestore])) := by
  unfold asp_hdmi_tx3_disable
  simp only [reg_read_eq, Outcome.bind]
  by_cases hb : (u32 (mem (priv.asp_dma_reg_base_addr + h.ASP_HDMI_TX3))).testBit 0 = true
  · rw [if_pos ((one_eq_and_one_iff _).mpr hb), if_pos hb, reg_clr_bit_eq]
    simp
  · rw [if_neg (fun e => hb ((one_eq_and_one_iff _).mp e)), if_neg hb]

/-- C10: when the enable bit `HDMI_TX3_EN_BIT` is bit 0, the bit the disable
call tests, then on an attached context and for every register state: after
one call the enable bit of TX3 is 0; a second call only reads TX3 and writes
nothing, leaving the window as the first call left it; and when the enable bit
is 0 to begin with, the first call too only reads TX3 and leaves the window
alone. -/
theorem tx3_disable_idempotent (h : Header) (priv : asp_hdmi_dma_priv) (mem : Nat → Nat)
    (trace : List Event) (hbit : h.HDMI_TX3_EN_BIT = 0) :
    ∃ s1 s2 : State,
      asp_hdmi_tx3_disable h (State.mk (some priv) mem trace) = Outcome.ret ((), s1)
      ∧ asp_hdmi_tx3_disable h s1 = Outcome.ret ((), s2)
      ∧ (u32 (s1.mem (priv.asp_dma_reg_base_addr + h.ASP_HDMI_TX3))).testBit
          h.HDMI_TX3_EN_BIT = false
      ∧ s2.asp_hdmi_dma_priv = s1.asp_hdmi_dma_priv
      ∧ s2.mem = s1.mem
      ∧ s2.trace = s1.trace ++ [Event.spin_lock_irqsave,
          Event.readl (priv.asp_dma_reg_base_addr + h.ASP_HDMI_TX3),
          Event.spin_unlock_irqrestore]
      ∧ writes s2.trace = writes s1.trace
      ∧ ((u32 (mem (priv.asp_dma_reg_base_addr + h.ASP_HDMI_TX3))).testBit
            h.HDMI_TX3_EN_BIT = false →
          s1.mem = mem
          ∧ s1.trace = trace ++ [Event.spin_lock_irqsave,
              Event.readl (priv.asp_dma_reg_base_addr + h.ASP_HDMI_TX3),
              Event.spin_unlock_irqrestore]) := by
  by_cases hb : (u32 (mem (priv.asp_dma_reg_base_addr + h.ASP_HDMI_TX3))).testBit 0 = true
  · have hclr : (u32 (Function.update mem (priv.asp_dma_reg_base_addr + h.ASP_HDMI_TX3)
        (u32 (u32 (mem (priv.asp_dma_reg_base_addr + h.ASP_HDMI_TX3))
          &&& not32 (1 <<< h.HDMI_TX3_EN_BIT)))
        (priv.asp_dma_reg_base_addr + h.ASP_HDMI_TX3))).testBit 0 = false := by
      rw [Function.update_same, u32_u32, testBit_clr, hbit]
      simp
    have h1 := tx3_disable_eq h priv mem trace
    rw [if_pos hb] at h1
    have h2 := tx3_disable_eq h priv
      (Function.update mem (priv.asp_dma_reg_base_addr + h.ASP_HDMI_TX3)
        (u32 (u32 (mem (priv.asp_dma_reg_base_addr + h.ASP_HDMI_TX3))
          &&& not32 (1 <<< h.HDMI_TX3_EN_BIT))))
      (trace ++ [Event.spin_lock_irqsave,
        Event.readl (priv.asp_dma_reg_base_addr + h.ASP_HDMI_TX3),
        Event.spin_unlock_irqrestore,
        Event.spin_lock_irqsave,
        Event.readl (priv.asp_dma_reg_base_addr + h.ASP_HDMI_TX3),
        Event.writel
          (u32 (u32 (mem (priv.asp_dma_reg_base_addr + h.ASP_HDMI_TX3))
            &&& not32 (1 <<< h.HDMI_TX3_EN_BIT)))
          (priv.asp_dma_reg_base_addr + h.ASP_HDMI_TX3),
        Event.spin_unlock_irqrestore])
    rw [if_neg (by rw [hclr]; decide)] at h2
    refine ⟨_, _, h1, h2, ?_, rfl, rfl, rfl, ?_, ?_⟩
    · rw [hbit] at hclr ⊢
      exact hclr
    · rw [writes_append]
      simp [writes]
    · intro h0
      rw [hbit, hb] at h0
      exact absurd h0 (by decide)
  · have h1 := tx3_disable_eq h priv mem trace
    rw [if_neg hb] at h1
    have h2 := tx3_disable_eq h priv mem
      (trace ++ [Event.spin_lock_irqsave,
        Event.readl (priv.asp_dma_reg_base_addr + h.ASP_HDMI_TX3),
        Event.spin_unlock_irqrestore])
    rw [if_neg hb] at h2
    refine ⟨_, _, h1, h2, ?_, rfl, rfl, rfl, ?_, ?_⟩
    · rw [hbit]
      simpa using hb
    · rw [writes_append]
      simp [writes]
    · intro _
      exact ⟨rfl, rfl⟩

/-- C10 on the sample header, from a TX3 content of 0xFFFFFFFF: the first call
writes 0xFFFFFFFE, the second one writes nothing. -/
theorem tx3_disable_idempotent_witness :
    sampleHeader.HDMI_TX3_EN_BIT = 0
    ∧ ∃ s1 s2 : State,
      asp_hdmi_tx3_disable sampleHeader (sampleState 0xFFFFFFFF) = Outcome.ret ((), s1)
      ∧ asp_hdmi_tx3_disable sampleHeader s1 = Outcome.ret ((), s2)
      ∧ s2.mem = s1.mem
      ∧ writes s2.trace = writes s1.trace :=
  ⟨rfl,
   match tx3_disable_idempotent sampleHeader samplePriv (fun _ => 0xFFFFFFFF) [] rfl with
   | ⟨s1, s2, h1, h2, _, _, hm, _, hw, _⟩ => ⟨s1, s2, h1, h2, hm, hw⟩⟩

/-! ## TX3 enable -/

theorem u32_or (x y : Nat) : u32 (u32 x ||| u32 y) = u32 x ||| u32 y :=
  u32_of_lt (Nat.or_lt_two_pow (u32_lt x) (u32_lt y))

theorem u32_and_left (x y : Nat) : u32 (u32 x &&& y) = u32 x &&& y :=
  u32_of_lt (lt_of_le_of_lt Nat.and_le_left (u32_lt x))

theorem reads_append (xs ys : List Event) : reads (xs ++ ys) = reads xs ++ reads ys := by
  induction xs with
  | nil => rfl
  | cons e es ih => cases e <;> simp [reads, ih]

theorem reg_set_bit_eq (reg offset : Nat) (priv : asp_hdmi_dma_priv) (mem : Nat → Nat)
    (trace : List Event) :
    asp_hdmi_dmac_reg_set_bit reg offset (State.mk (some priv) mem trace)
      = Outcome.ret ((),
          State.mk (some priv)
            (Function.update mem (priv.asp_dma_reg_base_addr + reg)
              (u32 (mem (priv.asp_dma_reg_base_addr + reg)) ||| u32 (1 <<< offset)))
            (trace ++ [Event.spin_lock_irqsave, Event.readl (priv.asp_dma_reg_base_addr + reg),
              Event.writel
                (u32 (mem (priv.asp_dma_reg_base_addr + reg)) ||| u32 (1 <<< offset))
                (priv.asp_dma_reg_base_addr + reg),
              Event.spin_unlock_irqrestore])) := by
  simp [asp_hdmi_dmac_reg_set_bit, spin_lock_irqsave, readl, writel, spin_unlock_irqrestore,
    u32_or]

/-- Bit `i` of the value the set-bit primitive writes back. -/
theorem testBit_set (x k i : Nat) :
    (u32 x ||| u32 (1 <<< k)).testBit i
      = ((u32 x).testBit i || (decide (i < 32) && decide (k = i))) := by
  rw [Nat.testBit_or, Nat.one_shiftLeft]
  simp only [u32, Nat.testBit_mod_two_pow, Nat.testBit_two_pow]

/-- C11: on an attached context, for every register state (the enable bit set
or not) the enable call performs one locked read-modify-write of TX3, after
which TX3 holds its old 32-bit content OR `1 << HDMI_TX3_EN_BIT`; every other
bit of TX3 and every other address are as before. -/
theorem tx3_enable_unconditional (h : Header) (priv : asp_hdmi_dma_priv) (mem : Nat → Nat)
    (trace : List Event) :
    asp_hdmi_tx3_enable h (State.mk (some priv) mem trace)
        = Outcome.ret ((),
            State.mk (some priv)
              (Function.update mem (priv.asp_dma_reg_base_addr + h.ASP_HDMI_TX3)
                (u32 (mem (priv.asp_dma_reg_base_addr + h.ASP_HDMI_TX3))
                  ||| u32 (1 <<< h.HDMI_TX3_EN_BIT)))
              (trace ++ [Event.spin_lock_irqsave,
                Event.readl (priv.asp_dma_reg_base_addr + h.ASP_HDMI_TX3),
                Event.writel
                  (u32 (mem (priv.asp_dma_reg_base_addr + h.ASP_HDMI_TX3))
                    ||| u32 (1 <<< h.HDMI_TX3_EN_BIT))
                  (priv.asp_dma_reg_base_addr + h.ASP_HDMI_TX3),
                Event.spin_unlock_irqrestore]))
      ∧ (∀ i, i ≠ h.HDMI_TX3_EN_BIT →
          (u32 (mem (priv.asp_dma_reg_base_addr + h.ASP_HDMI_TX3))
              ||| u32 (1 <<< h.HDMI_TX3_EN_BIT)).testBit i
            = (u32 (mem (priv.asp_dma_reg_base_addr + h.ASP_HDMI_TX3))).testBit i)
      ∧ (∀ a, a ≠ priv.asp_dma_reg_base_addr + h.ASP_HDMI_TX3 →
          Function.update mem (priv.asp_dma_reg_base_addr + h.ASP_HDMI_TX3)
            (u32 (mem (priv.asp_dma_reg_base_addr + h.ASP_HDMI_TX3))
              ||| u32 (1 <<< h.HDMI_TX3_EN_BIT)) a = mem a) := by
  refine ⟨?_, ?_, fun a ha => Function.update_noteq ha _ _⟩
  · unfold asp_hdmi_tx3_enable
    exact reg_set_bit_eq _ _ _ _ _
  · intro i hi
    rw [testBit_set]
    simp [Ne.symm hi]

/-! ## DMA start and stop -/

theorem and_not32_7 (x : Nat) :
    u32 (u32 (u32 (u32 x &&& not32 (1 <<< 0)) &&& not32 (1 <<< 1)) &&& not32 (1 <<< 2))
      = u32 x &&& not32 0x7 := by
  apply Nat.eq_of_testBit_eq
  intro i
  rw [testBit_clr, testBit_clr, testBit_clr, Nat.testBit_and, testBit_not32]
  have h7 : (u32 7).testBit i = decide (i < 3) := by
    rw [show u32 7 = 2 ^ 3 - 1 from rfl, Nat.testBit_two_pow_sub_one]
  rw [h7]
  by_cases h0 : 0 = i
  · subst h0; simp
  · by_cases h1 : 1 = i
    · subst h1; simp
    · by_cases h2 : 2 = i
      · subst h2; simp
      · have h3 : ¬ i < 3 := by omega
        have h32 : (u32 x).testBit i = true → i < 32 := by
          intro hb
          by_contra hge
          have := Nat.testBit_lt_two_pow (lt_of_lt_of_le (u32_lt x)
            (Nat.pow_le_pow_right (by decide) (Nat.le_of_not_lt hge)))
          rw [this] at hb
          exact absurd hb (by decide)
        cases hb : (u32 x).testBit i
        · simp
        · simp [h0, h1, h2, h3, h32 hb]

/-- C16: on an attached context whose interrupt-enable and DMA-enable registers
have different offsets, for every register state the stop call leaves INT_EN
with its old 32-bit content AND `~0x7` (bits 0, 1 and 2 cleared by three
locked read-modify-writes, every other bit kept), stores
`HDMI_DMA_DISABLE_MASK` in DMA_EN by one write without reading it, and leaves
every other address as it was. -/
theorem dma_stop_effect (h : Header) (priv : asp_hdmi_dma_priv) (mem : Nat → Nat)
    (trace : List Event) (hne : h.ASP_HDMI_INT_EN ≠ h.ASP_HDMI_DMA_EN) :
    ∃ s : State,
      asp_hdmi_dma_stop h (State.mk (some priv) mem trace) = Outcome.ret ((), s)
      ∧ s.mem (priv.asp_dma_reg_base_addr + h.ASP_HDMI_INT_EN)
          = u32 (mem (priv.asp_dma_reg_base_addr + h.ASP_HDMI_INT_EN)) &&& not32 0x7
      ∧ s.mem (priv.asp_dma_reg_base_addr + h.ASP_HDMI_DMA_EN) = u32 h.HDMI_DMA_DISABLE_MASK
      ∧ (∀ a, a ≠ priv.asp_dma_reg_base_addr + h.ASP_HDMI_INT_EN →
          a ≠ priv.asp_dma_reg_base_addr + h.ASP_HDMI_DMA_EN → s.mem a = mem a)
      ∧ reads s.trace = reads trace ++
          [priv.asp_dma_reg_base_addr + h.ASP_HDMI_INT_EN,
           priv.asp_dma_reg_base_addr + h.ASP_HDMI_INT_EN,
           priv.asp_dma_reg_base_addr + h.ASP_HDMI_INT_EN]
      ∧ (writes s.trace).map Prod.snd = (writes trace).map Prod.snd ++
          [priv.asp_dma_reg_base_addr + h.ASP_HDMI_INT_EN,
           priv.asp_dma_reg_base_addr + h.ASP_HDMI_INT_EN,
           priv.asp_dma_reg_base_addr + h.ASP_HDMI_INT_EN,
           priv.asp_dma_reg_base_addr + h.ASP_HDMI_DMA_EN] := by
  have hne' : priv.asp_dma_reg_base_addr + h.ASP_HDMI_INT_EN
      ≠ priv.asp_dma_reg_base_addr + h.ASP_HDMI_DMA_EN := fun e => hne (Nat.add_left_cancel e)
  unfold asp_hdmi_dma_stop
  simp only [reg_clr_bit_eq, reg_write_eq, Outcome.bind, Function.update_same]
  refine ⟨_, rfl, ?_, ?_, ?_, ?_, ?_⟩
  · simp only [Function.update_noteq hne', Function.update_same, Function.update_idem, u32_u32]
    exact and_not32_7 _
  · simp only [Function.update_same]
  · intro a ha1 ha2
    simp only [Function.update_noteq ha2, Function.update_noteq ha1]
  · simp [reads_append, reads]
  · simp [writes_append, writes]

/-- C16 on the sample header, from a window that reads 0xFFFFFFFF everywhere:
INT_EN becomes 0xFFFFFFF8 and DMA_EN the disable mask. -/
theorem dma_stop_effect_witness :
    sampleHeader.ASP_HDMI_INT_EN ≠ sampleHeader.ASP_HDMI_DMA_EN
    ∧ ∃ s : State,
      asp_hdmi_dma_stop sampleHeader (sampleState 0xFFFFFFFF) = Outcome.ret ((), s)
      ∧ s.mem (0x10000 + sampleHeader.ASP_HDMI_INT_EN) = 0xFFFFFFF8
      ∧ s.mem (0x10000 + sampleHeader.ASP_HDMI_DMA_EN) = 0x30000 :=
  ⟨by decide,
   match dma_stop_effect sampleHeader samplePriv (fun _ => 0xFFFFFFFF) [] (by decide) with
   | ⟨s, hrun, hint, hdma, _⟩ => ⟨s, hrun, hint, hdma⟩⟩

/-- C17: on an attached context, for every register state (whatever was or was
not configured before) the start call returns 0 after exactly three locked
writes, in this order: the DMA-enable mask to DMA_EN, the interrupt mask to
INT_EN, the I2S-set mask to I2S_SET; it reads no register. -/
theorem dma_start_writes (h : Header) (priv : asp_hdmi_dma_priv) (mem : Nat → Nat)
    (trace : List Event) :
    asp_hdmi_dma_start h (State.mk (some priv) mem trace)
        = Outcome.ret (0,
            State.mk (some priv)
              (Function.update (Function.update (Function.update mem
                (priv.asp_dma_reg_base_addr + h.ASP_HDMI_DMA_EN) (u32 h.HDMI_DMA_EN_MASK))
                (priv.asp_dma_reg_base_addr + h.ASP_HDMI_INT_EN) (u32 h.HDMI_INT_MASK))
                (priv.asp_dma_reg_base_addr + h.ASP_HDMI_I2S_SET) (u32 h.HDMI_I2S_SET_MASK))
              (trace ++ [Event.spin_lock_irqsave,
                Event.writel (u32 h.HDMI_DMA_EN_MASK)
                  (priv.asp_dma_reg_base_addr + h.ASP_HDMI_DMA_EN),
                Event.spin_unlock_irqrestore,
                Event.spin_lock_irqsave,
                Event.writel (u32 h.HDMI_INT_MASK)
                  (priv.asp_dma_reg_base_addr + h.ASP_HDMI_INT_EN),
                Event.spin_unlock_irqrestore,
                Event.spin_lock_irqsave,
                Event.writel (u32 h.HDMI_I2S_SET_MASK)
                  (priv.asp_dma_reg_base_addr + h.ASP_HDMI_I2S_SET),
                Event.spin_unlock_irqrestore]))
      ∧ writes [Event.spin_lock_irqsave,
                Event.writel (u32 h.HDMI_DMA_EN_MASK)
                  (priv.asp_dma_reg_base_addr + h.ASP_HDMI_DMA_EN),
                Event.spin_unlock_irqrestore,
                Event.spin_lock_irqsave,
                Event.writel (u32 h.HDMI_INT_MASK)
                  (priv.asp_dma_reg_base_addr + h.ASP_HDMI_INT_EN),
                Event.spin_unlock_irqrestore,
                Event.spin_lock_irqsave,
                Event.writel (u32 h.HDMI_I2S_SET_MASK)
                  (priv.asp_dma_reg_base_addr + h.ASP_HDMI_I2S_SET),
                Event.spin_unlock_irqrestore]
          = [(u32 h.HDMI_DMA_EN_MASK, priv.asp_dma_reg_base_addr + h.ASP_HDMI_DMA_EN),
             (u32 h.HDMI_INT_MASK, priv.asp_dma_reg_base_addr + h.ASP_HDMI_INT_EN),
             (u32 h.HDMI_I2S_SET_MASK, priv.asp_dma_reg_base_addr + h.ASP_HDMI_I2S_SET)]
      ∧ reads [Event.spin_lock_irqsave,
                Event.writel (u32 h.HDMI_DMA_EN_MASK)
                  (priv.asp_dma_reg_base_addr + h.ASP_HDMI_DMA_EN),
                Event.spin_unlock_irqrestore,
                Event.spin_lock_irqsave,
                Event.writel (u32 h.HDMI_INT_MASK)
                  (priv.asp_dma_reg_base_addr + h.ASP_HDMI_INT_EN),
                Event.spin_unlock_irqrestore,
                Event.spin_lock_irqsave,
                Event.writel (u32 h.HDMI_I2S_SET_MASK)
                  (priv.asp_dma_reg_base_addr + h.ASP_HDMI_I2S_SET),
                Event.spin_unlock_irqrestore] = [] := by
  refine ⟨?_, rfl, rfl⟩
  unfold asp_hdmi_dma_start
  simp only [reg_write_eq, Outcome.bind, List.append_assoc, List.cons_append, List.nil_append]

/-! ## Purity of the TX3 transform -/

/-- C18: with the device context initialised, for any two register states (and
any two histories of bus events) and the same triple, the transform returns the
same status and the same value, each time leaving the state exactly as it
found it (no read, no write); that result is determined by the triple, the
header constants and the tables alone. -/
theorem tx3_transform_pure (h : Header) (priv₁ priv₂ : asp_hdmi_dma_priv)
    (mem₁ mem₂ : Nat → Nat) (trace₁ trace₂ : List Event) (p : tx3_config_parameters)
    (rv : Nat) :
    ∃ r : Int × Nat,
      asp_hdmi_transform_to_tx3_reg_value h p rv (State.mk (some priv₁) mem₁ trace₁)
          = Outcome.ret (r, State.mk (some priv₁) mem₁ trace₁)
        ∧ asp_hdmi_transform_to_tx3_reg_value h p rv (State.mk (some priv₂) mem₂ trace₂)
          = Outcome.ret (r, State.mk (some priv₂) mem₂ trace₂)
        ∧ r = (if supported h p then (0, tx3_value h p) else (-1, rv)) :=
  ⟨_, transform_eq h priv₁ mem₁ trace₁ p rv, transform_eq h priv₂ mem₂ trace₂ p rv, rfl⟩

/-! ## The missing device context -/

/-- C19: with the singleton device context null, every public operation ends
in `BUG()` in the very state it was called in: the window and the history of
lock and bus events are untouched, nothing is returned, whatever the arguments
are; so the configuration calls with invalid arguments are fatal too, not -1
or -EINVAL. -/
theorem null_context_is_fatal (h : Header) (mem : Nat → Nat) (trace : List Event)
    (tx3 : tx3_config_parameters) (sio : sio_config_parameters) (addr size value : Nat) :
    asp_hdmi_dma_enable h (State.mk none mem trace) = Outcome.bug (State.mk none mem trace)
      ∧ asp_hdmi_reg_read_irsr h (State.mk none mem trace)
          = Outcome.bug (State.mk none mem trace)
      ∧ asp_hdmi_tx3_config h tx3 (State.mk none mem trace)
          = Outcome.bug (State.mk none mem trace)
      ∧ asp_hdmi_tx3_enable h (State.mk none mem trace) = Outcome.bug (State.mk none mem trace)
      ∧ asp_hdmi_tx3_disable h (State.mk none mem trace)
          = Outcome.bug (State.mk none mem trace)
      ∧ asp_hdmi_SIO_config h sio (State.mk none mem trace)
          = Outcome.bug (State.mk none mem trace)
      ∧ asp_hdmi_dma_is_stop h (State.mk none mem trace)
          = Outcome.bug (State.mk none mem trace)
      ∧ asp_hdmi_dma_config h addr size (State.mk none mem trace)
          = Outcome.bug (State.mk none mem trace)
      ∧ asp_hdmi_dma_clear_interrupt h value (State.mk none mem trace)
          = Outcome.bug (State.mk none mem trace)
      ∧ asp_hdmi_dma_start h (State.mk none mem trace) = Outcome.bug (State.mk none mem trace)
      ∧ asp_hdmi_dma_stop h (State.mk none mem trace) = Outcome.bug (State.mk none mem trace) :=
  ⟨rfl, rfl, rfl, rfl, rfl, rfl, rfl, rfl, rfl, rfl, rfl⟩

/-! ## Attach -/

/-- C20: the probe returns -EINVAL for a null platform device, -ENOMEM when the
allocation fails, -ENOENT when the memory resource is absent and -ENOMEM when
the mapping fails, and in each of these cases the driver state, the singleton
included, is as before; it returns 0 exactly when all four steps succeed, and
then the singleton is a new context that holds the device, the resource and
the mapped base address, the rest of the state being as before. -/
theorem probe_publishes_on_success (k : Kernel) (pdev : Option platform_device) (s : State) :
    (pdev = none → asp_hdmi_dma_probe k pdev s = (-EINVAL, none, s))
      ∧ (∀ pd, pdev = some pd → k.devm_kzalloc = false →
          asp_hdmi_dma_probe k pdev s = (-ENOMEM, some pd, s))
      ∧ (∀ pd, pdev = some pd → k.devm_kzalloc = true → pd.resource = none →
          asp_hdmi_dma_probe k pdev s = (-ENOENT, some pd, s))
      ∧ (∀ pd res, pdev = some pd → k.devm_kzalloc = true → pd.resource = some res →
          k.devm_ioremap res.1 res.2 = 0 →
          asp_hdmi_dma_probe k pdev s = (-ENOMEM, some pd, s))
      ∧ (∀ pd res, pdev = some pd → k.devm_kzalloc = true → pd.resource = some res →
          k.devm_ioremap res.1 res.2 ≠ 0 →
          asp_hdmi_dma_probe k pdev s
            = (0,
               some (platform_device.mk pd.dev pd.resource
                 (some (asp_hdmi_dma_priv.mk pd.dev res (k.devm_ioremap res.1 res.2)))),
               State.mk
                 (some (asp_hdmi_dma_priv.mk pd.dev res (k.devm_ioremap res.1 res.2)))
                 s.mem s.trace))
      ∧ ((asp_hdmi_dma_probe k pdev s).1 = 0 ↔
          ∃ pd res, pdev = some pd ∧ k.devm_kzalloc = true ∧ pd.resource = some res
            ∧ k.devm_ioremap res.1 res.2 ≠ 0)
      ∧ ((asp_hdmi_dma_probe k pdev s).1 ≠ 0 → (asp_hdmi_dma_probe k pdev s).2.2 = s) := by
  have e1 : ∀ pd, k.devm_kzalloc = false →
      asp_hdmi_dma_probe k (some pd) s = (-ENOMEM, some pd, s) := by
    intro pd hk
    simp [asp_hdmi_dma_probe, hk]
  have e2 : ∀ pd, k.devm_kzalloc = true → pd.resource = none →
      asp_hdmi_dma_probe k (some pd) s = (-ENOENT, some pd, s) := by
    intro pd hk hr
    simp [asp_hdmi_dma_probe, hk, hr]
  have e3 : ∀ pd res, k.devm_kzalloc = true → pd.resource = some res →
      k.devm_ioremap res.1 res.2 = 0 →
      asp_hdmi_dma_probe k (some pd) s = (-ENOMEM, some pd, s) := by
    intro pd res hk hr hm
    simp [asp_hdmi_dma_probe, hk, hr, hm]
  have e4 : ∀ pd res, k.devm_kzalloc = true → pd.resource = some res →
      k.devm_ioremap res.1 res.2 ≠ 0 →
      asp_hdmi_dma_probe k (some pd) s
        = (0,
           some (platform_device.mk pd.dev pd.resource
             (some (asp_hdmi_dma_priv.mk pd.dev res (k.devm_ioremap res.1 res.2)))),
           State.mk
             (some (asp_hdmi_dma_priv.mk pd.dev res (k.devm_ioremap res.1 res.2)))
             s.mem s.trace) := by
    intro pd res hk hr hm
    simp [asp_hdmi_dma_probe, hk, hr, hm]
  have n1 : (-EINVAL : Int) ≠ 0 := by decide
  have n2 : (-ENOMEM : Int) ≠ 0 := by decide
  have n3 : (-ENOENT : Int) ≠ 0 := by decide
  refine ⟨?_, ?_, ?_, ?_, ?_, ?_, ?_⟩
  · rintro rfl
    rfl
  · rintro pd rfl hk
    exact e1 pd hk
  · rintro pd rfl hk hr
    exact e2 pd hk hr
  · rintro pd res rfl hk hr hm
    exact e3 pd res hk hr hm
  · rintro pd res rfl hk hr hm
    exact e4 pd res hk hr hm
  · constructor
    · intro h0
      cases pdev with
      | none => exact absurd h0 n1
      | some pd =>
        cases hk : k.devm_kzalloc with
        | false =>
          rw [e1 pd hk] at h0
          exact absurd h0 n2
        | true =>
          cases hr : pd.resource with
          | none =>
            rw [e2 pd hk hr] at h0
            exact absurd h0 n3
          | some res =>
            by_cases hm : k.devm_ioremap res.1 res.2 = 0
            · rw [e3 pd res hk hr hm] at h0
              exact absurd h0 n2
            · exact ⟨pd, res, rfl, rfl, hr, hm⟩
    · rintro ⟨pd, res, rfl, hk, hr, hm⟩
      rw [e4 pd res hk hr hm]
  · intro hne
    cases pdev with
    | none => rfl
    | some pd =>
      cases hk : k.devm_kzalloc with
      | false => rw [e1 pd hk]
      | true =>
        cases hr : pd.resource with
        | none => rw [e2 pd hk hr]
        | some res =>
          by_cases hm : k.devm_ioremap res.1 res.2 = 0
          · rw [e3 pd res hk hr hm]
          · rw [e4 pd res hk hr hm] at hne
            exact absurd rfl hne

/-- C20 on a platform device whose window is mapped at 0x10000: the probe
returns 0 and publishes the context; with a failing mapping it returns -12 and
the singleton stays null. -/
theorem probe_publishes_on_success_witness :
    asp_hdmi_dma_probe ⟨true, fun _ _ => 0x10000⟩
        (some ⟨1, some (0xE804E000, 0x400), none⟩) ⟨none, fun _ => 0, []⟩
      = (0, some ⟨1, some (0xE804E000, 0x400), some samplePriv⟩,
          State.mk (some samplePriv) (fun _ => 0) [])
    ∧ asp_hdmi_dma_probe ⟨true, fun _ _ => 0⟩
        (some ⟨1, some (0xE804E000, 0x400), none⟩) ⟨none, fun _ => 0, []⟩
      = (-12, some ⟨1, some (0xE804E000, 0x400), none⟩, State.mk none (fun _ => 0) []) :=
  ⟨(probe_publishes_on_success ⟨true, fun _ _ => 0x10000⟩
      (some ⟨1, some (0xE804E000, 0x400), none⟩) ⟨none, fun _ => 0, []⟩).2.2.2.2.1
      ⟨1, some (0xE804E000, 0x400), none⟩ (0xE804E000, 0x400) rfl rfl rfl (by decide),
   (probe_publishes_on_success ⟨true, fun _ _ => 0⟩
      (some ⟨1, some (0xE804E000, 0x400), none⟩) ⟨none, fun _ => 0, []⟩).2.2.2.1
      ⟨1, some (0xE804E000, 0x400), none⟩ (0xE804E000, 0x400) rfl rfl rfl rfl⟩

/-! ## SIO (channel status) configuration -/

theorem u32_or_distrib (a b : Nat) : u32 (a ||| b) = u32 a ||| u32 b := by
  apply Nat.eq_of_testBit_eq
  intro i
  simp only [u32, Nat.testBit_mod_two_pow, Nat.testBit_or]
  cases decide (i < 32) <;> simp

theorem testBit_one_shiftLeft32 (k i : Nat) :
    (u32 (1 <<< k)).testBit i = (decide (i < 32) && decide (k = i)) := by
  rw [Nat.one_shiftLeft]
  simp only [u32, Nat.testBit_mod_two_pow, Nat.testBit_two_pow]

/-- OR-ing in a bit below position `n` does not change the bits from `n` up. -/
theorem or_bit_shiftRight (x k n : Nat) (hk : k < n) :
    (x ||| u32 (1 <<< k)) >>> n = x >>> n := by
  apply Nat.eq_of_testBit_eq
  intro i
  rw [Nat.testBit_shiftRight, Nat.testBit_shiftRight, Nat.testBit_or, testBit_one_shiftLeft32]
  have : ¬ k = n + i := by omega
  simp [this]

theorem asp_hdmi_sio_sample_rate_rows (h : Header) (i : Nat) :
    asp_hdmi_sio_sample_rate h i ∈ [(44, 0x00), (48, 0x02), (32, 0x03), (96, 0x0A), (0, 0)] := by
  unfold asp_hdmi_sio_sample_rate
  rcases designated_cases _ i with ⟨h0, _⟩ | ⟨e, he, _, hr⟩
  · rw [h0]; simp
  · rw [hr]
    simp only [List.mem_cons, List.mem_singleton, List.not_mem_nil, or_false] at he
    rcases he with rfl | rfl | rfl | rfl <;> simp

/-- The two status-1 registers after the SIO configuration. -/
theorem sio_config_status1 (h : Header) (priv : asp_hdmi_dma_priv) (mem : Nat → Nat)
    (trace : List Event) (p : sio_config_parameters)
    (hreg : [h.ASP_HDMI_SIO_CH0_STATUS1_L, h.ASP_HDMI_SIO_CH0_STATUS1_R,
      h.ASP_HDMI_SIO_CH0_STATUS2_L, h.ASP_HDMI_SIO_CH0_STATUS2_R].Nodup) :
    ∃ s : State,
      asp_hdmi_SIO_config h p (State.mk (some priv) mem trace) = Outcome.ret ((), s)
      ∧ s.mem (priv.asp_dma_reg_base_addr + h.ASP_HDMI_SIO_CH0_STATUS1_L)
          = (if p.sample_rate < h.SAMPLE_RATE_NO_SUPPORT then
              u32 (mem (priv.asp_dma_reg_base_addr + h.ASP_HDMI_SIO_CH0_STATUS1_L))
                ||| u32 (1 <<< h.HDMI_SIO_CHANNEL_TYPE_BIT)
                ||| u32 ((asp_hdmi_sio_sample_rate h p.sample_rate).2
                      <<< h.HDMI_SIO_SAMPLE_RATE_BIT)
            else
              u32 (mem (priv.asp_dma_reg_base_addr + h.ASP_HDMI_SIO_CH0_STATUS1_L))
                ||| u32 (1 <<< h.HDMI_SIO_CHANNEL_TYPE_BIT))
            ||| (if p.is_hdcp = true then u32 (1 <<< h.HDMI_SIO_HDCP_BIT) else 0)
      ∧ s.mem (priv.asp_dma_reg_base_addr + h.ASP_HDMI_SIO_CH0_STATUS1_R)
          = (if p.sample_rate < h.SAMPLE_RATE_NO_SUPPORT then
              u32 (mem (priv.asp_dma_reg_base_addr + h.ASP_HDMI_SIO_CH0_STATUS1_L))
                ||| u32 (1 <<< h.HDMI_SIO_CHANNEL_TYPE_BIT)
                ||| u32 ((asp_hdmi_sio_sample_rate h p.sample_rate).2
                      <<< h.HDMI_SIO_SAMPLE_RATE_BIT)
            else
              u32 (mem (priv.asp_dma_reg_base_addr + h.ASP_HDMI_SIO_CH0_STATUS1_R))
                ||| u32 (1 <<< h.HDMI_SIO_CHANNEL_TYPE_BIT))
            ||| (if p.is_hdcp = true then u32 (1 <<< h.HDMI_SIO_HDCP_BIT) else 0) := by
  simp only [List.nodup_cons, List.mem_cons, List.mem_singleton, List.not_mem_nil,
    not_or, not_false_eq_true, List.nodup_nil, and_true] at hreg
  obtain ⟨⟨h12, h13, h14⟩, ⟨h23, h24⟩, h34⟩ := hreg
  unfold asp_hdmi_SIO_config
  dsimp only
  by_cases h1 : p.sample_rate < h.SAMPLE_RATE_NO_SUPPORT <;>
  cases h2 : p.is_hdcp <;>
  by_cases h3 : p.tx3_conf.bit_width < h.BIT_WIDTH_MAX <;>
  simp only [h1, h3, if_true, if_false, Bool.false_eq_true, reg_set_bit_eq, reg_read_eq,
    reg_write_eq, Outcome.bind] <;>
  refine ⟨_, rfl, ?_, ?_⟩ <;>
  simp [Function.update_apply, h12, h13, h14, h23, h24, h34, Ne.symm h12, Ne.symm h13,
    Ne.symm h14, Ne.symm h23, Ne.symm h24, Ne.symm h34, u32_or_distrib, u32_u32]

/-- The two status-2 registers after the SIO configuration. -/
theorem sio_config_status2 (h : Header) (priv : asp_hdmi_dma_priv) (mem : Nat → Nat)
    (trace : List Event) (p : sio_config_parameters)
    (hreg : [h.ASP_HDMI_SIO_CH0_STATUS1_L, h.ASP_HDMI_SIO_CH0_STATUS1_R,
      h.ASP_HDMI_SIO_CH0_STATUS2_L, h.ASP_HDMI_SIO_CH0_STATUS2_R].Nodup) :
    ∃ s : State,
      asp_hdmi_SIO_config h p (State.mk (some priv) mem trace) = Outcome.ret ((), s)
      ∧ s.mem (priv.asp_dma_reg_base_addr + h.ASP_HDMI_SIO_CH0_STATUS2_L)
          = (if p.tx3_conf.bit_width < h.BIT_WIDTH_MAX then
              u32 (mem (priv.asp_dma_reg_base_addr + h.ASP_HDMI_SIO_CH0_STATUS2_L)) ||| u32 h.HDMI_SIO_BITWIDTH_MASK
            else mem (priv.asp_dma_reg_base_addr + h.ASP_HDMI_SIO_CH0_STATUS2_L))
      ∧ s.mem (priv.asp_dma_reg_base_addr + h.ASP_HDMI_SIO_CH0_STATUS2_R)
          = (if p.tx3_conf.bit_width < h.BIT_WIDTH_MAX then
              u32 (mem (priv.asp_dma_reg_base_addr + h.ASP_HDMI_SIO_CH0_STATUS2_L)) ||| u32 h.HDMI_SIO_BITWIDTH_MASK
            else mem (priv.asp_dma_reg_base_addr + h.ASP_HDMI_SIO_CH0_STATUS2_R)) := by
  simp only [List.nodup_cons, List.mem_cons, List.mem_singleton, List.not_mem_nil,
    not_or, not_false_eq_true, List.nodup_nil, and_true] at hreg
  obtain ⟨⟨h12, h13, h14⟩, ⟨h23, h24⟩, h34⟩ := hreg
  unfold asp_hdmi_SIO_config
  dsimp only
  by_cases h1 : p.sample_rate < h.SAMPLE_RATE_NO_SUPPORT <;>
  cases h2 : p.is_hdcp <;>
  by_cases h3 : p.tx3_conf.bit_width < h.BIT_WIDTH_MAX <;>
  simp only [h1, h3, if_true, if_false, Bool.false_eq_true, reg_set_bit_eq, reg_read_eq,
    reg_write_eq, Outcome.bind] <;>
  refine ⟨_, rfl, ?_, ?_⟩ <;>
  simp [Function.update_apply, h12, h13, h14, h23, h24, h34, Ne.symm h12, Ne.symm h13,
    Ne.symm h14, Ne.symm h23, Ne.symm h24, Ne.symm h34, u32_or_distrib, u32_u32]

/-- The register writes of the SIO configuration, in order. -/
theorem sio_config_writes (h : Header) (priv : asp_hdmi_dma_priv) (mem : Nat → Nat)
    (trace : List Event) (p : sio_config_parameters)
    (hreg : [h.ASP_HDMI_SIO_CH0_STATUS1_L, h.ASP_HDMI_SIO_CH0_STATUS1_R,
      h.ASP_HDMI_SIO_CH0_STATUS2_L, h.ASP_HDMI_SIO_CH0_STATUS2_R].Nodup) :
    ∃ s : State,
      asp_hdmi_SIO_config h p (State.mk (some priv) mem trace) = Outcome.ret ((), s)
      ∧ writes s.trace = writes trace
          ++ [(u32 (mem (priv.asp_dma_reg_base_addr + h.ASP_HDMI_SIO_CH0_STATUS1_L)) ||| u32 (1 <<< h.HDMI_SIO_CHANNEL_TYPE_BIT),
                priv.asp_dma_reg_base_addr + h.ASP_HDMI_SIO_CH0_STATUS1_L),
              (u32 (mem (priv.asp_dma_reg_base_addr + h.ASP_HDMI_SIO_CH0_STATUS1_R)) ||| u32 (1 <<< h.HDMI_SIO_CHANNEL_TYPE_BIT),
                priv.asp_dma_reg_base_addr + h.ASP_HDMI_SIO_CH0_STATUS1_R)]
          ++ (if p.sample_rate < h.SAMPLE_RATE_NO_SUPPORT then
                [(u32 (mem (priv.asp_dma_reg_base_addr + h.ASP_HDMI_SIO_CH0_STATUS1_L)) ||| u32 (1 <<< h.HDMI_SIO_CHANNEL_TYPE_BIT)
                    ||| u32 ((asp_hdmi_sio_sample_rate h p.sample_rate).2
                          <<< h.HDMI_SIO_SAMPLE_RATE_BIT),
                  priv.asp_dma_reg_base_addr + h.ASP_HDMI_SIO_CH0_STATUS1_L),
                 (u32 (mem (priv.asp_dma_reg_base_addr + h.ASP_HDMI_SIO_CH0_STATUS1_L)) ||| u32 (1 <<< h.HDMI_SIO_CHANNEL_TYPE_BIT)
                    ||| u32 ((asp_hdmi_sio_sample_rate h p.sample_rate).2
                          <<< h.HDMI_SIO_SAMPLE_RATE_BIT),
                  priv.asp_dma_reg_base_addr + h.ASP_HDMI_SIO_CH0_STATUS1_R)]
              else [])
          ++ (if p.is_hdcp = true then
                [(s.mem (priv.asp_dma_reg_base_addr + h.ASP_HDMI_SIO_CH0_STATUS1_L), priv.asp_dma_reg_base_addr + h.ASP_HDMI_SIO_CH0_STATUS1_L),
                 (s.mem (priv.asp_dma_reg_base_addr + h.ASP_HDMI_SIO_CH0_STATUS1_R), priv.asp_dma_reg_base_addr + h.ASP_HDMI_SIO_CH0_STATUS1_R)]
              else [])
          ++ (if p.tx3_conf.bit_width < h.BIT_WIDTH_MAX then
                [(s.mem (priv.asp_dma_reg_base_addr + h.ASP_HDMI_SIO_CH0_STATUS2_L), priv.asp_dma_reg_base_addr + h.ASP_HDMI_SIO_CH0_STATUS2_L),
                 (s.mem (priv.asp_dma_reg_base_addr + h.ASP_HDMI_SIO_CH0_STATUS2_R), priv.asp_dma_reg_base_addr + h.ASP_HDMI_SIO_CH0_STATUS2_R)]
              else []) := by
  simp only [List.nodup_cons, List.mem_cons, List.mem_singleton, List.not_mem_nil,
    not_or, not_false_eq_true, List.nodup_nil, and_true] at hreg
  obtain ⟨⟨h12, h13, h14⟩, ⟨h23, h24⟩, h34⟩ := hreg
  unfold asp_hdmi_SIO_config
  dsimp only
  by_cases h1 : p.sample_rate < h.SAMPLE_RATE_NO_SUPPORT <;>
  cases h2 : p.is_hdcp <;>
  by_cases h3 : p.tx3_conf.bit_width < h.BIT_WIDTH_MAX <;>
  simp only [h1, h3, if_true, if_false, Bool.false_eq_true, reg_set_bit_eq, reg_read_eq,
    reg_write_eq, Outcome.bind] <;>
  refine ⟨_, rfl, ?_⟩ <;>
  simp [writes_append, writes, Function.update_apply, h12, h13, h14, h23, h24, h34,
    Ne.symm h12, Ne.symm h13, Ne.symm h14, Ne.symm h23, Ne.symm h24, Ne.symm h34,
    u32_or_distrib, u32_u32]

/-- C12: on an attached context whose four channel-status registers have
pairwise different offsets and whose channel-type and HDCP bits lie below the
sample-rate field (the HDCP bit inside the register), for every register state
and every call with an unsupported sample rate: each status-1 register ends as
its own old content OR the channel-type bit, OR the HDCP bit when `is_hdcp` is
set; so the bits from `HDMI_SIO_SAMPLE_RATE_BIT` up are, in both registers,
what they were, and with `is_hdcp` set the HDCP bit is 1 in both; every bit
other than those two flag bits is what it was. -/
theorem sio_config_unsupported_rate (h : Header) (priv : asp_hdmi_dma_priv) (mem : Nat → Nat)
    (trace : List Event) (p : sio_config_parameters)
    (hrate : h.SAMPLE_RATE_NO_SUPPORT ≤ p.sample_rate)
    (hreg : [h.ASP_HDMI_SIO_CH0_STATUS1_L, h.ASP_HDMI_SIO_CH0_STATUS1_R,
      h.ASP_HDMI_SIO_CH0_STATUS2_L, h.ASP_HDMI_SIO_CH0_STATUS2_R].Nodup)
    (hct : h.HDMI_SIO_CHANNEL_TYPE_BIT < h.HDMI_SIO_SAMPLE_RATE_BIT)
    (hhd : h.HDMI_SIO_HDCP_BIT < h.HDMI_SIO_SAMPLE_RATE_BIT)
    (hhd32 : h.HDMI_SIO_HDCP_BIT < 32) :
    ∃ s : State,
      asp_hdmi_SIO_config h p (State.mk (some priv) mem trace) = Outcome.ret ((), s)
      ∧ s.mem (priv.asp_dma_reg_base_addr + h.ASP_HDMI_SIO_CH0_STATUS1_L)
          = u32 (mem (priv.asp_dma_reg_base_addr + h.ASP_HDMI_SIO_CH0_STATUS1_L)) ||| u32 (1 <<< h.HDMI_SIO_CHANNEL_TYPE_BIT)
            ||| (if p.is_hdcp = true then u32 (1 <<< h.HDMI_SIO_HDCP_BIT) else 0)
      ∧ s.mem (priv.asp_dma_reg_base_addr + h.ASP_HDMI_SIO_CH0_STATUS1_R)
          = u32 (mem (priv.asp_dma_reg_base_addr + h.ASP_HDMI_SIO_CH0_STATUS1_R)) ||| u32 (1 <<< h.HDMI_SIO_CHANNEL_TYPE_BIT)
            ||| (if p.is_hdcp = true then u32 (1 <<< h.HDMI_SIO_HDCP_BIT) else 0)
      ∧ s.mem (priv.asp_dma_reg_base_addr + h.ASP_HDMI_SIO_CH0_STATUS1_L) >>> h.HDMI_SIO_SAMPLE_RATE_BIT
          = u32 (mem (priv.asp_dma_reg_base_addr + h.ASP_HDMI_SIO_CH0_STATUS1_L)) >>> h.HDMI_SIO_SAMPLE_RATE_BIT
      ∧ s.mem (priv.asp_dma_reg_base_addr + h.ASP_HDMI_SIO_CH0_STATUS1_R) >>> h.HDMI_SIO_SAMPLE_RATE_BIT
          = u32 (mem (priv.asp_dma_reg_base_addr + h.ASP_HDMI_SIO_CH0_STATUS1_R)) >>> h.HDMI_SIO_SAMPLE_RATE_BIT
      ∧ (p.is_hdcp = true →
          (s.mem (priv.asp_dma_reg_base_addr + h.ASP_HDMI_SIO_CH0_STATUS1_L)).testBit h.HDMI_SIO_HDCP_BIT = true
          ∧ (s.mem (priv.asp_dma_reg_base_addr + h.ASP_HDMI_SIO_CH0_STATUS1_R)).testBit h.HDMI_SIO_HDCP_BIT = true)
      ∧ (∀ i, i ≠ h.HDMI_SIO_CHANNEL_TYPE_BIT → i ≠ h.HDMI_SIO_HDCP_BIT →
          (s.mem (priv.asp_dma_reg_base_addr + h.ASP_HDMI_SIO_CH0_STATUS1_L)).testBit i
              = (u32 (mem (priv.asp_dma_reg_base_addr + h.ASP_HDMI_SIO_CH0_STATUS1_L))).testBit i
          ∧ (s.mem (priv.asp_dma_reg_base_addr + h.ASP_HDMI_SIO_CH0_STATUS1_R)).testBit i
              = (u32 (mem (priv.asp_dma_reg_base_addr + h.ASP_HDMI_SIO_CH0_STATUS1_R))).testBit i) := by
  obtain ⟨s, hrun, hL, hR⟩ := sio_config_status1 h priv mem trace p hreg
  have hn : ¬ p.sample_rate < h.SAMPLE_RATE_NO_SUPPORT := by omega
  rw [if_neg hn] at hL hR
  have hframe : ∀ (x i : Nat), i ≠ h.HDMI_SIO_CHANNEL_TYPE_BIT → i ≠ h.HDMI_SIO_HDCP_BIT →
      (x ||| u32 (1 <<< h.HDMI_SIO_CHANNEL_TYPE_BIT)
        ||| (if p.is_hdcp = true then u32 (1 <<< h.HDMI_SIO_HDCP_BIT) else 0)).testBit i
          = x.testBit i := by
    intro x i hi1 hi2
    by_cases hh : p.is_hdcp = true
    · rw [if_pos hh, Nat.testBit_or, Nat.testBit_or, testBit_one_shiftLeft32,
        testBit_one_shiftLeft32]
      simp [Ne.symm hi1, Ne.symm hi2]
    · rw [if_neg hh, Nat.or_zero, Nat.testBit_or, testBit_one_shiftLeft32]
      simp [Ne.symm hi1]
  have hshift : ∀ x : Nat,
      (x ||| u32 (1 <<< h.HDMI_SIO_CHANNEL_TYPE_BIT)
        ||| (if p.is_hdcp = true then u32 (1 <<< h.HDMI_SIO_HDCP_BIT) else 0))
          >>> h.HDMI_SIO_SAMPLE_RATE_BIT = x >>> h.HDMI_SIO_SAMPLE_RATE_BIT := by
    intro x
    by_cases hh : p.is_hdcp = true
    · rw [if_pos hh, or_bit_shiftRight _ _ _ hhd, or_bit_shiftRight _ _ _ hct]
    · rw [if_neg hh, Nat.or_zero, or_bit_shiftRight _ _ _ hct]
  have hbit : ∀ x : Nat,
      (x ||| u32 (1 <<< h.HDMI_SIO_CHANNEL_TYPE_BIT)
        ||| u32 (1 <<< h.HDMI_SIO_HDCP_BIT)).testBit h.HDMI_SIO_HDCP_BIT = true := by
    intro x
    rw [Nat.testBit_or, testBit_one_shiftLeft32]
    simp [hhd32]
  refine ⟨s, hrun, hL, hR, ?_, ?_, ?_, ?_⟩
  · rw [hL, hshift]
  · rw [hR, hshift]
  · intro hh
    rw [hL, hR, if_pos hh]
    exact ⟨hbit _, hbit _⟩
  · intro i hi1 hi2
    rw [hL, hR]
    exact ⟨hframe _ i hi1 hi2, hframe _ i hi1 hi2⟩

/-- C12 on the sample header: with the unsupported rate 4 and `is_hdcp` set, a
status-1 content of 0x0A000000 keeps 0x0A in its sample-rate field and gets
the HDCP bit. -/
theorem sio_config_unsupported_rate_witness :
    (sampleHeader.SAMPLE_RATE_NO_SUPPORT ≤ 4
      ∧ [sampleHeader.ASP_HDMI_SIO_CH0_STATUS1_L, sampleHeader.ASP_HDMI_SIO_CH0_STATUS1_R,
          sampleHeader.ASP_HDMI_SIO_CH0_STATUS2_L, sampleHeader.ASP_HDMI_SIO_CH0_STATUS2_R].Nodup
      ∧ sampleHeader.HDMI_SIO_CHANNEL_TYPE_BIT < sampleHeader.HDMI_SIO_SAMPLE_RATE_BIT
      ∧ sampleHeader.HDMI_SIO_HDCP_BIT < sampleHeader.HDMI_SIO_SAMPLE_RATE_BIT
      ∧ sampleHeader.HDMI_SIO_HDCP_BIT < 32)
    ∧ ∃ s : State,
      asp_hdmi_SIO_config sampleHeader ⟨⟨1, 0, 0⟩, 4, true⟩ (sampleState 0x0A000000)
        = Outcome.ret ((), s)
      ∧ s.mem (0x10000 + sampleHeader.ASP_HDMI_SIO_CH0_STATUS1_L) >>> 24 = 0x0A
      ∧ s.mem (0x10000 + sampleHeader.ASP_HDMI_SIO_CH0_STATUS1_R) >>> 24 = 0x0A
      ∧ (s.mem (0x10000 + sampleHeader.ASP_HDMI_SIO_CH0_STATUS1_L)).testBit 2 = true
      ∧ (s.mem (0x10000 + sampleHeader.ASP_HDMI_SIO_CH0_STATUS1_R)).testBit 2 = true :=
  ⟨by decide,
   match sio_config_unsupported_rate sampleHeader samplePriv (fun _ => 0x0A000000) []
      ⟨⟨1, 0, 0⟩, 4, true⟩ (by decide) (by decide) (by decide) (by decide) (by decide) with
   | ⟨s, hrun, _, _, hL, hR, hb, _⟩ => ⟨s, hrun, hL, hR, (hb rfl).1, (hb rfl).2⟩⟩

/-- C13: on an attached context whose four channel-status registers have
pairwise different offsets, for every register state and every supported
sample rate, the call writes, after the two channel-type writes, one value
`c` = (old STATUS1_L with the channel-type bit set) OR (the table code shifted
to `HDMI_SIO_SAMPLE_RATE_BIT`) to STATUS1_L and then to STATUS1_R; the table
row is one of (44, 0x00), (48, 0x02), (32, 0x03), (96, 0x0A) or a zero row;
afterwards both status-1 registers hold `c`, with the HDCP bit when `is_hdcp`
is set, so they are equal, and a different old content of STATUS1_R gives the
same two final values. -/
theorem sio_config_supported_rate (h : Header) (priv : asp_hdmi_dma_priv) (mem : Nat → Nat)
    (trace : List Event) (p : sio_config_parameters)
    (hrate : p.sample_rate < h.SAMPLE_RATE_NO_SUPPORT)
    (hreg : [h.ASP_HDMI_SIO_CH0_STATUS1_L, h.ASP_HDMI_SIO_CH0_STATUS1_R,
      h.ASP_HDMI_SIO_CH0_STATUS2_L, h.ASP_HDMI_SIO_CH0_STATUS2_R].Nodup) :
    ∃ s : State,
      asp_hdmi_SIO_config h p (State.mk (some priv) mem trace) = Outcome.ret ((), s)
      ∧ (∃ rest, writes s.trace = writes trace
          ++ [(u32 (mem (priv.asp_dma_reg_base_addr + h.ASP_HDMI_SIO_CH0_STATUS1_L)) ||| u32 (1 <<< h.HDMI_SIO_CHANNEL_TYPE_BIT),
                priv.asp_dma_reg_base_addr + h.ASP_HDMI_SIO_CH0_STATUS1_L),
              (u32 (mem (priv.asp_dma_reg_base_addr + h.ASP_HDMI_SIO_CH0_STATUS1_R)) ||| u32 (1 <<< h.HDMI_SIO_CHANNEL_TYPE_BIT),
                priv.asp_dma_reg_base_addr + h.ASP_HDMI_SIO_CH0_STATUS1_R),
              (u32 (mem (priv.asp_dma_reg_base_addr + h.ASP_HDMI_SIO_CH0_STATUS1_L)) ||| u32 (1 <<< h.HDMI_SIO_CHANNEL_TYPE_BIT)
                    ||| u32 ((asp_hdmi_sio_sample_rate h p.sample_rate).2
                          <<< h.HDMI_SIO_SAMPLE_RATE_BIT),
                priv.asp_dma_reg_base_addr + h.ASP_HDMI_SIO_CH0_STATUS1_L),
              (u32 (mem (priv.asp_dma_reg_base_addr + h.ASP_HDMI_SIO_CH0_STATUS1_L)) ||| u32 (1 <<< h.HDMI_SIO_CHANNEL_TYPE_BIT)
                    ||| u32 ((asp_hdmi_sio_sample_rate h p.sample_rate).2
                          <<< h.HDMI_SIO_SAMPLE_RATE_BIT),
                priv.asp_dma_reg_base_addr + h.ASP_HDMI_SIO_CH0_STATUS1_R)]
          ++ rest)
      ∧ asp_hdmi_sio_sample_rate h p.sample_rate
          ∈ [(44, 0x00), (48, 0x02), (32, 0x03), (96, 0x0A), (0, 0)]
      ∧ s.mem (priv.asp_dma_reg_base_addr + h.ASP_HDMI_SIO_CH0_STATUS1_L)
          = u32 (mem (priv.asp_dma_reg_base_addr + h.ASP_HDMI_SIO_CH0_STATUS1_L)) ||| u32 (1 <<< h.HDMI_SIO_CHANNEL_TYPE_BIT)
            ||| u32 ((asp_hdmi_sio_sample_rate h p.sample_rate).2
                  <<< h.HDMI_SIO_SAMPLE_RATE_BIT)
            ||| (if p.is_hdcp = true then u32 (1 <<< h.HDMI_SIO_HDCP_BIT) else 0)
      ∧ s.mem (priv.asp_dma_reg_base_addr + h.ASP_HDMI_SIO_CH0_STATUS1_R)
          = s.mem (priv.asp_dma_reg_base_addr + h.ASP_HDMI_SIO_CH0_STATUS1_L)
      ∧ (∀ x : Nat, ∃ t : State,
          asp_hdmi_SIO_config h p
              (State.mk (some priv) (Function.update mem (priv.asp_dma_reg_base_addr + h.ASP_HDMI_SIO_CH0_STATUS1_R) x) trace)
            = Outcome.ret ((), t)
          ∧ t.mem (priv.asp_dma_reg_base_addr + h.ASP_HDMI_SIO_CH0_STATUS1_L)
              = s.mem (priv.asp_dma_reg_base_addr + h.ASP_HDMI_SIO_CH0_STATUS1_L)
          ∧ t.mem (priv.asp_dma_reg_base_addr + h.ASP_HDMI_SIO_CH0_STATUS1_R)
              = s.mem (priv.asp_dma_reg_base_addr + h.ASP_HDMI_SIO_CH0_STATUS1_R)) := by
  have hne : priv.asp_dma_reg_base_addr + h.ASP_HDMI_SIO_CH0_STATUS1_L
      ≠ priv.asp_dma_reg_base_addr + h.ASP_HDMI_SIO_CH0_STATUS1_R := by
    intro e
    have := Nat.add_left_cancel e
    simp only [List.nodup_cons, List.mem_cons, List.mem_singleton, List.not_mem_nil,
      not_or, not_false_eq_true, List.nodup_nil, and_true] at hreg
    exact hreg.1.1 this
  obtain ⟨s, hrun, hL, hR⟩ := sio_config_status1 h priv mem trace p hreg
  obtain ⟨s', hrun', hw⟩ := sio_config_writes h priv mem trace p hreg
  have hs : s' = s := by
    rw [hrun] at hrun'
    injection hrun' with e
    exact (Prod.mk.inj e).2.symm
  rw [hs] at hw
  rw [if_pos hrate] at hL hR hw
  refine ⟨s, hrun, ?_, asp_hdmi_sio_sample_rate_rows h _, hL, ?_, ?_⟩
  · refine ⟨(if p.is_hdcp = true then
                [(s.mem (priv.asp_dma_reg_base_addr + h.ASP_HDMI_SIO_CH0_STATUS1_L), priv.asp_dma_reg_base_addr + h.ASP_HDMI_SIO_CH0_STATUS1_L),
                 (s.mem (priv.asp_dma_reg_base_addr + h.ASP_HDMI_SIO_CH0_STATUS1_R), priv.asp_dma_reg_base_addr + h.ASP_HDMI_SIO_CH0_STATUS1_R)]
              else [])
          ++ (if p.tx3_conf.bit_width < h.BIT_WIDTH_MAX then
                [(s.mem (priv.asp_dma_reg_base_addr + h.ASP_HDMI_SIO_CH0_STATUS2_L), priv.asp_dma_reg_base_addr + h.ASP_HDMI_SIO_CH0_STATUS2_L),
                 (s.mem (priv.asp_dma_reg_base_addr + h.ASP_HDMI_SIO_CH0_STATUS2_R), priv.asp_dma_reg_base_addr + h.ASP_HDMI_SIO_CH0_STATUS2_R)]
              else []), ?_⟩
    rw [hw]
    simp only [List.append_assoc, List.cons_append, List.nil_append]
  · rw [hR, hL]
  · intro x
    obtain ⟨t, htrun, htL, htR⟩ := sio_config_status1 h priv
      (Function.update mem (priv.asp_dma_reg_base_addr + h.ASP_HDMI_SIO_CH0_STATUS1_R) x) trace p hreg
    rw [if_pos hrate, Function.update_noteq hne] at htL htR
    exact ⟨t, htrun, by rw [htL, hL], by rw [htR, hR]⟩

/-- C13 on the sample header: at 96 kHz (index 3, code 0x0A) from an all-zero
window both status-1 registers end as 0x0A000002. -/
theorem sio_config_supported_rate_witness :
    (3 < sampleHeader.SAMPLE_RATE_NO_SUPPORT
      ∧ [sampleHeader.ASP_HDMI_SIO_CH0_STATUS1_L, sampleHeader.ASP_HDMI_SIO_CH0_STATUS1_R,
          sampleHeader.ASP_HDMI_SIO_CH0_STATUS2_L, sampleHeader.ASP_HDMI_SIO_CH0_STATUS2_R].Nodup)
    ∧ ∃ s : State,
      asp_hdmi_SIO_config sampleHeader ⟨⟨1, 0, 0⟩, 3, false⟩ (sampleState 0)
        = Outcome.ret ((), s)
      ∧ s.mem (0x10000 + sampleHeader.ASP_HDMI_SIO_CH0_STATUS1_L) = 0x0A000002
      ∧ s.mem (0x10000 + sampleHeader.ASP_HDMI_SIO_CH0_STATUS1_R)
          = s.mem (0x10000 + sampleHeader.ASP_HDMI_SIO_CH0_STATUS1_L) :=
  ⟨by decide,
   match sio_config_supported_rate sampleHeader samplePriv (fun _ => 0) []
      ⟨⟨1, 0, 0⟩, 3, false⟩ (by decide) (by decide) with
   | ⟨s, hrun, _, _, hL, hR, _⟩ => ⟨s, hrun, hL, hR⟩⟩

/-- C14 as stated fails for the right status-2 register. On the sample header,
with a supported bit width, STATUS2_L holding 0 and STATUS2_R holding 0x100
before the call, STATUS2_R holds 0x2 afterwards (the old STATUS2_L OR the
mask 0x2), not its own old content OR the mask, which is 0x102. -/
theorem sio_config_status2_right_counterexample :
    ∃ s : State,
      asp_hdmi_SIO_config sampleHeader ⟨⟨1, 0, 0⟩, 0, false⟩
          (State.mk (some samplePriv) (fun a => if a = 0x10040 then 0x100 else 0) [])
        = Outcome.ret ((), s)
      ∧ (0 : Nat) < sampleHeader.BIT_WIDTH_MAX
      ∧ 0x10000 + sampleHeader.ASP_HDMI_SIO_CH0_STATUS2_R = 0x10040
      ∧ s.mem (0x10000 + sampleHeader.ASP_HDMI_SIO_CH0_STATUS2_R) = 0x2
      ∧ u32 0x100 ||| u32 sampleHeader.HDMI_SIO_BITWIDTH_MASK = 0x102
      ∧ s.mem (0x10000 + sampleHeader.ASP_HDMI_SIO_CH0_STATUS2_R)
          ≠ u32 0x100 ||| u32 sampleHeader.HDMI_SIO_BITWIDTH_MASK :=
  match sio_config_status2 sampleHeader samplePriv (fun a => if a = 0x10040 then 0x100 else 0) []
      ⟨⟨1, 0, 0⟩, 0, false⟩ (by decide) with
  | ⟨s, hrun, _, hR⟩ =>
    have hv : s.mem (0x10000 + sampleHeader.ASP_HDMI_SIO_CH0_STATUS2_R) = 0x2 := hR
    ⟨s, hrun, by decide, rfl, hv, rfl, by rw [hv]; decide⟩

/-- C14, amended: on an attached context whose four channel-status registers
have pairwise different offsets, for every register state: when the referenced
bit width is below `BIT_WIDTH_MAX`, the call reads STATUS2_L once, ORs
`HDMI_SIO_BITWIDTH_MASK` into it and writes that one value to both status-2
registers, so STATUS2_L ends as its old content OR the mask and STATUS2_R ends
as the old content of STATUS2_L OR the mask, the same mask for every such bit
width; otherwise both status-2 registers keep their content. -/
theorem sio_config_bit_width (h : Header) (priv : asp_hdmi_dma_priv) (mem : Nat → Nat)
    (trace : List Event) (p : sio_config_parameters)
    (hreg : [h.ASP_HDMI_SIO_CH0_STATUS1_L, h.ASP_HDMI_SIO_CH0_STATUS1_R,
      h.ASP_HDMI_SIO_CH0_STATUS2_L, h.ASP_HDMI_SIO_CH0_STATUS2_R].Nodup) :
    ∃ s : State,
      asp_hdmi_SIO_config h p (State.mk (some priv) mem trace) = Outcome.ret ((), s)
      ∧ (p.tx3_conf.bit_width < h.BIT_WIDTH_MAX →
          s.mem (priv.asp_dma_reg_base_addr + h.ASP_HDMI_SIO_CH0_STATUS2_L)
              = u32 (mem (priv.asp_dma_reg_base_addr + h.ASP_HDMI_SIO_CH0_STATUS2_L)) ||| u32 h.HDMI_SIO_BITWIDTH_MASK
          ∧ s.mem (priv.asp_dma_reg_base_addr + h.ASP_HDMI_SIO_CH0_STATUS2_R)
              = u32 (mem (priv.asp_dma_reg_base_addr + h.ASP_HDMI_SIO_CH0_STATUS2_L)) ||| u32 h.HDMI_SIO_BITWIDTH_MASK)
      ∧ (h.BIT_WIDTH_MAX ≤ p.tx3_conf.bit_width →
          s.mem (priv.asp_dma_reg_base_addr + h.ASP_HDMI_SIO_CH0_STATUS2_L) = mem (priv.asp_dma_reg_base_addr + h.ASP_HDMI_SIO_CH0_STATUS2_L)
          ∧ s.mem (priv.asp_dma_reg_base_addr + h.ASP_HDMI_SIO_CH0_STATUS2_R) = mem (priv.asp_dma_reg_base_addr + h.ASP_HDMI_SIO_CH0_STATUS2_R)) := by
  obtain ⟨s, hrun, hL, hR⟩ := sio_config_status2 h priv mem trace p hreg
  refine ⟨s, hrun, ?_, ?_⟩
  · intro hb
    rw [if_pos hb] at hL hR
    exact ⟨hL, hR⟩
  · intro hb
    have hn : ¬ p.tx3_conf.bit_width < h.BIT_WIDTH_MAX := by omega
    rw [if_neg hn] at hL hR
    exact ⟨hL, hR⟩

/-- C14, amended, on the sample header: with the supported bit width 8 and a
window that reads 0x100 everywhere, both status-2 registers end as 0x102. -/
theorem sio_config_bit_width_witness :
    [sampleHeader.ASP_HDMI_SIO_CH0_STATUS1_L, sampleHeader.ASP_HDMI_SIO_CH0_STATUS1_R,
          sampleHeader.ASP_HDMI_SIO_CH0_STATUS2_L, sampleHeader.ASP_HDMI_SIO_CH0_STATUS2_R].Nodup
    ∧ ∃ s : State,
      asp_hdmi_SIO_config sampleHeader ⟨⟨1, 8, 0⟩, 0, false⟩ (sampleState 0x100)
        = Outcome.ret ((), s)
      ∧ s.mem (0x10000 + sampleHeader.ASP_HDMI_SIO_CH0_STATUS2_L) = 0x102
      ∧ s.mem (0x10000 + sampleHeader.ASP_HDMI_SIO_CH0_STATUS2_R) = 0x102 :=
  ⟨by decide,
   match sio_config_bit_width sampleHeader samplePriv (fun _ => 0x100) []
      ⟨⟨1, 8, 0⟩, 0, false⟩ (by decide) with
   | ⟨s, hrun, hin, _⟩ => ⟨s, hrun, (hin (by decide)).1, (hin (by decide)).2⟩⟩

/-- C15: on an attached context whose four channel-status registers have
pairwise different offsets and whose channel-type bit is a bit of the
register, for every register state and every parameter value the
channel-type bit is 1 in STATUS1_L and in STATUS1_R when the call returns. -/
theorem sio_config_channel_type (h : Header) (priv : asp_hdmi_dma_priv) (mem : Nat → Nat)
    (trace : List Event) (p : sio_config_parameters)
    (hreg : [h.ASP_HDMI_SIO_CH0_STATUS1_L, h.ASP_HDMI_SIO_CH0_STATUS1_R,
      h.ASP_HDMI_SIO_CH0_STATUS2_L, h.ASP_HDMI_SIO_CH0_STATUS2_R].Nodup)
    (hct32 : h.HDMI_SIO_CHANNEL_TYPE_BIT < 32) :
    ∃ s : State,
      asp_hdmi_SIO_config h p (State.mk (some priv) mem trace) = Outcome.ret ((), s)
      ∧ (s.mem (priv.asp_dma_reg_base_addr + h.ASP_HDMI_SIO_CH0_STATUS1_L)).testBit h.HDMI_SIO_CHANNEL_TYPE_BIT = true
      ∧ (s.mem (priv.asp_dma_reg_base_addr + h.ASP_HDMI_SIO_CH0_STATUS1_R)).testBit h.HDMI_SIO_CHANNEL_TYPE_BIT = true := by
  obtain ⟨s, hrun, hL, hR⟩ := sio_config_status1 h priv mem trace p hreg
  have hbit : (u32 (1 <<< h.HDMI_SIO_CHANNEL_TYPE_BIT)).testBit h.HDMI_SIO_CHANNEL_TYPE_BIT
      = true := by
    rw [testBit_one_shiftLeft32]
    simp [hct32]
  refine ⟨s, hrun, ?_, ?_⟩
  · rw [hL]
    split_ifs <;> simp [Nat.testBit_or, hbit]
  · rw [hR]
    split_ifs <;> simp [Nat.testBit_or, hbit]

/-- C15 on the sample header: from an all-zero window, with an unsupported
rate, no HDCP and an unsupported bit width, bit 1 is set in both status-1
registers. -/
theorem sio_config_channel_type_witness :
    ([sampleHeader.ASP_HDMI_SIO_CH0_STATUS1_L, sampleHeader.ASP_HDMI_SIO_CH0_STATUS1_R,
          sampleHeader.ASP_HDMI_SIO_CH0_STATUS2_L, sampleHeader.ASP_HDMI_SIO_CH0_STATUS2_R].Nodup
      ∧ sampleHeader.HDMI_SIO_CHANNEL_TYPE_BIT < 32)
    ∧ ∃ s : State,
      asp_hdmi_SIO_config sampleHeader ⟨⟨1, 9, 0⟩, 7, false⟩ (sampleState 0)
        = Outcome.ret ((), s)
      ∧ (s.mem (0x10000 + sampleHeader.ASP_HDMI_SIO_CH0_STATUS1_L)).testBit 1 = true
      ∧ (s.mem (0x10000 + sampleHeader.ASP_HDMI_SIO_CH0_STATUS1_R)).testBit 1 = true :=
  ⟨by decide,
   sio_config_channel_type sampleHeader samplePriv (fun _ => 0) []
      ⟨⟨1, 9, 0⟩, 7, false⟩ (by decide) (by decide)⟩

/-! ## Detach -/

/-- C21: the remove call always returns 0. When the platform device carries no
driver context it leaves the driver state, the singleton included, exactly as
it was. When the device carries a context it sets the singleton to null and
changes nothing else, and in the state it leaves every public operation ends
in `BUG()`. -/
theorem remove_clears_singleton (h : Header) (pdev : platform_device) (s : State)
    (tx3 : tx3_config_parameters) (sio : sio_config_parameters) (addr size value : Nat) :
    (asp_hdmi_dma_remove pdev s).1 = 0
      ∧ (pdev.drvdata = none → (asp_hdmi_dma_remove pdev s).2 = s)
      ∧ (pdev.drvdata ≠ none →
          (asp_hdmi_dma_remove pdev s).2 = State.mk none s.mem s.trace
          ∧ asp_hdmi_dma_enable h (asp_hdmi_dma_remove pdev s).2 = Outcome.bug (State.mk none s.mem s.trace)
          ∧ asp_hdmi_reg_read_irsr h (asp_hdmi_dma_remove pdev s).2 = Outcome.bug (State.mk none s.mem s.trace)
          ∧ asp_hdmi_tx3_config h tx3 (asp_hdmi_dma_remove pdev s).2 = Outcome.bug (State.mk none s.mem s.trace)
          ∧ asp_hdmi_tx3_enable h (asp_hdmi_dma_remove pdev s).2 = Outcome.bug (State.mk none s.mem s.trace)
          ∧ asp_hdmi_tx3_disable h (asp_hdmi_dma_remove pdev s).2 = Outcome.bug (State.mk none s.mem s.trace)
          ∧ asp_hdmi_SIO_config h sio (asp_hdmi_dma_remove pdev s).2 = Outcome.bug (State.mk none s.mem s.trace)
          ∧ asp_hdmi_dma_is_stop h (asp_hdmi_dma_remove pdev s).2 = Outcome.bug (State.mk none s.mem s.trace)
          ∧ asp_hdmi_dma_config h addr size (asp_hdmi_dma_remove pdev s).2
              = Outcome.bug (State.mk none s.mem s.trace)
          ∧ asp_hdmi_dma_clear_interrupt h value (asp_hdmi_dma_remove pdev s).2
              = Outcome.bug (State.mk none s.mem s.trace)
          ∧ asp_hdmi_dma_start h (asp_hdmi_dma_remove pdev s).2 = Outcome.bug (State.mk none s.mem s.trace)
          ∧ asp_hdmi_dma_stop h (asp_hdmi_dma_remove pdev s).2 = Outcome.bug (State.mk none s.mem s.trace)) := by
  cases hd : pdev.drvdata with
  | none =>
    refine ⟨?_, ?_, ?_⟩
    · simp [asp_hdmi_dma_remove, hd]
    · intro _
      simp [asp_hdmi_dma_remove, hd]
    · intro hne
      exact absurd rfl hne
  | some priv =>
    have hr : asp_hdmi_dma_remove pdev s = (0, State.mk none s.mem s.trace) := by
      simp [asp_hdmi_dma_remove, hd]
    refine ⟨?_, ?_, ?_⟩
    · rw [hr]
    · intro hn
      exact absurd hn (by simp)
    · intro _
      rw [hr]
      exact ⟨rfl, rfl, rfl, rfl, rfl, rfl, rfl, rfl, rfl, rfl, rfl, rfl⟩

/-- C21 after a successful attach: removing the device that carries the sample
context turns an attached state into one with a null singleton, and the start
call is fatal there. -/
theorem remove_clears_singleton_witness :
    (⟨1, some (0xE804E000, 0x400), some samplePriv⟩ : platform_device).drvdata ≠ none
    ∧ asp_hdmi_dma_remove ⟨1, some (0xE804E000, 0x400), some samplePriv⟩ (sampleState 0)
        = (0, State.mk none (fun _ => 0) [])
    ∧ asp_hdmi_dma_start sampleHeader
          (asp_hdmi_dma_remove ⟨1, some (0xE804E000, 0x400), some samplePriv⟩ (sampleState 0)).2
        = Outcome.bug (State.mk none (fun _ => 0) []) :=
  have hw := (remove_clears_singleton sampleHeader
    ⟨1, some (0xE804E000, 0x400), some samplePriv⟩ (sampleState 0)
    ⟨1, 0, 0⟩ ⟨⟨1, 0, 0⟩, 0, false⟩ 0 0 0).2.2 (by decide)
  ⟨by decide, rfl, hw.2.2.2.2.2.2.2.2.2.2.1⟩

/-! ## Table bounds -/

/-- C23: for a header whose table definitions compile (every designated index
below the row count) and in which an index below `SAMPLE_RATE_NO_SUPPORT` is a
supported sample rate: whenever the transform gets past its three guards to
the table reads, which is when it returns 0, its three indices are below the
row counts `BIT_WIDTH_MAX`, `CHANNEL_NUM_MAX` and `ALIGN_MAX`; whenever the
sample-rate guard of the SIO configuration lets the table read happen, the
index is below the row count `SAMPLE_RATE_MAX`; and when that guard fails the
outcome of the SIO configuration is the same for every other failing sample
rate, the table not being consulted. -/
theorem table_reads_in_bounds (h : Header) (priv : asp_hdmi_dma_priv) (mem : Nat → Nat)
    (trace : List Event) (p : tx3_config_parameters) (q : sio_config_parameters)
    (rv v : Nat) (s : State)
    (hfit : h.initialisers_fit) (henum : h.supported_rates_enumerated) :
    (asp_hdmi_transform_to_tx3_reg_value h p rv (State.mk (some priv) mem trace)
          = Outcome.ret (((0 : Int), v), s) →
        p.bit_width < h.BIT_WIDTH_MAX ∧ p.channel_num < h.CHANNEL_NUM_MAX
          ∧ p.align_type < h.ALIGN_MAX)
      ∧ (q.sample_rate < h.SAMPLE_RATE_NO_SUPPORT → q.sample_rate < h.SAMPLE_RATE_MAX)
      ∧ (∀ r, h.SAMPLE_RATE_NO_SUPPORT ≤ q.sample_rate → h.SAMPLE_RATE_NO_SUPPORT ≤ r →
          asp_hdmi_SIO_config h ⟨q.tx3_conf, r, q.is_hdcp⟩ (State.mk (some priv) mem trace)
            = asp_hdmi_SIO_config h q (State.mk (some priv) mem trace)) := by
  obtain ⟨hch, hbw, hal, hsr⟩ := hfit
  refine ⟨?_, ?_, ?_⟩
  · intro hrun
    have hs : supported h p := by
      by_contra hs
      rw [transform_eq, if_neg hs] at hrun
      simp at hrun
    obtain ⟨h1, h2, h3, _⟩ := hs
    have hbpos : 0 < h.BIT_WIDTH_MAX :=
      lt_of_le_of_lt (Nat.zero_le _) (hbw h.BIT_WIDTH_16 (by simp))
    have hcpos : 0 < h.CHANNEL_NUM_MAX :=
      lt_of_le_of_lt (Nat.zero_le _) (hch h.CHANNEL_NUM_1 (by simp))
    refine ⟨by omega, by omega, ?_⟩
    rcases h3 with e | e
    · rw [e]
      exact hal _ (by simp)
    · rw [e]
      exact hal _ (by simp)
  · intro hq
    exact hsr _ (henum _ hq)
  · intro r hq hr
    have n1 : ¬ q.sample_rate < h.SAMPLE_RATE_NO_SUPPORT := by omega
    have n2 : ¬ r < h.SAMPLE_RATE_NO_SUPPORT := by omega
    unfold asp_hdmi_SIO_config
    simp only [n1, n2, if_false]

/-- C23 on the sample header: 24-bit 8-channel audio with 32-bit alignment is
accepted with indices 8 < 9, 4 < 5 and 1 < 2, and the supported rate index 3
is below the row count 5. -/
theorem table_reads_in_bounds_witness :
    (sampleHeader.initialisers_fit ∧ sampleHeader.supported_rates_enumerated)
    ∧ asp_hdmi_transform_to_tx3_reg_value sampleHeader ⟨4, 8, 1⟩ 0 (sampleState 0)
        = Outcome.ret (((0 : Int), 0x20741), sampleState 0)
    ∧ ((8 : Nat) < sampleHeader.BIT_WIDTH_MAX ∧ (4 : Nat) < sampleHeader.CHANNEL_NUM_MAX
        ∧ (1 : Nat) < sampleHeader.ALIGN_MAX)
    ∧ (3 : Nat) < sampleHeader.SAMPLE_RATE_MAX :=
  have hw := table_reads_in_bounds sampleHeader samplePriv (fun _ => 0) [] ⟨4, 8, 1⟩
    ⟨⟨4, 8, 1⟩, 3, false⟩ 0 0x20741 (sampleState 0) (by decide) (by decide)
  ⟨by decide, rfl, hw.1 rfl, hw.2.1 (by decide)⟩

/-! ## The second DMA buffer -/

/-- C24: on an attached context whose seven DMA-configuration registers have
pairwise different offsets, for every register state and every 32-bit
(addr, size) that satisfies both masks the DMA configuration returns 0,
whether or not addr + size fits in 32 bits, with A_ADDR = addr, A_LEN = size
and B_ADDR = (addr + size) mod 2^32. When addr + size is 2^32 or more, B_ADDR
is below addr and is not the end A_ADDR + A_LEN of buffer A; when addr + size
is below 2^32, B_ADDR is exactly that end. -/
theorem dma_config_second_half (h : Header) (priv : asp_hdmi_dma_priv) (mem : Nat → Nat)
    (trace : List Event) (addr size : Nat)
    (haddr : addr < 2 ^ 32) (hsize : size < 2 ^ 32)
    (ha : addr &&& h.HDMI_DMA_ADD_VALID_MASK = 0)
    (hs : size &&& h.HDMI_DMA_ADDLEN_VALID_MASK = 0)
    (hreg : [h.ASP_HDMI_I2S_CLR, h.ASP_HDMI_SPDIF_SEL, h.ASP_HDMI_A_ADDR, h.ASP_HDMI_A_LEN,
      h.ASP_HDMI_B_ADDR, h.ASP_HDMI_B_LEN, h.ASP_HDMI_INT_CLR].Nodup) :
    ∃ s : State,
      asp_hdmi_dma_config h addr size (State.mk (some priv) mem trace) = Outcome.ret (0, s)
      ∧ s.mem (priv.asp_dma_reg_base_addr + h.ASP_HDMI_A_ADDR) = addr
      ∧ s.mem (priv.asp_dma_reg_base_addr + h.ASP_HDMI_A_LEN) = size
      ∧ s.mem (priv.asp_dma_reg_base_addr + h.ASP_HDMI_B_ADDR) = (addr + size) % 2 ^ 32
      ∧ (2 ^ 32 ≤ addr + size →
          s.mem (priv.asp_dma_reg_base_addr + h.ASP_HDMI_B_ADDR) < addr
          ∧ s.mem (priv.asp_dma_reg_base_addr + h.ASP_HDMI_B_ADDR)
              ≠ s.mem (priv.asp_dma_reg_base_addr + h.ASP_HDMI_A_ADDR)
                + s.mem (priv.asp_dma_reg_base_addr + h.ASP_HDMI_A_LEN))
      ∧ (addr + size < 2 ^ 32 →
          s.mem (priv.asp_dma_reg_base_addr + h.ASP_HDMI_B_ADDR)
            = s.mem (priv.asp_dma_reg_base_addr + h.ASP_HDMI_A_ADDR)
              + s.mem (priv.asp_dma_reg_base_addr + h.ASP_HDMI_A_LEN)) := by
  obtain ⟨s, hrun, -, hmem⟩ := dma_config_eq h priv mem trace addr size ha hs
  simp only [List.nodup_cons, List.mem_cons, List.mem_singleton, List.not_mem_nil,
    not_or, not_false_eq_true, List.nodup_nil, and_true] at hreg
  obtain ⟨-, -, ⟨h34, h35, h36, h37⟩, ⟨h45, h46, h47⟩, ⟨h56, h57⟩, -⟩ := hreg
  have hA : s.mem (priv.asp_dma_reg_base_addr + h.ASP_HDMI_A_ADDR) = addr := by
    rw [hmem]
    simp [Function.update_apply, u32_of_lt haddr, h34, h35, h36, h37]
  have hL : s.mem (priv.asp_dma_reg_base_addr + h.ASP_HDMI_A_LEN) = size := by
    rw [hmem]
    simp [Function.update_apply, u32_of_lt hsize, h45, h46, h47]
  have hB : s.mem (priv.asp_dma_reg_base_addr + h.ASP_HDMI_B_ADDR) = (addr + size) % 2 ^ 32 := by
    rw [hmem]
    simp [Function.update_apply, u32, h56, h57, Ne.symm h56, Ne.symm h57]
  refine ⟨s, hrun, hA, hL, hB, ?_, ?_⟩
  · intro hov
    rw [hA, hL, hB]
    have hlt : (addr + size) % 2 ^ 32 < 2 ^ 32 := Nat.mod_lt _ (by decide)
    have hsub : (addr + size) % 2 ^ 32 = addr + size - 2 ^ 32 := by
      rw [Nat.mod_eq_sub_mod hov]
      exact Nat.mod_eq_of_lt (by omega)
    constructor <;> omega
  · intro hno
    rw [hA, hL, hB, Nat.mod_eq_of_lt hno]

/-- C24 on the sample header: `dma_config(0xFFFFF000, 0x2000)` is accepted and
puts buffer B at 0x1000, below buffer A at 0xFFFFF000. -/
theorem dma_config_second_half_witness :
    ((0xFFFFF000 : Nat) < 2 ^ 32 ∧ (0x2000 : Nat) < 2 ^ 32
      ∧ 0xFFFFF000 &&& sampleHeader.HDMI_DMA_ADD_VALID_MASK = 0
      ∧ 0x2000 &&& sampleHeader.HDMI_DMA_ADDLEN_VALID_MASK = 0
      ∧ (2 : Nat) ^ 32 ≤ 0xFFFFF000 + 0x2000)
    ∧ ∃ s : State,
      asp_hdmi_dma_config sampleHeader 0xFFFFF000 0x2000 (sampleState 0) = Outcome.ret (0, s)
      ∧ s.mem (0x10000 + sampleHeader.ASP_HDMI_A_ADDR) = 0xFFFFF000
      ∧ s.mem (0x10000 + sampleHeader.ASP_HDMI_A_LEN) = 0x2000
      ∧ s.mem (0x10000 + sampleHeader.ASP_HDMI_B_ADDR) = 0x1000
      ∧ s.mem (0x10000 + sampleHeader.ASP_HDMI_B_ADDR) < 0xFFFFF000 :=
  ⟨by decide,
   match dma_config_second_half sampleHeader samplePriv (fun _ => 0) [] 0xFFFFF000 0x2000
      (by decide) (by decide) (by decide) (by decide) (by decide) with
   | ⟨s, hrun, hA, hL, hB, hov, _⟩ => ⟨s, hrun, hA, hL, hB, (hov (by decide)).1⟩⟩

/-! ## The SIO configuration only sets bits -/

/-- The SIO configuration leaves the device context attached. -/
theorem sio_config_attached (h : Header) (priv : asp_hdmi_dma_priv) (mem : Nat → Nat)
    (trace : List Event) (p : sio_config_parameters) :
    ∃ s : State,
      asp_hdmi_SIO_config h p (State.mk (some priv) mem trace) = Outcome.ret ((), s)
      ∧ s.asp_hdmi_dma_priv = some priv := by
  unfold asp_hdmi_SIO_config
  dsimp only
  by_cases h1 : p.sample_rate < h.SAMPLE_RATE_NO_SUPPORT <;>
  cases h2 : p.is_hdcp <;>
  by_cases h3 : p.tx3_conf.bit_width < h.BIT_WIDTH_MAX <;>
  simp only [h1, h3, if_true, if_false, Bool.false_eq_true, reg_set_bit_eq, reg_read_eq,
    reg_write_eq, Outcome.bind] <;>
  exact ⟨_, rfl, rfl⟩

/-- Every code of the sample-rate table fits in four bits. -/
theorem asp_hdmi_sio_sample_rate_code_lt (h : Header) (i : Nat) :
    (asp_hdmi_sio_sample_rate h i).2 < 16 := by
  have hrow := asp_hdmi_sio_sample_rate_rows h i
  simp only [List.mem_cons, List.mem_singleton, List.not_mem_nil, or_false] at hrow
  rcases hrow with e | e | e | e | e <;> rw [e] <;> decide

/-- OR-ing a four-bit code in at position `n` ORs it into the bits from `n` up. -/
theorem or_code_shiftRight (x c n : Nat) (hc : c < 16) (hn : n + 4 ≤ 32) :
    (x ||| u32 (c <<< n)) >>> n = (x >>> n) ||| c := by
  apply Nat.eq_of_testBit_eq
  intro i
  simp only [Nat.testBit_shiftRight, Nat.testBit_or, u32, Nat.testBit_mod_two_pow,
    Nat.testBit_shiftLeft]
  have hsub : n + i - n = i := by omega
  rw [hsub]
  by_cases hi : i < 4
  · have h32 : n + i < 32 := by omega
    simp [h32]
  · have hpow : (2 : Nat) ^ 4 ≤ 2 ^ i := Nat.pow_le_pow_right (by decide) (by omega)
    have hbit : c.testBit i = false :=
      Nat.testBit_lt_two_pow (lt_of_lt_of_le hc hpow)
    simp [hbit]

/-- The bits of STATUS1_L from `HDMI_SIO_SAMPLE_RATE_BIT` up after one SIO
configuration with a supported rate, when both flag bits lie below them. -/
theorem sio_config_field (h : Header) (priv : asp_hdmi_dma_priv) (mem : Nat → Nat)
    (trace : List Event) (p : sio_config_parameters)
    (hreg : [h.ASP_HDMI_SIO_CH0_STATUS1_L, h.ASP_HDMI_SIO_CH0_STATUS1_R,
      h.ASP_HDMI_SIO_CH0_STATUS2_L, h.ASP_HDMI_SIO_CH0_STATUS2_R].Nodup)
    (hrate : p.sample_rate < h.SAMPLE_RATE_NO_SUPPORT)
    (hct : h.HDMI_SIO_CHANNEL_TYPE_BIT < h.HDMI_SIO_SAMPLE_RATE_BIT)
    (hhdcp : h.HDMI_SIO_HDCP_BIT < h.HDMI_SIO_SAMPLE_RATE_BIT)
    (hsr : h.HDMI_SIO_SAMPLE_RATE_BIT + 4 ≤ 32) :
    ∃ s : State,
      asp_hdmi_SIO_config h p (State.mk (some priv) mem trace) = Outcome.ret ((), s)
      ∧ s.asp_hdmi_dma_priv = some priv
      ∧ u32 (s.mem (priv.asp_dma_reg_base_addr + h.ASP_HDMI_SIO_CH0_STATUS1_L))
          = s.mem (priv.asp_dma_reg_base_addr + h.ASP_HDMI_SIO_CH0_STATUS1_L)
      ∧ s.mem (priv.asp_dma_reg_base_addr + h.ASP_HDMI_SIO_CH0_STATUS1_L)
            >>> h.HDMI_SIO_SAMPLE_RATE_BIT
          = (u32 (mem (priv.asp_dma_reg_base_addr + h.ASP_HDMI_SIO_CH0_STATUS1_L))
              >>> h.HDMI_SIO_SAMPLE_RATE_BIT)
            ||| (asp_hdmi_sio_sample_rate h p.sample_rate).2 := by
  obtain ⟨s, hrun, hL, -⟩ := sio_config_status1 h priv mem trace p hreg
  obtain ⟨s', hrun', hpriv⟩ := sio_config_attached h priv mem trace p
  have hs : s' = s := by
    rw [hrun] at hrun'
    injection hrun' with e
    exact (Prod.mk.inj e).2.symm
  rw [hs] at hpriv
  rw [if_pos hrate] at hL
  refine ⟨s, hrun, hpriv, ?_, ?_⟩
  · rw [hL]
    cases p.is_hdcp <;>
    simp only [Bool.false_eq_true, if_false, if_true, Nat.or_zero, u32_or_distrib, u32_u32]
  · rw [hL]
    have hcode := asp_hdmi_sio_sample_rate_code_lt h p.sample_rate
    cases p.is_hdcp
    · simp only [Bool.false_eq_true, if_false, Nat.or_zero]
      rw [or_code_shiftRight _ _ _ hcode hsr, or_bit_shiftRight _ _ _ hct]
    · simp only [if_true]
      rw [or_bit_shiftRight _ _ _ hhdcp, or_code_shiftRight _ _ _ hcode hsr,
        or_bit_shiftRight _ _ _ hct]

/-- C25: on an attached context whose four channel-status registers have
pairwise different offsets, for every register state and every parameter
value the SIO configuration returns, and every bit that is 1 in the 32-bit
content of STATUS1_L (resp. STATUS2_L) before the call is 1 after it. For two
supported rates configured one after the other, with both flag bits below
`HDMI_SIO_SAMPLE_RATE_BIT` and four bits of room above it, the second call
returns too and the bits of STATUS1_L from `HDMI_SIO_SAMPLE_RATE_BIT` up hold
(their old content) OR code(a) OR code(b): code(a) OR code(b) when they were
zero. They equal code(b) only when every bit of code(a) is a bit of code(b),
and from a zero field exactly then. -/
theorem sio_config_only_sets_bits (h : Header) (priv : asp_hdmi_dma_priv) (mem : Nat → Nat)
    (trace : List Event) (p : sio_config_parameters)
    (hreg : [h.ASP_HDMI_SIO_CH0_STATUS1_L, h.ASP_HDMI_SIO_CH0_STATUS1_R,
      h.ASP_HDMI_SIO_CH0_STATUS2_L, h.ASP_HDMI_SIO_CH0_STATUS2_R].Nodup) :
    ∃ s : State,
      asp_hdmi_SIO_config h p (State.mk (some priv) mem trace) = Outcome.ret ((), s)
      ∧ (∀ i : Nat,
          (u32 (mem (priv.asp_dma_reg_base_addr + h.ASP_HDMI_SIO_CH0_STATUS1_L))).testBit i = true →
          (s.mem (priv.asp_dma_reg_base_addr + h.ASP_HDMI_SIO_CH0_STATUS1_L)).testBit i = true)
      ∧ (∀ i : Nat,
          (u32 (mem (priv.asp_dma_reg_base_addr + h.ASP_HDMI_SIO_CH0_STATUS2_L))).testBit i = true →
          (s.mem (priv.asp_dma_reg_base_addr + h.ASP_HDMI_SIO_CH0_STATUS2_L)).testBit i = true)
      ∧ (∀ q : sio_config_parameters,
          p.sample_rate < h.SAMPLE_RATE_NO_SUPPORT →
          q.sample_rate < h.SAMPLE_RATE_NO_SUPPORT →
          h.HDMI_SIO_CHANNEL_TYPE_BIT < h.HDMI_SIO_SAMPLE_RATE_BIT →
          h.HDMI_SIO_HDCP_BIT < h.HDMI_SIO_SAMPLE_RATE_BIT →
          h.HDMI_SIO_SAMPLE_RATE_BIT + 4 ≤ 32 →
          ∃ s2 : State,
            asp_hdmi_SIO_config h q s = Outcome.ret ((), s2)
            ∧ s2.mem (priv.asp_dma_reg_base_addr + h.ASP_HDMI_SIO_CH0_STATUS1_L)
                  >>> h.HDMI_SIO_SAMPLE_RATE_BIT
                = (u32 (mem (priv.asp_dma_reg_base_addr + h.ASP_HDMI_SIO_CH0_STATUS1_L))
                    >>> h.HDMI_SIO_SAMPLE_RATE_BIT)
                  ||| (asp_hdmi_sio_sample_rate h p.sample_rate).2
                  ||| (asp_hdmi_sio_sample_rate h q.sample_rate).2
            ∧ (u32 (mem (priv.asp_dma_reg_base_addr + h.ASP_HDMI_SIO_CH0_STATUS1_L))
                  >>> h.HDMI_SIO_SAMPLE_RATE_BIT = 0 →
                s2.mem (priv.asp_dma_reg_base_addr + h.ASP_HDMI_SIO_CH0_STATUS1_L)
                    >>> h.HDMI_SIO_SAMPLE_RATE_BIT
                  = (asp_hdmi_sio_sample_rate h p.sample_rate).2
                    ||| (asp_hdmi_sio_sample_rate h q.sample_rate).2)
            ∧ (s2.mem (priv.asp_dma_reg_base_addr + h.ASP_HDMI_SIO_CH0_STATUS1_L)
                    >>> h.HDMI_SIO_SAMPLE_RATE_BIT
                  = (asp_hdmi_sio_sample_rate h q.sample_rate).2 →
                ∀ i : Nat, (asp_hdmi_sio_sample_rate h p.sample_rate).2.testBit i = true →
                  (asp_hdmi_sio_sample_rate h q.sample_rate).2.testBit i = true)
            ∧ (u32 (mem (priv.asp_dma_reg_base_addr + h.ASP_HDMI_SIO_CH0_STATUS1_L))
                  >>> h.HDMI_SIO_SAMPLE_RATE_BIT = 0 →
                (∀ i : Nat, (asp_hdmi_sio_sample_rate h p.sample_rate).2.testBit i = true →
                  (asp_hdmi_sio_sample_rate h q.sample_rate).2.testBit i = true) →
                s2.mem (priv.asp_dma_reg_base_addr + h.ASP_HDMI_SIO_CH0_STATUS1_L)
                    >>> h.HDMI_SIO_SAMPLE_RATE_BIT
                  = (asp_hdmi_sio_sample_rate h q.sample_rate).2)) := by
  obtain ⟨s, hrun, hL, -⟩ := sio_config_status1 h priv mem trace p hreg
  obtain ⟨s', hrun', hL2, -⟩ := sio_config_status2 h priv mem trace p hreg
  have hs : s' = s := by
    rw [hrun] at hrun'
    injection hrun' with e
    exact (Prod.mk.inj e).2.symm
  rw [hs] at hL2
  refine ⟨s, hrun, ?_, ?_, ?_⟩
  · intro i hi
    rw [hL]
    split_ifs <;> simp [Nat.testBit_or, hi]
  · intro i hi
    rw [hL2]
    split_ifs
    · simp [Nat.testBit_or, hi]
    · simp only [u32, Nat.testBit_mod_two_pow, Bool.and_eq_true] at hi
      exact hi.2
  · intro q hp hq hct hhdcp hsr
    obtain ⟨s1, hrun1, hpriv1, hu1, hf1⟩ :=
      sio_config_field h priv mem trace p hreg hp hct hhdcp hsr
    have hs1 : s1 = s := by
      rw [hrun] at hrun1
      injection hrun1 with e
      exact (Prod.mk.inj e).2.symm
    rw [hs1] at hpriv1 hu1 hf1
    obtain ⟨spriv, smem, strace⟩ := s
    simp only at hpriv1 hu1 hf1
    subst hpriv1
    obtain ⟨s2, hrun2, -, -, hf2⟩ :=
      sio_config_field h priv smem strace q hreg hq hct hhdcp hsr
    rw [hu1, hf1] at hf2
    refine ⟨s2, hrun2, hf2, ?_, ?_, ?_⟩
    · intro h0
      rw [hf2, h0, Nat.zero_or]
    · intro he i hi
      have hbit := congrArg (fun x => x.testBit i) he
      simp only [hf2, Nat.testBit_or, hi, Bool.or_true, Bool.true_or] at hbit
      exact hbit.symm
    · intro h0 hsub
      rw [hf2, h0, Nat.zero_or]
      apply Nat.eq_of_testBit_eq
      intro i
      rw [Nat.testBit_or]
      cases hc : (asp_hdmi_sio_sample_rate h p.sample_rate).2.testBit i
      · simp
      · simp [hsub i hc]

/-- C25 on the sample header: from an all-zero window, configuring 96 kHz
(index 3, code 0x0A) and then 44 kHz (index 0, code 0x00) leaves 0x0A in the
bits of STATUS1_L from bit 24 up. -/
theorem sio_config_only_sets_bits_witness :
    [sampleHeader.ASP_HDMI_SIO_CH0_STATUS1_L, sampleHeader.ASP_HDMI_SIO_CH0_STATUS1_R,
        sampleHeader.ASP_HDMI_SIO_CH0_STATUS2_L, sampleHeader.ASP_HDMI_SIO_CH0_STATUS2_R].Nodup
    ∧ ∃ s s2 : State,
      asp_hdmi_SIO_config sampleHeader ⟨⟨1, 0, 0⟩, 3, false⟩ (sampleState 0)
        = Outcome.ret ((), s)
      ∧ asp_hdmi_SIO_config sampleHeader ⟨⟨1, 0, 0⟩, 0, false⟩ s = Outcome.ret ((), s2)
      ∧ (asp_hdmi_sio_sample_rate sampleHeader 3).2 = 0x0A
      ∧ (asp_hdmi_sio_sample_rate sampleHeader 0).2 = 0x00
      ∧ s2.mem (0x10000 + sampleHeader.ASP_HDMI_SIO_CH0_STATUS1_L) >>> 24 = 0x0A :=
  ⟨by decide,
   match sio_config_only_sets_bits sampleHeader samplePriv (fun _ => 0) []
      ⟨⟨1, 0, 0⟩, 3, false⟩ (by decide) with
   | ⟨s, hrun, _, _, htwo⟩ =>
     match htwo ⟨⟨1, 0, 0⟩, 0, false⟩ (by decide) (by decide) (by decide) (by decide)
        (by decide) with
     | ⟨s2, hrun2, _, hz, _⟩ =>
       ⟨s, s2, hrun, hrun2, by decide, by decide, (hz (by decide)).trans (by decide)⟩⟩

/-! ## The ISP stream-router register header -/

theorem field_offset_zero (fs : List BitField) : field_offset fs 0 = 0 := by
  simp [field_offset]

theorem field_offset_succ (f : BitField) (fs : List BitField) (i : Nat) :
    field_offset (f :: fs) (i + 1) = f.width + field_offset fs i := by
  simp [field_offset]

theorem field_offset_step (fs : List BitField) (i : Nat) (f : BitField)
    (hf : fs[i]? = some f) : field_offset fs (i + 1) = field_offset fs i + f.width := by
  induction fs generalizing i with
  | nil => simp at hf
  | cons g rest ih =>
    cases i with
    | zero =>
      simp only [List.getElem?_cons_zero, Option.some.injEq] at hf
      subst hf
      simp [field_offset]
    | succ k =>
      simp only [List.getElem?_cons_succ] at hf
      rw [field_offset_succ, field_offset_succ, ih k hf, Nat.add_assoc]

theorem field_offset_mono (fs : List BitField) (i j : Nat) (hij : i ≤ j) :
    field_offset fs i ≤ field_offset fs j := by
  induction fs generalizing i j with
  | nil => simp [field_offset]
  | cons g rest ih =>
    cases i with
    | zero => rw [field_offset_zero]; exact Nat.zero_le _
    | succ a =>
      cases j with
      | zero => omega
      | succ b =>
        rw [field_offset_succ, field_offset_succ]
        exact Nat.add_le_add_left (ih a b (by omega)) _

/-- What an accepted walk establishes. -/
theorem fields_consistent_sound (fs : List BitField) (off : Nat)
    (hc : fields_consistent off fs = true) :
    off + (fs.map BitField.width).sum = 32
    ∧ ∀ (i : Nat) (f : BitField), fs[i]? = some f →
        0 < f.width
        ∧ ∀ st en : Nat, f.bounds = some (st, en) →
            st = off + field_offset fs i ∧ en + 1 = st + f.width := by
  induction fs generalizing off with
  | nil =>
    simp only [fields_consistent, beq_iff_eq] at hc
    simp [hc]
  | cons g rest ih =>
    cases g with
    | named nm w st0 en0 =>
      simp only [fields_consistent, Bool.and_eq_true, decide_eq_true_eq, beq_iff_eq] at hc
      obtain ⟨⟨⟨hw, hst⟩, hen⟩, hrest⟩ := hc
      obtain ⟨hsum, hfields⟩ := ih (off + w) hrest
      refine ⟨?_, ?_⟩
      · simp only [List.map_cons, List.sum_cons, BitField.width]
        omega
      · intro i f hf
        cases i with
        | zero =>
          simp only [List.getElem?_cons_zero, Option.some.injEq] at hf
          subst hf
          refine ⟨hw, ?_⟩
          intro st en hb
          simp only [BitField.bounds, Option.some.injEq, Prod.mk.injEq] at hb
          obtain ⟨rfl, rfl⟩ := hb
          rw [field_offset_zero]
          simp only [BitField.width]
          omega
        | succ k =>
          simp only [List.getElem?_cons_succ] at hf
          obtain ⟨hpos, hb⟩ := hfields k f hf
          refine ⟨hpos, ?_⟩
          intro st en hbe
          obtain ⟨h1, h2⟩ := hb st en hbe
          have hgw : (BitField.named nm w st0 en0).width = w := rfl
          rw [field_offset_succ, hgw]
          omega
    | reserved nm w =>
      simp only [fields_consistent, Bool.and_eq_true, decide_eq_true_eq] at hc
      obtain ⟨hw, hrest⟩ := hc
      obtain ⟨hsum, hfields⟩ := ih (off + w) hrest
      refine ⟨?_, ?_⟩
      · simp only [List.map_cons, List.sum_cons, BitField.width]
        omega
      · intro i f hf
        cases i with
        | zero =>
          simp only [List.getElem?_cons_zero, Option.some.injEq] at hf
          subst hf
          refine ⟨hw, ?_⟩
          intro st en hb
          simp [BitField.bounds] at hb
        | succ k =>
          simp only [List.getElem?_cons_succ] at hf
          obtain ⟨hpos, hb⟩ := hfields k f hf
          refine ⟨hpos, ?_⟩
          intro st en hbe
          obtain ⟨h1, h2⟩ := hb st en hbe
          have hgw : (BitField.reserved nm w).width = w := rfl
          rw [field_offset_succ, hgw]
          omega

set_option maxRecDepth 100000 in
/-- Every overlay of the header passes the walk from bit 0. -/
theorem isp_unions_consistent :
    SOC_ISP_STREAM_ROUTER_UNIONS.all (fun u => fields_consistent 0 u.fields) = true := by
  decide

theorem field_offset_le_sum (fs : List BitField) (i : Nat) :
    field_offset fs i ≤ (fs.map BitField.width).sum := by
  have hmono := field_offset_mono fs i (i + fs.length) (Nat.le_add_right _ _)
  have hall : field_offset fs (i + fs.length) = (fs.map BitField.width).sum := by
    unfold field_offset
    rw [List.take_of_length_le (Nat.le_add_left _ _)]
  rw [hall] at hmono
  exact hmono

/-- C26: the header declares 38 register overlays, and for each of them the
widths of the bit-fields of its `reg` struct, in declaration order from bit 0,
sum to exactly 32; for every named field the `_START` constant equals the sum
of the widths of the fields declared before it and the `_END` constant equals
`_START + width - 1`, which is below 32; and of two named fields of one
register the one declared first ends below the start of the other, so they do
not overlap. -/
theorem isp_stream_router_layout :
    SOC_ISP_STREAM_ROUTER_UNIONS.length = 38
    ∧ ∀ u ∈ SOC_ISP_STREAM_ROUTER_UNIONS,
      (u.fields.map BitField.width).sum = 32
      ∧ (∀ (i : Nat) (f : BitField) (st en : Nat),
          u.fields[i]? = some f → f.bounds = some (st, en) →
          st = field_offset u.fields i ∧ en = st + f.width - 1 ∧ en < 32)
      ∧ (∀ (i j : Nat) (f g : BitField) (si ei sj ej : Nat), i < j →
          u.fields[i]? = some f → u.fields[j]? = some g →
          f.bounds = some (si, ei) → g.bounds = some (sj, ej) → ei < sj) := by
  refine ⟨rfl, ?_⟩
  intro u hu
  have hc := List.all_eq_true.mp isp_unions_consistent u hu
  obtain ⟨hsum, hf⟩ := fields_consistent_sound u.fields 0 hc
  rw [Nat.zero_add] at hsum
  refine ⟨hsum, ?_, ?_⟩
  · intro i f st en hfi hb
    obtain ⟨hpos, hbnd⟩ := hf i f hfi
    obtain ⟨h1, h2⟩ := hbnd st en hb
    have hstep := field_offset_step u.fields i f hfi
    have hle := field_offset_le_sum u.fields (i + 1)
    omega
  · intro i j f g si ei sj ej hij hfi hgj hbf hbg
    obtain ⟨-, hbndf⟩ := hf i f hfi
    obtain ⟨h1, h2⟩ := hbndf si ei hbf
    obtain ⟨-, hbndg⟩ := hf j g hgj
    obtain ⟨h3, -⟩ := hbndg sj ej hbg
    have hstep := field_offset_step u.fields i f hfi
    have hmono := field_offset_mono u.fields (i + 1) j hij
    omega

/-- C26 on the `PEAK_STATUS` overlay (fields of 12, 17 reserved and 3 bits):
the widths sum to 32, `csi_afifo_status` starts at bit 29 = 12 + 17 and ends at
bit 31, and `peak_fifo_status`, ending at bit 11, lies below it. -/
theorem isp_stream_router_layout_witness :
    ∃ u : RegUnion,
      SOC_ISP_STREAM_ROUTER_UNIONS[18]? = some u
      ∧ u ∈ SOC_ISP_STREAM_ROUTER_UNIONS
      ∧ u.name = "SOC_ISP_STREAM_ROUTER_PEAK_STATUS_UNION"
      ∧ u.fields = [BitField.named "peak_fifo_status" 12 0 11, BitField.reserved "reserved" 17,
          BitField.named "csi_afifo_status" 3 29 31]
      ∧ (u.fields.map BitField.width).sum = 32
      ∧ (29 = field_offset u.fields 2 ∧ 31 = 29 + (BitField.named "csi_afifo_status" 3 29 31).width - 1
          ∧ 31 < 32)
      ∧ 11 < 29 :=
  have hmem : RegUnion.mk "SOC_ISP_STREAM_ROUTER_PEAK_STATUS_UNION"
      [BitField.named "peak_fifo_status" 12 0 11, BitField.reserved "reserved" 17,
        BitField.named "csi_afifo_status" 3 29 31] ∈ SOC_ISP_STREAM_ROUTER_UNIONS :=
    List.getElem?_mem (rfl : SOC_ISP_STREAM_ROUTER_UNIONS[18]? = some _)
  ⟨_, rfl, hmem, rfl, rfl,
    (isp_stream_router_layout.2 _ hmem).1,
    (isp_stream_router_layout.2 _ hmem).2.1 2 _ 29 31 rfl rfl,
    (isp_stream_router_layout.2 _ hmem).2.2 0 2 _ _ 0 11 29 31 (by decide) rfl rfl rfl rfl⟩

end AspHdmiDma
